import Mathlib

/-!
Input port engine: button press-mode state machines and expression mapping.

Shallow embedding of the two `expfs.c` implementations:

* `src/main/expfs.c`: `handle_fs_one`, `handle_fs_port`, `clampi_local`, `clamp7`,
  `map_exp_value`, `adc_read_raw_port`, `send_cc_all`, `send_pc_all`, `handle_exp_port`,
  `expfs_get_last_raw`, `expfs_cal_save`, the loop of `expfs_task`;
* `src/my_app/main/expfs.c`: `sw_handle_one`, `read_level`, `clampi`, `adc_init_once`,
  `adc_read_raw`, `raw_to_midi`, `apply_port_gpio_mode`, `exp_handle_one`, the loop of
  `expfs_task`.

Conventions.

* The calls made to `midi_actions_run(list, MAX_ACTIONS, cc_beh, event)` are the observable
  output of a button tick.  They are collected, in program order, in a list of `midi_call`.
  The `list` argument is a pointer to one of the two arrays of the button configuration
  (`m->short_actions`, bound to `listA`, or `m->long_actions`, bound to `listB`); it is
  recorded as an `action_list`.
* `uint8_t` fields are natural numbers; `int hold_ms` is an integer and `hold_ms += 10`
  is reduced to the 32-bit two's complement range (`wrap_int32`).
* `gpio_get_level` is the hardware read; its result is the argument `now` of a tick.
-/

namespace Expfs

/-! ## Configuration types (declared in `expfs.h` / `midi_actions.h`) -/

/-- Enumeration `press_mode` of a button configuration. -/
inductive press_mode_t where
  | BTN_SHORT
  | BTN_SHORT_LONG
  | BTN_TOGGLE
  deriving DecidableEq, Repr

/-- Enumeration `cc_behavior_t`. -/
inductive cc_behavior_t where
  | CC_NORMAL
  | CC_MOMENTARY
  deriving DecidableEq, Repr

/-- Event kind passed to `midi_actions_run`. -/
inductive midi_evt_t where
  | MIDI_EVT_TRIGGER
  | MIDI_EVT_DOWN
  | MIDI_EVT_UP
  deriving DecidableEq, Repr

/-- Which array of the button configuration a `const action_t *list` points to:
`listA = m->short_actions`, `listB = m->long_actions`. -/
inductive action_list where
  | listA
  | listB
  deriving DecidableEq, Repr

/-- The part of `expfs_btncfg_t` the state machines read besides the two action arrays. -/
structure expfs_btncfg_t where
  press_mode : press_mode_t
  cc_behavior : cc_behavior_t
  deriving DecidableEq, Repr

/-- One call `midi_actions_run(list, MAX_ACTIONS, cc_beh, event)`. -/
structure midi_call where
  list : action_list
  cc_beh : cc_behavior_t
  event : midi_evt_t
  deriving DecidableEq, Repr

/-- The call made by `run_actions_trigger_list(list, cc_beh)`. -/
def run_actions_trigger_list (list : action_list) (cc_beh : cc_behavior_t) : midi_call :=
  ⟨list, cc_beh, midi_evt_t.MIDI_EVT_TRIGGER⟩

/-- The call made by `run_actions_down_up_list(list, cc_beh, event)`. -/
def run_actions_down_up_list (list : action_list) (cc_beh : cc_behavior_t)
    (event : midi_evt_t) : midi_call :=
  ⟨list, cc_beh, event⟩

/-- The C expression `x ? listB : listA`. -/
def sel_list (x : Nat) : action_list :=
  if x ≠ 0 then action_list.listB else action_list.listA

/-- Reduction of an integer to the range of a 32-bit `int`. -/
def wrap_int32 (x : Int) : Int :=
  (x + 2147483648) % 4294967296 - 2147483648

/-! ## `handle_fs_one` (src/main/expfs.c) -/

/-- The four per-switch cells `s_fs_last_level`, `s_fs_hold_ms`, `s_fs_long_fired`,
`s_fs_ab_state` at one `[port][which]`. -/
structure fs_state where
  last_level : Nat
  hold_ms : Int
  long_fired : Nat
  ab_state : Nat
  deriving DecidableEq, Repr

/-- State written by `adc_init_once` / `expfs_task` before the first tick. -/
def fs_init : fs_state :=
  { last_level := 1, hold_ms := 0, long_fired := 0, ab_state := 0 }

/-- The `// edge down` block of `handle_fs_one`. -/
def fs_edge_down (s : fs_state) (last now : Nat) (m : expfs_btncfg_t) :
    fs_state × List midi_call :=
  if last = 1 ∧ now = 0 then
    let s1 := { s with hold_ms := 0, long_fired := 0 }
    let down :=
      if m.cc_behavior = cc_behavior_t.CC_MOMENTARY then
        if m.press_mode = press_mode_t.BTN_TOGGLE then
          let st := if s1.ab_state ≠ 0 then 1 else 0
          [run_actions_down_up_list (sel_list st) m.cc_behavior midi_evt_t.MIDI_EVT_DOWN]
        else
          [run_actions_down_up_list action_list.listA m.cc_behavior midi_evt_t.MIDI_EVT_DOWN]
      else []
    if m.press_mode = press_mode_t.BTN_TOGGLE then
      let st := if s1.ab_state ≠ 0 then 1 else 0
      ({ s1 with ab_state := if st = 0 then 1 else 0 },
        down ++ [run_actions_trigger_list (sel_list st) m.cc_behavior])
    else (s1, down)
  else (s, [])

/-- The `// hold` block of `handle_fs_one` (`LONG_MS = 400`). -/
def fs_hold (s : fs_state) (now : Nat) (m : expfs_btncfg_t) : fs_state × List midi_call :=
  if now = 0 then
    let s1 := { s with hold_ms := wrap_int32 (s.hold_ms + 10) }
    if m.press_mode = press_mode_t.BTN_SHORT_LONG ∧ s1.long_fired = 0 ∧ s1.hold_ms ≥ 400 then
      ({ s1 with long_fired := 1 }, [run_actions_trigger_list action_list.listB m.cc_behavior])
    else (s1, [])
  else (s, [])

/-- The `// edge up` block of `handle_fs_one`. -/
def fs_edge_up (s : fs_state) (last now : Nat) (m : expfs_btncfg_t) :
    fs_state × List midi_call :=
  if last = 0 ∧ now = 1 then
    let up :=
      if m.cc_behavior = cc_behavior_t.CC_MOMENTARY then
        if m.press_mode = press_mode_t.BTN_TOGGLE then
          let st := if s.ab_state ≠ 0 then 1 else 0
          [run_actions_down_up_list (sel_list st) m.cc_behavior midi_evt_t.MIDI_EVT_UP]
        else
          [run_actions_down_up_list action_list.listA m.cc_behavior midi_evt_t.MIDI_EVT_UP]
      else []
    let t1 :=
      if m.press_mode = press_mode_t.BTN_SHORT then
        [run_actions_trigger_list action_list.listA m.cc_behavior]
      else []
    let t2 :=
      if m.press_mode = press_mode_t.BTN_SHORT_LONG then
        if s.long_fired = 0 ∧ s.hold_ms < 400 then
          [run_actions_trigger_list action_list.listA m.cc_behavior]
        else []
      else []
    ({ s with hold_ms := 0, long_fired := 0 }, up ++ t1 ++ t2)
  else (s, [])

/-- One call of `handle_fs_one` on the cells `s`, where `now` is the value returned by
`gpio_get_level(pin)`; the result is the new cells and the `midi_actions_run` calls made. -/
def handle_fs_one (s : fs_state) (now : Nat) (m : expfs_btncfg_t) :
    fs_state × List midi_call :=
  let last := s.last_level
  let r1 := fs_edge_down s last now m
  let r2 := fs_hold r1.1 now m
  let r3 := fs_edge_up r2.1 last now m
  ({ r3.1 with last_level := now % 256 }, r1.2 ++ r2.2 ++ r3.2)

/-- State of the cells after successive ticks of `handle_fs_one` with a fixed configuration. -/
def fs_run (m : expfs_btncfg_t) : fs_state → List Nat → fs_state
  | s, [] => s
  | s, now :: rest => fs_run m (handle_fs_one s now m).1 rest

/-- The calls made on each of the successive ticks of `handle_fs_one`. -/
def fs_trace (m : expfs_btncfg_t) : fs_state → List Nat → List (List midi_call)
  | _, [] => []
  | s, now :: rest => (handle_fs_one s now m).2 :: fs_trace m (handle_fs_one s now m).1 rest

/-! ## `sw_handle_one` (src/my_app/main/expfs.c) -/

/-- The struct `sw_state_t`. -/
structure sw_state_t where
  last_level : Nat
  hold_ms : Int
  long_fired : Nat
  toggle_ab : Nat
  pressed_sel : Nat
  deriving DecidableEq, Repr

/-- State written by `expfs_task` (memset to zero, then `last_level = 1`). -/
def sw_init : sw_state_t :=
  { last_level := 1, hold_ms := 0, long_fired := 0, toggle_ab := 0, pressed_sel := 0 }

/-- The function `read_level`, applied to the value of `gpio_get_level(pin)`. -/
def read_level (gpio_level : Nat) : Nat :=
  if gpio_level ≠ 0 then 1 else 0

/-- The `// edge: down` block of `sw_handle_one`. -/
def sw_edge_down (st : sw_state_t) (now : Nat) (m : expfs_btncfg_t) :
    sw_state_t × List midi_call :=
  if st.last_level = 1 ∧ now = 0 then
    let st1 := { st with hold_ms := 0, long_fired := 0 }
    let r : sw_state_t × List midi_call :=
      if m.cc_behavior = cc_behavior_t.CC_MOMENTARY then
        if m.press_mode = press_mode_t.BTN_TOGGLE then
          let sel := if st1.toggle_ab ≠ 0 then 1 else 0
          ({ st1 with pressed_sel := sel },
            [run_actions_down_up_list (sel_list sel) m.cc_behavior midi_evt_t.MIDI_EVT_DOWN])
        else
          (st1,
            [run_actions_down_up_list action_list.listA m.cc_behavior midi_evt_t.MIDI_EVT_DOWN])
      else (st1, [])
    if m.press_mode = press_mode_t.BTN_TOGGLE then
      let sel := if r.1.toggle_ab ≠ 0 then 1 else 0
      ({ r.1 with toggle_ab := if r.1.toggle_ab = 0 then 1 else 0 },
        r.2 ++ [run_actions_trigger_list (sel_list sel) m.cc_behavior])
    else r
  else (st, [])

/-- The `// hold` block of `sw_handle_one`. -/
def sw_hold (st : sw_state_t) (now : Nat) (m : expfs_btncfg_t) (long_ms : Int) :
    sw_state_t × List midi_call :=
  if now = 0 then
    let st1 := { st with hold_ms := wrap_int32 (st.hold_ms + 10) }
    if m.press_mode = press_mode_t.BTN_SHORT_LONG ∧ st1.long_fired = 0 ∧
        st1.hold_ms ≥ long_ms then
      ({ st1 with long_fired := 1 },
        [run_actions_trigger_list action_list.listB m.cc_behavior])
    else (st1, [])
  else (st, [])

/-- The `// edge: up` block of `sw_handle_one`; `last` is `st->last_level`, which no
earlier block writes. -/
def sw_edge_up (st : sw_state_t) (now : Nat) (m : expfs_btncfg_t) (long_ms : Int) :
    sw_state_t × List midi_call :=
  if st.last_level = 0 ∧ now = 1 then
    let up :=
      if m.cc_behavior = cc_behavior_t.CC_MOMENTARY then
        if m.press_mode = press_mode_t.BTN_TOGGLE then
          let sel := if st.pressed_sel ≠ 0 then 1 else 0
          [run_actions_down_up_list (sel_list sel) m.cc_behavior midi_evt_t.MIDI_EVT_UP]
        else
          [run_actions_down_up_list action_list.listA m.cc_behavior midi_evt_t.MIDI_EVT_UP]
      else []
    let trig :=
      if m.press_mode = press_mode_t.BTN_SHORT then
        [run_actions_trigger_list action_list.listA m.cc_behavior]
      else if m.press_mode = press_mode_t.BTN_SHORT_LONG then
        if st.long_fired = 0 ∧ st.hold_ms < long_ms then
          [run_actions_trigger_list action_list.listA m.cc_behavior]
        else []
      else []
    ({ st with hold_ms := 0, long_fired := 0 }, up ++ trig)
  else (st, [])

/-- One call of `sw_handle_one(st, pin, m, long_ms)` with non-null `st` and `m`;
`gpio_level` is the value returned by `gpio_get_level(pin)`. -/
def sw_handle_one (st : sw_state_t) (gpio_level : Nat) (m : expfs_btncfg_t) (long_ms : Int) :
    sw_state_t × List midi_call :=
  let now := read_level gpio_level
  let r1 := sw_edge_down st now m
  let r2 := sw_hold r1.1 now m long_ms
  let r3 := sw_edge_up r2.1 now m long_ms
  ({ r3.1 with last_level := now }, r1.2 ++ r2.2 ++ r3.2)

/-- State after successive ticks of `sw_handle_one` with a fixed configuration. -/
def sw_run (m : expfs_btncfg_t) (long_ms : Int) : sw_state_t → List Nat → sw_state_t
  | st, [] => st
  | st, lv :: rest => sw_run m long_ms (sw_handle_one st lv m long_ms).1 rest

/-- The calls made on each of the successive ticks of `sw_handle_one`. -/
def sw_trace (m : expfs_btncfg_t) (long_ms : Int) :
    sw_state_t → List Nat → List (List midi_call)
  | _, [] => []
  | st, lv :: rest =>
    (sw_handle_one st lv m long_ms).2 :: sw_trace m long_ms (sw_handle_one st lv m long_ms).1 rest

/-- The constant `LONG_MS` of `expfs_task`. -/
def LONG_MS : Int := 400

/-! ## Expression mapping: `clampi_local`, `clamp7`, `map_exp_value` (src/main/expfs.c)

`expfs_port_cfg_t` and `action_t` are declared in headers; their integer fields are read
here as integers (`(int)cfg->cal_min`, `v1 = cfg->exp_action.b`, ...).  The function computes
in `int` and `int64_t`; for fields of the widths the firmware stores (16-bit calibration
bounds, 8-bit action parameters) no intermediate value leaves the `int` range, and the
embedding computes in the integers.  `raw` is the `uint16_t` argument.  A division is
checked: the result `none` stands for a division by zero. -/

/-- The `type` tag of an `action_t`: `ACT_CC`, `ACT_PC`, or any other tag value. -/
inductive act_type_t where
  | ACT_CC
  | ACT_PC
  | ACT_OTHER (tag : Nat)
  deriving DecidableEq, Repr

/-- The fields of `action_t` read by the expression path. -/
structure action_t where
  type : act_type_t
  ch : Int
  a : Int
  b : Int
  c : Int
  deriving DecidableEq, Repr

/-- The enumeration of port kinds. -/
inductive expfs_kind_t where
  | EXPFS_KIND_EXP
  | EXPFS_KIND_SINGLE_SW
  | EXPFS_KIND_DUAL_SW
  deriving DecidableEq, Repr

/-- The struct `expfs_port_cfg_t`. -/
structure expfs_port_cfg_t where
  kind : expfs_kind_t
  tip : expfs_btncfg_t
  ring : expfs_btncfg_t
  exp_action : action_t
  cal_min : Int
  cal_max : Int
  deriving DecidableEq, Repr

/-- The function `clampi_local`. -/
def clampi_local (v lo hi : Int) : Int :=
  if v < lo then lo else if v > hi then hi else v

/-- The function `clamp7`; the cast `(uint8_t)v` is applied to a value in 0..127. -/
def clamp7 (v : Int) : Int :=
  if v < 0 then 0 else if v > 127 then 127 else v

/-- C integer division `a / b` (truncation toward zero); `none` when the divisor is zero. -/
def c_div (a b : Int) : Option Int :=
  if b = 0 then none else some (Int.tdiv a b)

/-- The local `lo` of `map_exp_value` after the swap `if (hi < lo) ...`. -/
def cal_lo (cfg : expfs_port_cfg_t) : Int :=
  if cfg.cal_max < cfg.cal_min then cfg.cal_max else cfg.cal_min

/-- The local `hi` of `map_exp_value` after the swap `if (hi < lo) ...`. -/
def cal_hi (cfg : expfs_port_cfg_t) : Int :=
  if cfg.cal_max < cfg.cal_min then cfg.cal_min else cfg.cal_max

/-- The local `norm` of `map_exp_value`:
`r = clampi_local((int)raw, lo, hi); norm = (r - lo) * 127 / (hi - lo)`. -/
def map_exp_norm (lo hi : Int) (raw : Nat) : Option Int :=
  c_div ((clampi_local (raw : Int) lo hi - lo) * 127) (hi - lo)

/-- The locals `(v1, v2)` of `map_exp_value`: the output range of the action. -/
def exp_out_range (act : action_t) : Int × Int :=
  match act.type with
  | act_type_t.ACT_CC => (act.b, act.c)
  | act_type_t.ACT_PC => (act.a, act.b)
  | act_type_t.ACT_OTHER _ => (0, 127)

/-- The function `map_exp_value(cfg, raw)`; `cfg = none` is the null pointer. -/
def map_exp_value (cfg : Option expfs_port_cfg_t) (raw : Nat) : Option Int :=
  match cfg with
  | none => some 0
  | some cfg =>
    let lo := cal_lo cfg
    let hi := cal_hi cfg
    if hi - lo < 8 then some 0
    else
      match map_exp_norm lo hi raw with
      | none => none
      | some norm =>
        let v1 := (exp_out_range cfg.exp_action).1
        let v2 := (exp_out_range cfg.exp_action).2
        let out :=
          if v2 ≥ v1 then (c_div (norm * (v2 - v1)) 127).map (fun q => v1 + q)
          else (c_div (norm * (v1 - v2)) 127).map (fun q => v1 - q)
        out.map clamp7

/-! ## Expression port (src/main/expfs.c): `adc_read_raw_port`, `send_cc_all`,
`send_pc_all`, `handle_exp_port`

The hardware and the transports are inputs of a tick: the result of `adc_oneshot_read`
(`none` when it does not return `ESP_OK`), the value `t` of `now_ms()`, and the values of
`usb_midi_ready_fast()` and `uart_midi_out_ready_fast()`.  The writes that program the pins
(`gpio_set_direction`, `gpio_set_level`, `gpio_set_pull_mode`) are not part of the model. -/

/-- The macro `EXPFS_PORT_COUNT`: the table `HW` is initialised with two entries. -/
def EXPFS_PORT_COUNT : Int := 2

/-- The enumeration `adc_unit_t`. -/
inductive adc_unit_t where
  | ADC_UNIT_1
  | ADC_UNIT_2
  deriving DecidableEq, Repr

/-- The struct `adc_map_t`. -/
structure adc_map_t where
  valid : Nat
  unit : adc_unit_t
  chan : Nat
  deriving DecidableEq, Repr

/-- The function `adc_read_raw_port(port, &raw)` with a non-null `out_raw`: `none` when it
returns 0, `some raw` when it returns 1 and stores `raw`.  `u1`, `u2` tell whether the handles
`s_adc_u1`, `s_adc_u2` are non-null; `read` is the result of `adc_oneshot_read`. -/
def adc_read_raw_port (port : Int) (s_adc_map : Int → adc_map_t) (u1 u2 : Bool)
    (read : Option Int) : Option Int :=
  if port < 0 ∨ port ≥ EXPFS_PORT_COUNT then none
  else if (s_adc_map port).valid = 0 then none
  else
    let h := match (s_adc_map port).unit with
      | adc_unit_t.ADC_UNIT_1 => u1
      | adc_unit_t.ADC_UNIT_2 => u2
    if h = false then none
    else
      match read with
      | none => none
      | some raw => some raw

/-- A message handed to a transport. -/
inductive midi_msg where
  | usb_cc (ch cc val : Int)
  | uart_cc (ch cc val : Int)
  | usb_pc (ch pc : Int)
  | uart_pc (ch pc : Int)
  deriving DecidableEq, Repr

/-- The function `send_cc_all`. -/
def send_cc_all (usb_ready uart_ready : Bool) (ch cc val : Int) : List midi_msg :=
  (if usb_ready then [midi_msg.usb_cc ch cc val] else []) ++
    (if uart_ready then [midi_msg.uart_cc ch cc val] else [])

/-- The function `send_pc_all`. -/
def send_pc_all (usb_ready uart_ready : Bool) (ch pc : Int) : List midi_msg :=
  (if usb_ready then [midi_msg.usb_pc ch pc] else []) ++
    (if uart_ready then [midi_msg.uart_pc ch pc] else [])

/-- The cells `s_last_raw[port]`, `s_last_mapped[port]`, `s_last_send_ms[port]`. -/
structure exp_state where
  last_raw : Nat
  last_mapped : Int
  last_send_ms : Nat
  deriving DecidableEq, Repr

/-- Values written by `adc_init_once`: `s_last_raw = 0`, `s_last_mapped = 0xFF`,
`s_last_send_ms = 0`. -/
def exp_init : exp_state :=
  { last_raw := 0, last_mapped := 255, last_send_ms := 0 }

/-- The function `handle_exp_port(port, cfg)` on the cells of `port`.  `adc` is the result of
`adc_read_raw_port(port, &raw)`, `t` the value of `now_ms()`.  The result is `none` only if
`map_exp_value` divides by zero. -/
def handle_exp_port (s : exp_state) (adc : Option Int) (t : Nat) (usb_ready uart_ready : Bool)
    (cfg : expfs_port_cfg_t) : Option (exp_state × List midi_msg) :=
  let s1 : exp_state :=
    match adc with
    | some raw =>
      let raw1 := if raw < 0 then 0 else raw
      let raw2 := if raw1 > 4095 then 4095 else raw1
      { s with last_raw := raw2.toNat }
    | none => s
  match map_exp_value (some cfg) s1.last_raw with
  | none => none
  | some mapped =>
    if mapped ≠ s1.last_mapped then
      if ((t : Int) - (s1.last_send_ms : Int)) % 4294967296 ≥ 25 then
        let s2 : exp_state := { s1 with last_send_ms := t, last_mapped := mapped }
        let ch := clampi_local cfg.exp_action.ch 1 16
        match cfg.exp_action.type with
        | act_type_t.ACT_CC =>
          some (s2, send_cc_all usb_ready uart_ready ch (clamp7 cfg.exp_action.a) mapped)
        | act_type_t.ACT_PC => some (s2, send_pc_all usb_ready uart_ready ch mapped)
        | act_type_t.ACT_OTHER _ => some (s2, [])
      else some (s1, [])
    else some (s1, [])

/-- The inputs of one call of `handle_exp_port`. -/
structure exp_tick where
  cfg : expfs_port_cfg_t
  adc : Option Int
  t : Nat
  usb_ready : Bool
  uart_ready : Bool

/-- Successive calls of `handle_exp_port` on one port: the time and the messages of each
call. -/
def exp_trace : exp_state → List exp_tick → Option (List (Nat × List midi_msg))
  | _, [] => some []
  | s, x :: rest =>
    match handle_exp_port s x.adc x.t x.usb_ready x.uart_ready x.cfg with
    | none => none
    | some r =>
      match exp_trace r.1 rest with
      | none => none
      | some tr => some ((x.t, r.2) :: tr)

/-- The function `expfs_get_last_raw`; `s_last_raw` is the array of the `last_raw` cells. -/
def expfs_get_last_raw (s_last_raw : Int → Nat) (port : Int) : Nat :=
  if port < 0 ∨ port ≥ EXPFS_PORT_COUNT then 0 else s_last_raw port

/-- The function `expfs_cal_save`.  `config_store_set_expfs_cal` is the operation of the
configuration store, acting on the store `σ` and returning an `esp_err_t` of type `ε`. -/
def expfs_cal_save {σ ε : Type} (config_store_set_expfs_cal : σ → Int → Int → Nat → σ × ε)
    (store : σ) (s_last_raw : Int → Nat) (port which_min0_max1 : Int) : σ × ε :=
  let port1 := clampi_local port 0 (EXPFS_PORT_COUNT - 1)
  let raw := expfs_get_last_raw s_last_raw port1
  config_store_set_expfs_cal store port1 (if which_min0_max1 ≠ 0 then 1 else 0) raw

/-! ## Tick of src/main/expfs.c: `handle_fs_port`, loop body of `expfs_task` -/

/-- What one port emits during a tick: a message to a transport (`handle_exp_port`), a call
`midi_actions_run` of the switch `which` (0 = tip, 1 = ring), or the call
`midi_actions_run(&a, 1, CC_NORMAL, MIDI_EVT_TRIGGER)` of `exp_handle_one`. -/
inductive expfs_event where
  | midi (m : midi_msg)
  | actions (which : Nat) (c : midi_call)
  | exp_action (a : action_t)
  deriving DecidableEq, Repr

/-- The function `handle_fs_port(port, cfg)` on the switch cells of `port`; `tip_level` and
`ring_level` are the values of `gpio_get_level` on the two pins. -/
def handle_fs_port (tip ring : fs_state) (tip_level ring_level : Nat)
    (cfg : expfs_port_cfg_t) : (fs_state × fs_state) × List expfs_event :=
  if cfg.kind = expfs_kind_t.EXPFS_KIND_SINGLE_SW then
    let r := handle_fs_one tip tip_level cfg.tip
    ((r.1, ring), r.2.map (expfs_event.actions 0))
  else if cfg.kind = expfs_kind_t.EXPFS_KIND_DUAL_SW then
    let r0 := handle_fs_one tip tip_level cfg.tip
    let r1 := handle_fs_one ring ring_level cfg.ring
    ((r0.1, r1.1), r0.2.map (expfs_event.actions 0) ++ r1.2.map (expfs_event.actions 1))
  else ((tip, ring), [])

/-- All cells of one port in src/main/expfs.c. -/
structure port_cells where
  exp : exp_state
  tip : fs_state
  ring : fs_state
  deriving DecidableEq, Repr

/-- The inputs of one port during one tick of src/main/expfs.c: the pointer returned by
`config_store_get_expfs_cfg` (`none` = NULL), the result of `adc_read_raw_port`, the time
and the transport readiness seen by `handle_exp_port`, the pin levels. -/
structure port_in where
  cfg : Option expfs_port_cfg_t
  adc : Option Int
  t : Nat
  usb_ready : Bool
  uart_ready : Bool
  tip_level : Nat
  ring_level : Nat

/-- The body of `for (int p = 0; p < EXPFS_PORT_COUNT; p++)` in `expfs_task`
(src/main/expfs.c) for one `p`. -/
def expfs_task_port (c : port_cells) (i : port_in) : Option (port_cells × List expfs_event) :=
  match i.cfg with
  | none => some (c, [])
  | some cfg =>
    if cfg.kind = expfs_kind_t.EXPFS_KIND_EXP then
      match handle_exp_port c.exp i.adc i.t i.usb_ready i.uart_ready cfg with
      | none => none
      | some r => some ({ c with exp := r.1 }, r.2.map expfs_event.midi)
    else
      let r := handle_fs_port c.tip c.ring i.tip_level i.ring_level cfg
      some ({ c with tip := r.1.1, ring := r.1.2 }, r.2)

/-- One iteration of `while (1)` in `expfs_task` (src/main/expfs.c): port 0, then port 1.
The events are paired with the port that emits them. -/
def expfs_task_tick (g : port_cells × port_cells) (i0 i1 : port_in) :
    Option ((port_cells × port_cells) × List (Nat × expfs_event)) :=
  match expfs_task_port g.1 i0 with
  | none => none
  | some r0 =>
    match expfs_task_port g.2 i1 with
    | none => none
    | some r1 =>
      some ((r0.1, r1.1), r0.2.map (fun e => (0, e)) ++ r1.2.map (fun e => (1, e)))

/-! ## Tick of src/my_app/main/expfs.c: `clampi`, `adc_init_once`, `adc_read_raw`,
`raw_to_midi`, `apply_port_gpio_mode`, `exp_handle_one`, loop body of `expfs_task` -/

/-- The function `clampi`. -/
def clampi (v lo hi : Int) : Int :=
  if v < lo then lo else if v > hi then hi else v

/-- The function `adc_init_once`, as the new value of "`s_adc` is non-null";
`new_unit_ok` tells whether `adc_oneshot_new_unit` returns `ESP_OK` and a handle. -/
def adc_init_once (s_adc : Bool) (new_unit_ok : Bool) : Bool :=
  if s_adc then true else new_unit_ok

/-- The function `adc_read_raw`; `read` is the result of `adc_oneshot_read`. -/
def adc_read_raw (s_adc : Bool) (read : Option Int) : Int :=
  if s_adc = false then -1
  else
    match read with
    | none => -1
    | some raw => raw

/-- The function `raw_to_midi`. -/
def raw_to_midi (raw : Int) : Int :=
  let raw1 := clampi raw 0 4095
  let v := Int.tdiv (raw1 * 127 + 2047) 4095
  clampi v 0 127

/-- The effect of `apply_port_gpio_mode(port, cfg)` on `s_adc`: `adc_init_once` is called
for the kind EXPRESSION. -/
def apply_port_gpio_mode (s_adc : Bool) (cfg : expfs_port_cfg_t) (new_unit_ok : Bool) : Bool :=
  if cfg.kind = expfs_kind_t.EXPFS_KIND_EXP then adc_init_once s_adc new_unit_ok else s_adc

/-- The struct `port_state_t`. -/
structure port_state_t where
  last_midi : Int
  exp_inited : Nat
  tip : sw_state_t
  ring : sw_state_t
  deriving DecidableEq, Repr

/-- Values written by `expfs_task` before the loop. -/
def port_state_init : port_state_t :=
  { last_midi := 0, exp_inited := 0, tip := sw_init, ring := sw_init }

/-- The function `exp_handle_one(port, ps, cfg)` with non-null pointers. -/
def exp_handle_one (ps : port_state_t) (s_adc : Bool) (read : Option Int)
    (cfg : expfs_port_cfg_t) : port_state_t × List expfs_event :=
  if cfg.kind ≠ expfs_kind_t.EXPFS_KIND_EXP then (ps, [])
  else if cfg.exp_action.type ≠ act_type_t.ACT_CC then (ps, [])
  else
    let raw := adc_read_raw s_adc read
    if raw < 0 then (ps, [])
    else
      let v := raw_to_midi raw
      if ps.exp_inited = 0 then
        ({ ps with exp_inited := 1, last_midi := v },
          [expfs_event.exp_action { cfg.exp_action with b := v }])
      else if v = ps.last_midi then (ps, [])
      else
        ({ ps with last_midi := v }, [expfs_event.exp_action { cfg.exp_action with b := v }])

/-- What the loop of src/my_app/main/expfs.c keeps for one port: `s_ps[p]` and
`last_cfg[p].kind`. -/
structure myapp_port_state where
  ps : port_state_t
  last_kind : expfs_kind_t
  deriving DecidableEq, Repr

/-- The inputs of one port during one tick of src/my_app/main/expfs.c. -/
structure myapp_port_in where
  cfg : Option expfs_port_cfg_t
  new_unit_ok : Bool
  read : Option Int
  tip_level : Nat
  ring_level : Nat

/-- The body of `for (int p = 0; p < EXPFS_PORTS; p++)` in `expfs_task`
(src/my_app/main/expfs.c) for one `p`; `s_adc` is shared by the ports. -/
def myapp_task_port (c : myapp_port_state) (s_adc : Bool) (i : myapp_port_in) :
    (myapp_port_state × Bool) × List expfs_event :=
  match i.cfg with
  | none => ((c, s_adc), [])
  | some cfg =>
    let changed := cfg.kind ≠ c.last_kind
    let last_kind1 := if changed then cfg.kind else c.last_kind
    let s_adc1 := if changed then apply_port_gpio_mode s_adc cfg i.new_unit_ok else s_adc
    let ps1 : port_state_t := if changed then { c.ps with exp_inited := 0 } else c.ps
    let r := exp_handle_one ps1 s_adc1 i.read cfg
    let ps2 := r.1
    if cfg.kind = expfs_kind_t.EXPFS_KIND_SINGLE_SW then
      let t := sw_handle_one ps2.tip i.tip_level cfg.tip LONG_MS
      ((⟨{ ps2 with tip := t.1 }, last_kind1⟩, s_adc1),
        r.2 ++ t.2.map (expfs_event.actions 0))
    else if cfg.kind = expfs_kind_t.EXPFS_KIND_DUAL_SW then
      let t := sw_handle_one ps2.tip i.tip_level cfg.tip LONG_MS
      let u := sw_handle_one ps2.ring i.ring_level cfg.ring LONG_MS
      ((⟨{ ps2 with tip := t.1, ring := u.1 }, last_kind1⟩, s_adc1),
        r.2 ++ t.2.map (expfs_event.actions 0) ++ u.2.map (expfs_event.actions 1))
    else ((⟨ps2, last_kind1⟩, s_adc1), r.2)

/-- The state of the loop of src/my_app/main/expfs.c. -/
structure myapp_state where
  p0 : myapp_port_state
  p1 : myapp_port_state
  s_adc : Bool
  deriving DecidableEq, Repr

/-- One iteration of `while (1)` in `expfs_task` (src/my_app/main/expfs.c): port 0, then
port 1.  The events are paired with the port that emits them. -/
def myapp_task_tick (g : myapp_state) (i0 i1 : myapp_port_in) :
    myapp_state × List (Nat × expfs_event) :=
  let r0 := myapp_task_port g.p0 g.s_adc i0
  let r1 := myapp_task_port g.p1 r0.1.2 i1
  (⟨r0.1.1, r1.1.1, r1.1.2⟩, r0.2.map (fun e => (0, e)) ++ r1.2.map (fun e => (1, e)))

/-! ## Runs over several ticks -/

/-- State of the cells after successive ticks of `handle_fs_one`, each tick with its own
level and configuration. -/
def fs_runs : fs_state → List (Nat × expfs_btncfg_t) → fs_state
  | s, [] => s
  | s, x :: rest => fs_runs (handle_fs_one s x.1 x.2).1 rest

/-- State after successive ticks of `sw_handle_one` with `long_ms = LONG_MS`, each tick with
its own level and configuration. -/
def sw_runs : sw_state_t → List (Nat × expfs_btncfg_t) → sw_state_t
  | st, [] => st
  | st, x :: rest => sw_runs (sw_handle_one st x.1 x.2 LONG_MS).1 rest

/-- The cells of both ports after `adc_init_once` (src/main/expfs.c). -/
def expfs_task_init : port_cells × port_cells :=
  (⟨exp_init, fs_init, fs_init⟩, ⟨exp_init, fs_init, fs_init⟩)

/-- The cells after successive iterations of `while (1)` in `expfs_task`
(src/main/expfs.c). -/
def expfs_task_run :
    port_cells × port_cells → List (port_in × port_in) → Option (port_cells × port_cells)
  | g, [] => some g
  | g, x :: rest =>
    match expfs_task_tick g x.1 x.2 with
    | none => none
    | some r => expfs_task_run r.1 rest

/-- The array `s_last_raw` of src/main/expfs.c, read from the cells of the two ports. -/
def s_last_raw (g : port_cells × port_cells) (port : Int) : Nat :=
  if port = 0 then g.1.exp.last_raw else g.2.exp.last_raw

open press_mode_t cc_behavior_t midi_evt_t action_list

theorem sel_list_norm (x : Nat) : sel_list (if x ≠ 0 then 1 else 0) = sel_list x := by
  by_cases hx : x = 0 <;> simp [sel_list, hx]

theorem sel_list_flip (x : Nat) : sel_list (if x = 0 then 1 else 0) ≠ sel_list x := by
  by_cases hx : x = 0 <;> simp [sel_list, hx]

/-- Edge-down tick of `handle_fs_one` (stored level released, sampled level pressed). -/
theorem fs_step_down (h : Int) (lf ab : Nat) (pm : press_mode_t) (cc : cc_behavior_t) :
    handle_fs_one ⟨1, h, lf, ab⟩ 0 ⟨pm, cc⟩ =
      (⟨0, 10, 0, if pm = BTN_TOGGLE then (if ab = 0 then 1 else 0) else ab⟩,
        (if cc = CC_MOMENTARY then
            [⟨if pm = BTN_TOGGLE then sel_list ab else listA, cc, MIDI_EVT_DOWN⟩]
          else []) ++
        (if pm = BTN_TOGGLE then [⟨sel_list ab, cc, MIDI_EVT_TRIGGER⟩] else [])) := by
  by_cases hab : ab = 0 <;> cases pm <;> cases cc <;>
    simp [handle_fs_one, fs_edge_down, fs_hold, fs_edge_up, wrap_int32,
      run_actions_down_up_list, run_actions_trigger_list, sel_list, hab]

/-- Held tick of `handle_fs_one` (stored level pressed, sampled level pressed). -/
theorem fs_step_held (h : Int) (lf ab : Nat) (pm : press_mode_t) (cc : cc_behavior_t) :
    handle_fs_one ⟨0, h, lf, ab⟩ 0 ⟨pm, cc⟩ =
      (⟨0, wrap_int32 (h + 10),
          if pm = BTN_SHORT_LONG ∧ lf = 0 ∧ wrap_int32 (h + 10) ≥ 400 then 1 else lf, ab⟩,
        if pm = BTN_SHORT_LONG ∧ lf = 0 ∧ wrap_int32 (h + 10) ≥ 400 then
          [⟨listB, cc, MIDI_EVT_TRIGGER⟩] else []) := by
  by_cases hlf : lf = 0 <;> by_cases hh : wrap_int32 (h + 10) ≥ 400 <;>
    cases pm <;> cases cc <;>
    simp [handle_fs_one, fs_edge_down, fs_hold, fs_edge_up,
      run_actions_down_up_list, run_actions_trigger_list, hlf, hh]

/-- Edge-up tick of `handle_fs_one` (stored level pressed, sampled level released). -/
theorem fs_step_up (h : Int) (lf ab : Nat) (pm : press_mode_t) (cc : cc_behavior_t) :
    handle_fs_one ⟨0, h, lf, ab⟩ 1 ⟨pm, cc⟩ =
      (⟨1, 0, 0, ab⟩,
        (if cc = CC_MOMENTARY then
            [⟨if pm = BTN_TOGGLE then sel_list ab else listA, cc, MIDI_EVT_UP⟩]
          else []) ++
        (if pm = BTN_SHORT then [⟨listA, cc, MIDI_EVT_TRIGGER⟩] else []) ++
        (if pm = BTN_SHORT_LONG ∧ lf = 0 ∧ h < 400 then [⟨listA, cc, MIDI_EVT_TRIGGER⟩]
          else [])) := by
  by_cases hab : ab = 0 <;> by_cases hlf : lf = 0 <;> by_cases hh : h < 400 <;>
    cases pm <;> cases cc <;>
    simp [handle_fs_one, fs_edge_down, fs_hold, fs_edge_up,
      run_actions_down_up_list, run_actions_trigger_list, sel_list, hab, hlf, hh]

/-- Idle tick of `handle_fs_one` (stored level released, sampled level released). -/
theorem fs_step_idle (h : Int) (lf ab : Nat) (m : expfs_btncfg_t) :
    handle_fs_one ⟨1, h, lf, ab⟩ 1 m = (⟨1, h, lf, ab⟩, []) := by
  simp [handle_fs_one, fs_edge_down, fs_hold, fs_edge_up]

/-! ## Step lemmas for `sw_handle_one` with `long_ms = 400` -/

/-- Edge-down tick of `sw_handle_one`. -/
theorem sw_step_down (h : Int) (lf tab ps : Nat) (pm : press_mode_t) (cc : cc_behavior_t) :
    sw_handle_one ⟨1, h, lf, tab, ps⟩ 0 ⟨pm, cc⟩ 400 =
      (⟨0, 10, 0, if pm = BTN_TOGGLE then (if tab = 0 then 1 else 0) else tab,
          if cc = CC_MOMENTARY ∧ pm = BTN_TOGGLE then (if tab ≠ 0 then 1 else 0) else ps⟩,
        (if cc = CC_MOMENTARY then
            [⟨if pm = BTN_TOGGLE then sel_list tab else listA, cc, MIDI_EVT_DOWN⟩]
          else []) ++
        (if pm = BTN_TOGGLE then [⟨sel_list tab, cc, MIDI_EVT_TRIGGER⟩] else [])) := by
  by_cases hab : tab = 0 <;> cases pm <;> cases cc <;>
    simp [sw_handle_one, sw_edge_down, sw_hold, sw_edge_up, read_level, wrap_int32,
      run_actions_down_up_list, run_actions_trigger_list, sel_list, hab]

/-- Held tick of `sw_handle_one`. -/
theorem sw_step_held (h : Int) (lf tab ps : Nat) (pm : press_mode_t) (cc : cc_behavior_t) :
    sw_handle_one ⟨0, h, lf, tab, ps⟩ 0 ⟨pm, cc⟩ 400 =
      (⟨0, wrap_int32 (h + 10),
          if pm = BTN_SHORT_LONG ∧ lf = 0 ∧ wrap_int32 (h + 10) ≥ 400 then 1 else lf,
          tab, ps⟩,
        if pm = BTN_SHORT_LONG ∧ lf = 0 ∧ wrap_int32 (h + 10) ≥ 400 then
          [⟨listB, cc, MIDI_EVT_TRIGGER⟩] else []) := by
  by_cases hlf : lf = 0 <;> by_cases hh : wrap_int32 (h + 10) ≥ 400 <;>
    cases pm <;> cases cc <;>
    simp [sw_handle_one, sw_edge_down, sw_hold, sw_edge_up, read_level,
      run_actions_down_up_list, run_actions_trigger_list, hlf, hh]

/-- Edge-up tick of `sw_handle_one`: the UP list is chosen by `pressed_sel`. -/
theorem sw_step_up (h : Int) (lf tab ps : Nat) (pm : press_mode_t) (cc : cc_behavior_t) :
    sw_handle_one ⟨0, h, lf, tab, ps⟩ 1 ⟨pm, cc⟩ 400 =
      (⟨1, 0, 0, tab, ps⟩,
        (if cc = CC_MOMENTARY then
            [⟨if pm = BTN_TOGGLE then sel_list ps else listA, cc, MIDI_EVT_UP⟩]
          else []) ++
        (if pm = BTN_SHORT then [⟨listA, cc, MIDI_EVT_TRIGGER⟩] else []) ++
        (if pm = BTN_SHORT_LONG ∧ lf = 0 ∧ h < 400 then [⟨listA, cc, MIDI_EVT_TRIGGER⟩]
          else [])) := by
  by_cases hab : ps = 0 <;> by_cases hlf : lf = 0 <;> by_cases hh : h < 400 <;>
    cases pm <;> cases cc <;>
    simp [sw_handle_one, sw_edge_down, sw_hold, sw_edge_up, read_level,
      run_actions_down_up_list, run_actions_trigger_list, sel_list, hab, hlf, hh]

/-- Idle tick of `sw_handle_one`. -/
theorem sw_step_idle (h : Int) (lf tab ps : Nat) (m : expfs_btncfg_t) :
    sw_handle_one ⟨1, h, lf, tab, ps⟩ 1 m 400 = (⟨1, h, lf, tab, ps⟩, []) := by
  simp [sw_handle_one, sw_edge_down, sw_hold, sw_edge_up, read_level]

/-! ## Traces over concatenated level sequences -/

theorem fs_run_append (m : expfs_btncfg_t) (s : fs_state) (l1 l2 : List Nat) :
    fs_run m s (l1 ++ l2) = fs_run m (fs_run m s l1) l2 := by
  induction l1 generalizing s with
  | nil => rfl
  | cons x xs ih => simp [fs_run, ih]

theorem fs_trace_append (m : expfs_btncfg_t) (s : fs_state) (l1 l2 : List Nat) :
    fs_trace m s (l1 ++ l2) = fs_trace m s l1 ++ fs_trace m (fs_run m s l1) l2 := by
  induction l1 generalizing s with
  | nil => rfl
  | cons x xs ih => simp [fs_run, fs_trace, ih]

theorem sw_run_append (m : expfs_btncfg_t) (t : Int) (s : sw_state_t) (l1 l2 : List Nat) :
    sw_run m t s (l1 ++ l2) = sw_run m t (sw_run m t s l1) l2 := by
  induction l1 generalizing s with
  | nil => rfl
  | cons x xs ih => simp [sw_run, ih]

theorem sw_trace_append (m : expfs_btncfg_t) (t : Int) (s : sw_state_t) (l1 l2 : List Nat) :
    sw_trace m t s (l1 ++ l2) = sw_trace m t s l1 ++ sw_trace m t (sw_run m t s l1) l2 := by
  induction l1 generalizing s with
  | nil => rfl
  | cons x xs ih => simp [sw_run, sw_trace, ih]

/-! ## Held phases -/

/-- While the level stays pressed and no long press can fire (the mode is not
`BTN_SHORT_LONG`, or the long press has fired already), `handle_fs_one` makes no call and
changes only `hold_ms`. -/
theorem fs_held_quiet (pm : press_mode_t) (cc : cc_behavior_t) (lf ab : Nat)
    (hq : pm ≠ BTN_SHORT_LONG ∨ lf ≠ 0) (k : Nat) (h : Int) :
    (∃ h1 : Int, fs_run ⟨pm, cc⟩ ⟨0, h, lf, ab⟩ (List.replicate k 0) = ⟨0, h1, lf, ab⟩) ∧
      fs_trace ⟨pm, cc⟩ ⟨0, h, lf, ab⟩ (List.replicate k 0) = List.replicate k [] := by
  induction k generalizing h with
  | zero => exact ⟨⟨h, rfl⟩, rfl⟩
  | succ k ih =>
    have hc : ¬ (pm = BTN_SHORT_LONG ∧ lf = 0 ∧ wrap_int32 (h + 10) ≥ 400) := by
      rintro ⟨h1, h2, _⟩
      rcases hq with hq | hq
      · exact hq h1
      · exact hq h2
    have hstep : handle_fs_one ⟨0, h, lf, ab⟩ 0 ⟨pm, cc⟩ =
        (⟨0, wrap_int32 (h + 10), lf, ab⟩, []) := by
      rw [fs_step_held, if_neg hc, if_neg hc]
    obtain ⟨hrun, htr⟩ := ih (wrap_int32 (h + 10))
    constructor
    · simpa [List.replicate_succ, fs_run, hstep] using hrun
    · simp [List.replicate_succ, fs_trace, hstep, htr]

/-- The same for `sw_handle_one`. -/
theorem sw_held_quiet (pm : press_mode_t) (cc : cc_behavior_t) (lf tab ps : Nat)
    (hq : pm ≠ BTN_SHORT_LONG ∨ lf ≠ 0) (k : Nat) (h : Int) :
    (∃ h1 : Int, sw_run ⟨pm, cc⟩ 400 ⟨0, h, lf, tab, ps⟩ (List.replicate k 0) =
        ⟨0, h1, lf, tab, ps⟩) ∧
      sw_trace ⟨pm, cc⟩ 400 ⟨0, h, lf, tab, ps⟩ (List.replicate k 0) = List.replicate k [] := by
  induction k generalizing h with
  | zero => exact ⟨⟨h, rfl⟩, rfl⟩
  | succ k ih =>
    have hc : ¬ (pm = BTN_SHORT_LONG ∧ lf = 0 ∧ wrap_int32 (h + 10) ≥ 400) := by
      rintro ⟨h1, h2, _⟩
      rcases hq with hq | hq
      · exact hq h1
      · exact hq h2
    have hstep : sw_handle_one ⟨0, h, lf, tab, ps⟩ 0 ⟨pm, cc⟩ 400 =
        (⟨0, wrap_int32 (h + 10), lf, tab, ps⟩, []) := by
      rw [sw_step_held, if_neg hc, if_neg hc]
    obtain ⟨hrun, htr⟩ := ih (wrap_int32 (h + 10))
    constructor
    · simpa [List.replicate_succ, sw_run, hstep] using hrun
    · simp [List.replicate_succ, sw_trace, hstep, htr]

/-! ## MOMENTARY + TOGGLE: pairing of DOWN and UP -/

/-- C1 (the code departs from the claim). In `handle_fs_one` with `cc_behavior = MOMENTARY`
and `press_mode = TOGGLE`, from every released state and for every number `k` of held ticks,
the press cycle makes the calls DOWN and TRIGGER with the list selected by the toggle state
on the edge-down tick, nothing while held, and UP on the release tick with the list selected
by the toggle state after its flip: the UP list is never the DOWN list.  In particular from
the initial state, one pressed tick and one released tick give DOWN with `listA` and UP with
`listB`. -/
theorem handle_fs_one_momentary_toggle_up_uses_flipped_state :
    (∀ (h : Int) (lf ab k : Nat),
      fs_trace ⟨BTN_TOGGLE, CC_MOMENTARY⟩ ⟨1, h, lf, ab⟩ (0 :: List.replicate k 0 ++ [1]) =
          [⟨sel_list ab, CC_MOMENTARY, MIDI_EVT_DOWN⟩,
            ⟨sel_list ab, CC_MOMENTARY, MIDI_EVT_TRIGGER⟩] ::
            List.replicate k [] ++
            [[⟨sel_list (if ab = 0 then 1 else 0), CC_MOMENTARY, MIDI_EVT_UP⟩]] ∧
        sel_list (if ab = 0 then 1 else 0) ≠ sel_list ab) ∧
    fs_trace ⟨BTN_TOGGLE, CC_MOMENTARY⟩ fs_init [0, 1] =
      [[⟨listA, CC_MOMENTARY, MIDI_EVT_DOWN⟩, ⟨listA, CC_MOMENTARY, MIDI_EVT_TRIGGER⟩],
        [⟨listB, CC_MOMENTARY, MIDI_EVT_UP⟩]] := by
  refine ⟨fun h lf ab k => ⟨?_, sel_list_flip ab⟩, by decide⟩
  obtain ⟨⟨h1, hrun⟩, htr⟩ :=
    fs_held_quiet BTN_TOGGLE CC_MOMENTARY 0 (if ab = 0 then 1 else 0) (Or.inl (by decide)) k 10
  simp [fs_trace, fs_step_down, fs_trace_append, hrun, htr, fs_step_up]

/-- C2. In `sw_handle_one` with `cc_behavior = MOMENTARY` and `press_mode = TOGGLE`, from
every released state: the edge-down tick stores the selection of the toggle state before its
flip in `pressed_sel` and flips `toggle_ab`; `pressed_sel` keeps that value while the switch
is held; and the press cycle makes the calls DOWN and TRIGGER on the edge-down tick, nothing
while held, and UP on the release tick, all with the list of the captured selection. -/
theorem sw_handle_one_momentary_toggle_down_up_same_list
    (h : Int) (lf tab ps k : Nat) :
    (sw_handle_one ⟨1, h, lf, tab, ps⟩ 0 ⟨BTN_TOGGLE, CC_MOMENTARY⟩ 400).1.pressed_sel =
        (if tab ≠ 0 then 1 else 0) ∧
      (sw_handle_one ⟨1, h, lf, tab, ps⟩ 0 ⟨BTN_TOGGLE, CC_MOMENTARY⟩ 400).1.toggle_ab =
        (if tab = 0 then 1 else 0) ∧
      (sw_run ⟨BTN_TOGGLE, CC_MOMENTARY⟩ 400 ⟨1, h, lf, tab, ps⟩
          (0 :: List.replicate k 0)).pressed_sel = (if tab ≠ 0 then 1 else 0) ∧
      sw_trace ⟨BTN_TOGGLE, CC_MOMENTARY⟩ 400 ⟨1, h, lf, tab, ps⟩
          (0 :: List.replicate k 0 ++ [1]) =
        [⟨sel_list tab, CC_MOMENTARY, MIDI_EVT_DOWN⟩,
          ⟨sel_list tab, CC_MOMENTARY, MIDI_EVT_TRIGGER⟩] ::
          List.replicate k [] ++ [[⟨sel_list tab, CC_MOMENTARY, MIDI_EVT_UP⟩]] := by
  obtain ⟨⟨h1, hrun⟩, htr⟩ :=
    sw_held_quiet BTN_TOGGLE CC_MOMENTARY 0 (if tab = 0 then 1 else 0)
      (if tab ≠ 0 then 1 else 0) (Or.inl (by decide)) k 10
  simp only [ne_eq, ite_not] at hrun htr
  refine ⟨by simp [sw_step_down], by simp [sw_step_down], ?_, ?_⟩
  · simp [sw_run, sw_step_down, hrun]
  · simp [sw_trace, sw_step_down, sw_trace_append, hrun, htr, sw_step_up]
    by_cases ht : tab = 0 <;> simp [sel_list, ht]

/-! ## SHORT_LONG: short and long presses -/

theorem wrap_int32_small (x : Int) (h0 : 0 ≤ x) (h1 : x < 2147483648) : wrap_int32 x = x := by
  unfold wrap_int32
  omega

/-- Below the long-press threshold a held switch in `BTN_SHORT_LONG` mode makes no call and
`hold_ms` grows by 10 per tick (`handle_fs_one`). -/
theorem fs_held_below (cc : cc_behavior_t) (ab : Nat) (j : Nat) (h : Int)
    (h0 : 0 ≤ h) (hj : h + 10 * j < 400) :
    fs_run ⟨BTN_SHORT_LONG, cc⟩ ⟨0, h, 0, ab⟩ (List.replicate j 0) = ⟨0, h + 10 * j, 0, ab⟩ ∧
      fs_trace ⟨BTN_SHORT_LONG, cc⟩ ⟨0, h, 0, ab⟩ (List.replicate j 0) =
        List.replicate j [] := by
  induction j generalizing h with
  | zero => simp [fs_run, fs_trace]
  | succ j ih =>
    have hw : wrap_int32 (h + 10) = h + 10 := wrap_int32_small _ (by omega) (by omega)
    have hc : ¬ (BTN_SHORT_LONG = BTN_SHORT_LONG ∧ (0 : Nat) = 0 ∧ wrap_int32 (h + 10) ≥ 400) := by
      rw [hw]; push_cast at hj; omega
    have hstep : handle_fs_one ⟨0, h, 0, ab⟩ 0 ⟨BTN_SHORT_LONG, cc⟩ =
        (⟨0, h + 10, 0, ab⟩, []) := by
      rw [fs_step_held, if_neg hc, if_neg hc, hw]
    obtain ⟨hrun, htr⟩ := ih (h + 10) (by omega) (by push_cast at hj ⊢; omega)
    constructor
    · simp only [List.replicate_succ, fs_run, hstep, hrun]
      congr 1
      push_cast
      ring
    · simp [List.replicate_succ, fs_trace, hstep, htr]

/-- The same for `sw_handle_one` with `long_ms = 400`. -/
theorem sw_held_below (cc : cc_behavior_t) (tab ps : Nat) (j : Nat) (h : Int)
    (h0 : 0 ≤ h) (hj : h + 10 * j < 400) :
    sw_run ⟨BTN_SHORT_LONG, cc⟩ 400 ⟨0, h, 0, tab, ps⟩ (List.replicate j 0) =
        ⟨0, h + 10 * j, 0, tab, ps⟩ ∧
      sw_trace ⟨BTN_SHORT_LONG, cc⟩ 400 ⟨0, h, 0, tab, ps⟩ (List.replicate j 0) =
        List.replicate j [] := by
  induction j generalizing h with
  | zero => simp [sw_run, sw_trace]
  | succ j ih =>
    have hw : wrap_int32 (h + 10) = h + 10 := wrap_int32_small _ (by omega) (by omega)
    have hc : ¬ (BTN_SHORT_LONG = BTN_SHORT_LONG ∧ (0 : Nat) = 0 ∧ wrap_int32 (h + 10) ≥ 400) := by
      rw [hw]; push_cast at hj; omega
    have hstep : sw_handle_one ⟨0, h, 0, tab, ps⟩ 0 ⟨BTN_SHORT_LONG, cc⟩ 400 =
        (⟨0, h + 10, 0, tab, ps⟩, []) := by
      rw [sw_step_held, if_neg hc, if_neg hc, hw]
    obtain ⟨hrun, htr⟩ := ih (h + 10) (by omega) (by push_cast at hj ⊢; omega)
    constructor
    · simp only [List.replicate_succ, sw_run, hstep, hrun]
      congr 1
      push_cast
      ring
    · simp [List.replicate_succ, sw_trace, hstep, htr]

/-- C3. `press_mode = SHORT_LONG`, either `cc_behavior`, both state machines (`sw_handle_one`
with `long_ms = 400`), from any released state: when the level is pressed on `k` consecutive
ticks with `1 ≤ k` and `10 * k < 400` and then released, the TRIGGER calls of the `k + 1`
ticks are: none on each pressed tick, and exactly one, with `short_actions` (`listA`), on
the release tick.  So no TRIGGER with `long_actions` is made. -/
theorem short_long_short_press (cc : cc_behavior_t) (h : Int) (lf ab ps k : Nat)
    (hk1 : 1 ≤ k) (hk : 10 * k < 400) :
    (fs_trace ⟨BTN_SHORT_LONG, cc⟩ ⟨1, h, lf, ab⟩ (List.replicate k 0 ++ [1])).map
        (List.filter (fun c => c.event = MIDI_EVT_TRIGGER)) =
      List.replicate k [] ++ [[⟨listA, cc, MIDI_EVT_TRIGGER⟩]] ∧
    (sw_trace ⟨BTN_SHORT_LONG, cc⟩ 400 ⟨1, h, lf, ab, ps⟩ (List.replicate k 0 ++ [1])).map
        (List.filter (fun c => c.event = MIDI_EVT_TRIGGER)) =
      List.replicate k [] ++ [[⟨listA, cc, MIDI_EVT_TRIGGER⟩]] := by
  obtain ⟨j, rfl⟩ : ∃ j, k = j + 1 := ⟨k - 1, by omega⟩
  have hj : (10 : Int) + 10 * j < 400 := by omega
  have hlt : (10 : Int) + 10 * (j : Int) < 400 := by omega
  constructor
  · obtain ⟨hrun, htr⟩ := fs_held_below cc ab j 10 (by norm_num) hj
    cases cc <;>
      simp [List.replicate_succ, fs_trace, fs_step_down, fs_trace_append, hrun, htr,
        fs_step_up, hlt]
  · obtain ⟨hrun, htr⟩ := sw_held_below cc ab ps j 10 (by norm_num) hj
    cases cc <;>
      simp [List.replicate_succ, sw_trace, sw_step_down, sw_trace_append, hrun, htr,
        sw_step_up, hlt]

/-- Witness for C3: the 350 ms hold of the spec scenario (35 pressed ticks), MOMENTARY. -/
theorem short_long_short_press_witness :
    (1 ≤ 35 ∧ 10 * 35 < 400) ∧
    (fs_trace ⟨BTN_SHORT_LONG, CC_MOMENTARY⟩ ⟨1, 0, 0, 0⟩ (List.replicate 35 0 ++ [1])).map
        (List.filter (fun c => c.event = MIDI_EVT_TRIGGER)) =
      List.replicate 35 [] ++ [[⟨listA, CC_MOMENTARY, MIDI_EVT_TRIGGER⟩]] ∧
    (sw_trace ⟨BTN_SHORT_LONG, CC_MOMENTARY⟩ 400 ⟨1, 0, 0, 0, 0⟩
        (List.replicate 35 0 ++ [1])).map
        (List.filter (fun c => c.event = MIDI_EVT_TRIGGER)) =
      List.replicate 35 [] ++ [[⟨listA, CC_MOMENTARY, MIDI_EVT_TRIGGER⟩]] :=
  ⟨by decide, short_long_short_press CC_MOMENTARY 0 0 0 0 35 (by decide) (by decide)⟩

/-- The tick on which `hold_ms` reaches 400 in `BTN_SHORT_LONG` mode (`handle_fs_one`). -/
theorem fs_step_fire (cc : cc_behavior_t) (ab : Nat) :
    handle_fs_one ⟨0, 390, 0, ab⟩ 0 ⟨BTN_SHORT_LONG, cc⟩ =
      (⟨0, 400, 1, ab⟩, [⟨listB, cc, MIDI_EVT_TRIGGER⟩]) := by
  have hw : wrap_int32 400 = 400 := by decide
  simp [fs_step_held, hw]

/-- The tick on which `hold_ms` reaches 400 in `BTN_SHORT_LONG` mode (`sw_handle_one`). -/
theorem sw_step_fire (cc : cc_behavior_t) (tab ps : Nat) :
    sw_handle_one ⟨0, 390, 0, tab, ps⟩ 0 ⟨BTN_SHORT_LONG, cc⟩ 400 =
      (⟨0, 400, 1, tab, ps⟩, [⟨listB, cc, MIDI_EVT_TRIGGER⟩]) := by
  have hw : wrap_int32 400 = 400 := by decide
  simp [sw_step_held, hw]

/-- State after an edge-down tick and `j ≤ 38` further pressed ticks (`handle_fs_one`). -/
theorem fs_run_press (cc : cc_behavior_t) (h : Int) (lf ab j : Nat) (hj : j ≤ 38) :
    fs_run ⟨BTN_SHORT_LONG, cc⟩ ⟨1, h, lf, ab⟩ (0 :: List.replicate j 0) =
      ⟨0, 10 + 10 * j, 0, ab⟩ := by
  obtain ⟨hrun, -⟩ := fs_held_below cc ab j 10 (by norm_num) (by omega)
  simp [fs_run, fs_step_down, hrun]

/-- State after an edge-down tick and `j ≤ 38` further pressed ticks (`sw_handle_one`). -/
theorem sw_run_press (cc : cc_behavior_t) (h : Int) (lf tab ps j : Nat) (hj : j ≤ 38) :
    sw_run ⟨BTN_SHORT_LONG, cc⟩ 400 ⟨1, h, lf, tab, ps⟩ (0 :: List.replicate j 0) =
      ⟨0, 10 + 10 * j, 0, tab, ps⟩ := by
  obtain ⟨hrun, -⟩ := sw_held_below cc tab ps j 10 (by norm_num) (by omega)
  simp [sw_run, sw_step_down, hrun]

/-- After `j + 1 ≤ 40` pressed ticks from a released state, `hold_ms` is `10 * (j + 1)`
in `BTN_SHORT_LONG` mode (`handle_fs_one`). -/
theorem fs_hold_ms_upto (cc : cc_behavior_t) (h : Int) (lf ab j : Nat) (hj : j < 40) :
    (fs_run ⟨BTN_SHORT_LONG, cc⟩ ⟨1, h, lf, ab⟩ (List.replicate (j + 1) 0)).hold_ms =
      10 * ((j : Int) + 1) := by
  rcases Nat.lt_or_ge j 39 with h39 | h39
  · rw [List.replicate_succ, fs_run_press cc h lf ab j (by omega)]
    show (10 : Int) + 10 * j = 10 * (j + 1)
    ring
  · obtain ⟨n, rfl⟩ : ∃ n, j = n + 1 := ⟨j - 1, by omega⟩
    have hn : (10 : Int) + 10 * n = 390 := by omega
    have hsplit : List.replicate (n + 1 + 1) 0 = (0 :: List.replicate n 0) ++ [0] := by
      rw [List.replicate_succ, List.replicate_succ', List.cons_append]
    rw [hsplit, fs_run_append, fs_run_press cc h lf ab n (by omega), hn]
    simp only [fs_run, fs_step_fire]
    push_cast
    omega

/-- The same for `sw_handle_one`. -/
theorem sw_hold_ms_upto (cc : cc_behavior_t) (h : Int) (lf tab ps j : Nat) (hj : j < 40) :
    (sw_run ⟨BTN_SHORT_LONG, cc⟩ 400 ⟨1, h, lf, tab, ps⟩ (List.replicate (j + 1) 0)).hold_ms =
      10 * ((j : Int) + 1) := by
  rcases Nat.lt_or_ge j 39 with h39 | h39
  · rw [List.replicate_succ, sw_run_press cc h lf tab ps j (by omega)]
    show (10 : Int) + 10 * j = 10 * (j + 1)
    ring
  · obtain ⟨n, rfl⟩ : ∃ n, j = n + 1 := ⟨j - 1, by omega⟩
    have hn : (10 : Int) + 10 * n = 390 := by omega
    have hsplit : List.replicate (n + 1 + 1) 0 = (0 :: List.replicate n 0) ++ [0] := by
      rw [List.replicate_succ, List.replicate_succ', List.cons_append]
    rw [hsplit, sw_run_append, sw_run_press cc h lf tab ps n (by omega), hn]
    simp only [sw_run, sw_step_fire]
    push_cast
    omega

/-- Calls of a long press in `BTN_SHORT_LONG` mode (`handle_fs_one`): an edge-down tick,
`n = 38` pressed ticks, the tick reaching 400 ms, `d` more pressed ticks, one released
tick. -/
theorem fs_long_press_aux (cc : cc_behavior_t) (h : Int) (lf ab n d : Nat) (hn : n = 38) :
    (fs_trace ⟨BTN_SHORT_LONG, cc⟩ ⟨1, h, lf, ab⟩
        (0 :: (List.replicate n 0 ++ (0 :: (List.replicate d 0 ++ [1]))))).map
        (List.filter (fun c => c.event = MIDI_EVT_TRIGGER)) =
      [] :: (List.replicate n [] ++ ([⟨listB, cc, MIDI_EVT_TRIGGER⟩] ::
        (List.replicate d [] ++ [[]]))) := by
  obtain ⟨hrun, htr⟩ := fs_held_below cc ab n 10 (by norm_num) (by omega)
  obtain ⟨⟨h1, hrun2⟩, htr2⟩ := fs_held_quiet BTN_SHORT_LONG cc 1 ab (Or.inr (by decide)) d 400
  have h390 : (10 : Int) + 10 * n = 390 := by omega
  rw [h390] at hrun
  cases cc <;>
    simp [fs_trace, fs_step_down, fs_trace_append, fs_run, hrun, htr, fs_step_fire, hrun2, htr2,
      fs_step_up]

/-- Calls of a long press in `BTN_SHORT_LONG` mode (`sw_handle_one`). -/
theorem sw_long_press_aux (cc : cc_behavior_t) (h : Int) (lf tab ps n d : Nat) (hn : n = 38) :
    (sw_trace ⟨BTN_SHORT_LONG, cc⟩ 400 ⟨1, h, lf, tab, ps⟩
        (0 :: (List.replicate n 0 ++ (0 :: (List.replicate d 0 ++ [1]))))).map
        (List.filter (fun c => c.event = MIDI_EVT_TRIGGER)) =
      [] :: (List.replicate n [] ++ ([⟨listB, cc, MIDI_EVT_TRIGGER⟩] ::
        (List.replicate d [] ++ [[]]))) := by
  obtain ⟨hrun, htr⟩ := sw_held_below cc tab ps n 10 (by norm_num) (by omega)
  obtain ⟨⟨h1, hrun2⟩, htr2⟩ :=
    sw_held_quiet BTN_SHORT_LONG cc 1 tab ps (Or.inr (by decide)) d 400
  have h390 : (10 : Int) + 10 * n = 390 := by omega
  rw [h390] at hrun
  cases cc <;>
    simp [sw_trace, sw_step_down, sw_trace_append, sw_run, hrun, htr, sw_step_fire, hrun2, htr2,
      sw_step_up]

/-- Shape of a level sequence of `k ≥ 40` pressed ticks and one released tick. -/
theorem long_press_levels (k : Nat) (hk : 40 ≤ k) :
    List.replicate k 0 ++ [1] =
      0 :: (List.replicate 38 0 ++ (0 :: (List.replicate (k - 40) 0 ++ [1]))) := by
  have e : k = 1 + (38 + (1 + (k - 40))) := by omega
  conv_lhs => rw [e]
  simp only [List.replicate_add, List.replicate_one, List.append_assoc, List.cons_append,
    List.nil_append]

/-- Shape of the expected calls of a long press. -/
theorem long_press_calls (c : midi_call) (d : Nat) :
    List.replicate 39 [] ++ [[c]] ++ List.replicate d [] ++ [[]] =
      [] :: (List.replicate 38 [] ++ ([c] :: (List.replicate d [] ++ [[]]))) := by
  have e : List.replicate 39 ([] : List midi_call) = [] :: List.replicate 38 [] := rfl
  simp only [e, List.append_assoc, List.cons_append, List.nil_append]

/-- C4. `press_mode = SHORT_LONG`, either `cc_behavior`, both state machines (`sw_handle_one`
with `long_ms = 400`), from any released state: when the level is pressed on `k` consecutive
ticks with `10 * k ≥ 400` and then released, the TRIGGER calls of the `k + 1` ticks are:
none on the first 39 pressed ticks, exactly one with `long_actions` (`listB`) on the 40th
pressed tick, none on the later pressed ticks and none on the release tick.  The 40th
pressed tick is the first one on which `hold_ms` is at least 400: after `j + 1 ≤ 40`
pressed ticks `hold_ms = 10 * (j + 1)`. -/
theorem short_long_long_press (cc : cc_behavior_t) (h : Int) (lf ab ps k : Nat)
    (hk : 400 ≤ 10 * k) :
    ((fs_trace ⟨BTN_SHORT_LONG, cc⟩ ⟨1, h, lf, ab⟩ (List.replicate k 0 ++ [1])).map
        (List.filter (fun c => c.event = MIDI_EVT_TRIGGER)) =
      List.replicate 39 [] ++ [[⟨listB, cc, MIDI_EVT_TRIGGER⟩]] ++
        List.replicate (k - 40) [] ++ [[]] ∧
    (sw_trace ⟨BTN_SHORT_LONG, cc⟩ 400 ⟨1, h, lf, ab, ps⟩ (List.replicate k 0 ++ [1])).map
        (List.filter (fun c => c.event = MIDI_EVT_TRIGGER)) =
      List.replicate 39 [] ++ [[⟨listB, cc, MIDI_EVT_TRIGGER⟩]] ++
        List.replicate (k - 40) [] ++ [[]]) ∧
    ∀ j : Nat, j < 40 →
      (fs_run ⟨BTN_SHORT_LONG, cc⟩ ⟨1, h, lf, ab⟩ (List.replicate (j + 1) 0)).hold_ms =
          10 * ((j : Int) + 1) ∧
        (sw_run ⟨BTN_SHORT_LONG, cc⟩ 400 ⟨1, h, lf, ab, ps⟩
          (List.replicate (j + 1) 0)).hold_ms = 10 * ((j : Int) + 1) := by
  have hk40 : 40 ≤ k := by omega
  refine ⟨⟨?_, ?_⟩, fun j hj =>
    ⟨fs_hold_ms_upto cc h lf ab j hj, sw_hold_ms_upto cc h lf ab ps j hj⟩⟩
  · rw [long_press_levels k hk40, long_press_calls]
    exact fs_long_press_aux cc h lf ab 38 (k - 40) rfl
  · rw [long_press_levels k hk40, long_press_calls]
    exact sw_long_press_aux cc h lf ab ps 38 (k - 40) rfl

/-- Witness for C4: the 450 ms hold of the spec scenario (45 pressed ticks), NORMAL. -/
theorem short_long_long_press_witness :
    400 ≤ 10 * 45 ∧
    (((fs_trace ⟨BTN_SHORT_LONG, CC_NORMAL⟩ ⟨1, 0, 0, 0⟩ (List.replicate 45 0 ++ [1])).map
        (List.filter (fun c => c.event = MIDI_EVT_TRIGGER)) =
      List.replicate 39 [] ++ [[⟨listB, CC_NORMAL, MIDI_EVT_TRIGGER⟩]] ++
        List.replicate (45 - 40) [] ++ [[]] ∧
    (sw_trace ⟨BTN_SHORT_LONG, CC_NORMAL⟩ 400 ⟨1, 0, 0, 0, 0⟩
        (List.replicate 45 0 ++ [1])).map
        (List.filter (fun c => c.event = MIDI_EVT_TRIGGER)) =
      List.replicate 39 [] ++ [[⟨listB, CC_NORMAL, MIDI_EVT_TRIGGER⟩]] ++
        List.replicate (45 - 40) [] ++ [[]]) ∧
    ∀ j : Nat, j < 40 →
      (fs_run ⟨BTN_SHORT_LONG, CC_NORMAL⟩ ⟨1, 0, 0, 0⟩ (List.replicate (j + 1) 0)).hold_ms =
          10 * ((j : Int) + 1) ∧
        (sw_run ⟨BTN_SHORT_LONG, CC_NORMAL⟩ 400 ⟨1, 0, 0, 0, 0⟩
          (List.replicate (j + 1) 0)).hold_ms = 10 * ((j : Int) + 1)) :=
  ⟨by decide, short_long_long_press CC_NORMAL 0 0 0 0 45 (by decide)⟩

/-! ## Idle phases, TOGGLE cycles and SHORT presses -/

/-- While the level stays released, `handle_fs_one` makes no call and changes nothing. -/
theorem fs_idle (m : expfs_btncfg_t) (h : Int) (lf ab r : Nat) :
    fs_run m ⟨1, h, lf, ab⟩ (List.replicate r 1) = ⟨1, h, lf, ab⟩ ∧
      fs_trace m ⟨1, h, lf, ab⟩ (List.replicate r 1) = List.replicate r [] := by
  induction r with
  | zero => exact ⟨rfl, rfl⟩
  | succ r ih =>
    obtain ⟨hrun, htr⟩ := ih
    constructor
    · simpa [List.replicate_succ, fs_run, fs_step_idle] using hrun
    · simp [List.replicate_succ, fs_trace, fs_step_idle, htr]

/-- While the level stays released, `sw_handle_one` makes no call and changes nothing. -/
theorem sw_idle (m : expfs_btncfg_t) (h : Int) (lf tab ps r : Nat) :
    sw_run m 400 ⟨1, h, lf, tab, ps⟩ (List.replicate r 1) = ⟨1, h, lf, tab, ps⟩ ∧
      sw_trace m 400 ⟨1, h, lf, tab, ps⟩ (List.replicate r 1) = List.replicate r [] := by
  induction r with
  | zero => exact ⟨rfl, rfl⟩
  | succ r ih =>
    obtain ⟨hrun, htr⟩ := ih
    constructor
    · simpa [List.replicate_succ, sw_run, sw_step_idle] using hrun
    · simp [List.replicate_succ, sw_trace, sw_step_idle, htr]

/-- One press/release cycle of `handle_fs_one` in TOGGLE + NORMAL: `p + 1` pressed ticks,
then `r + 1` released ticks. -/
theorem fs_toggle_cycle (h : Int) (lf ab p r : Nat) :
    fs_run ⟨BTN_TOGGLE, CC_NORMAL⟩ ⟨1, h, lf, ab⟩
        (List.replicate (p + 1) 0 ++ List.replicate (r + 1) 1) =
      ⟨1, 0, 0, if ab = 0 then 1 else 0⟩ ∧
    fs_trace ⟨BTN_TOGGLE, CC_NORMAL⟩ ⟨1, h, lf, ab⟩
        (List.replicate (p + 1) 0 ++ List.replicate (r + 1) 1) =
      [⟨sel_list ab, CC_NORMAL, MIDI_EVT_TRIGGER⟩] :: List.replicate (p + r + 1) [] := by
  obtain ⟨⟨h1, hrun⟩, htr⟩ :=
    fs_held_quiet BTN_TOGGLE CC_NORMAL 0 (if ab = 0 then 1 else 0) (Or.inl (by decide)) p 10
  obtain ⟨hrun2, htr2⟩ := fs_idle ⟨BTN_TOGGLE, CC_NORMAL⟩ 0 0 (if ab = 0 then 1 else 0) r
  have e : p + r + 1 = p + (1 + r) := by omega
  constructor
  · simp [List.replicate_succ, fs_run, fs_run_append, fs_step_down, hrun, fs_step_up, hrun2]
  · simp [List.replicate_succ, fs_run, fs_trace, fs_trace_append, fs_step_down, hrun, htr,
      fs_step_up, htr2, e, List.replicate_add]

/-- One press/release cycle of `sw_handle_one` in TOGGLE + NORMAL. -/
theorem sw_toggle_cycle (h : Int) (lf tab ps p r : Nat) :
    sw_run ⟨BTN_TOGGLE, CC_NORMAL⟩ 400 ⟨1, h, lf, tab, ps⟩
        (List.replicate (p + 1) 0 ++ List.replicate (r + 1) 1) =
      ⟨1, 0, 0, if tab = 0 then 1 else 0, ps⟩ ∧
    sw_trace ⟨BTN_TOGGLE, CC_NORMAL⟩ 400 ⟨1, h, lf, tab, ps⟩
        (List.replicate (p + 1) 0 ++ List.replicate (r + 1) 1) =
      [⟨sel_list tab, CC_NORMAL, MIDI_EVT_TRIGGER⟩] :: List.replicate (p + r + 1) [] := by
  obtain ⟨⟨h1, hrun⟩, htr⟩ :=
    sw_held_quiet BTN_TOGGLE CC_NORMAL 0 (if tab = 0 then 1 else 0) ps (Or.inl (by decide)) p 10
  obtain ⟨hrun2, htr2⟩ := sw_idle ⟨BTN_TOGGLE, CC_NORMAL⟩ 0 0 (if tab = 0 then 1 else 0) ps r
  have e : p + r + 1 = p + (1 + r) := by omega
  constructor
  · simp [List.replicate_succ, sw_run, sw_run_append, sw_step_down, hrun, sw_step_up, hrun2]
  · simp [List.replicate_succ, sw_run, sw_trace, sw_trace_append, sw_step_down, hrun, htr,
      sw_step_up, htr2, e, List.replicate_add]

theorem sel_list_parity (i : Nat) :
    sel_list (i % 2) = if i % 2 = 0 then listA else listB := by
  unfold sel_list
  split_ifs <;> first | rfl | omega

theorem flip_parity (i : Nat) : (if i % 2 = 0 then 1 else 0) = (i + 1) % 2 := by
  split_ifs <;> omega

/-- Cycles of `handle_fs_one` in TOGGLE + NORMAL from a released state whose toggle state
is the parity of the cycle number `i`. -/
theorem fs_toggle_cycles (cs : List (Nat × Nat)) (i : Nat) (h : Int) (lf : Nat) :
    fs_trace ⟨BTN_TOGGLE, CC_NORMAL⟩ ⟨1, h, lf, i % 2⟩
        (cs.map (fun c => List.replicate (c.1 + 1) 0 ++ List.replicate (c.2 + 1) 1)).flatten =
      ((cs.enumFrom i).map (fun ic =>
        [(⟨if ic.1 % 2 = 0 then listA else listB, CC_NORMAL, MIDI_EVT_TRIGGER⟩ : midi_call)] ::
          List.replicate (ic.2.1 + ic.2.2 + 1) [])).flatten := by
  induction cs generalizing i h lf with
  | nil => rfl
  | cons c cs ih =>
    obtain ⟨hrun, htr⟩ := fs_toggle_cycle h lf (i % 2) c.1 c.2
    rw [flip_parity] at hrun
    simp only [List.map_cons, List.flatten_cons, List.enumFrom_cons, fs_trace_append, hrun, htr,
      ih (i + 1) 0 0, sel_list_parity]

/-- Cycles of `sw_handle_one` in TOGGLE + NORMAL. -/
theorem sw_toggle_cycles (cs : List (Nat × Nat)) (i : Nat) (h : Int) (lf ps : Nat) :
    sw_trace ⟨BTN_TOGGLE, CC_NORMAL⟩ 400 ⟨1, h, lf, i % 2, ps⟩
        (cs.map (fun c => List.replicate (c.1 + 1) 0 ++ List.replicate (c.2 + 1) 1)).flatten =
      ((cs.enumFrom i).map (fun ic =>
        [(⟨if ic.1 % 2 = 0 then listA else listB, CC_NORMAL, MIDI_EVT_TRIGGER⟩ : midi_call)] ::
          List.replicate (ic.2.1 + ic.2.2 + 1) [])).flatten := by
  induction cs generalizing i h lf with
  | nil => rfl
  | cons c cs ih =>
    obtain ⟨hrun, htr⟩ := sw_toggle_cycle h lf (i % 2) ps c.1 c.2
    rw [flip_parity] at hrun
    simp only [List.map_cons, List.flatten_cons, List.enumFrom_cons, sw_trace_append, hrun, htr,
      ih (i + 1) 0 0, sel_list_parity]

/-- All calls of the expected per-tick trace of TOGGLE cycles, in order. -/
theorem toggle_calls_flatten (cs : List (Nat × Nat)) (i : Nat) :
    ((cs.enumFrom i).map (fun ic =>
        [(⟨if ic.1 % 2 = 0 then listA else listB, CC_NORMAL, MIDI_EVT_TRIGGER⟩ : midi_call)] ::
          List.replicate (ic.2.1 + ic.2.2 + 1) [])).flatten.flatten =
      (List.range' i cs.length).map
        (fun n => ⟨if n % 2 = 0 then listA else listB, CC_NORMAL, MIDI_EVT_TRIGGER⟩) := by
  induction cs generalizing i with
  | nil => rfl
  | cons c cs ih =>
    have hrep : ∀ n : Nat, (List.replicate n ([] : List midi_call)).flatten = [] := by
      intro n
      induction n with
      | zero => rfl
      | succ n _ => simp [List.replicate_succ]
    simp [List.enumFrom_cons, List.range'_succ, ih (i + 1), hrep]

/-- C5. `press_mode = TOGGLE`, `cc_behavior = NORMAL`, both state machines, from the initial
state.  For every list `cs` of press/release cycles, the cycle `(p, r)` being `p + 1` pressed
ticks followed by `r + 1` released ticks: on the first (edge-down) tick of cycle number `i`
(counted from 0) exactly one call is made, a TRIGGER with `short_actions` (`listA`) when `i`
is even, i.e. for the 1st, 3rd, ... press, and with `long_actions` (`listB`) when `i` is odd;
no call is made on any other tick.  Hence the calls of the whole sequence are exactly
`cs.length` TRIGGER calls alternating A, B, A, B, ... -/
theorem toggle_normal_alternates (cs : List (Nat × Nat)) :
    (fs_trace ⟨BTN_TOGGLE, CC_NORMAL⟩ fs_init
        (cs.map (fun c => List.replicate (c.1 + 1) 0 ++ List.replicate (c.2 + 1) 1)).flatten =
      (cs.enum.map (fun ic =>
        [(⟨if ic.1 % 2 = 0 then listA else listB, CC_NORMAL, MIDI_EVT_TRIGGER⟩ : midi_call)] ::
          List.replicate (ic.2.1 + ic.2.2 + 1) [])).flatten ∧
    (fs_trace ⟨BTN_TOGGLE, CC_NORMAL⟩ fs_init
        (cs.map (fun c => List.replicate (c.1 + 1) 0 ++
          List.replicate (c.2 + 1) 1)).flatten).flatten =
      (List.range cs.length).map
        (fun n => ⟨if n % 2 = 0 then listA else listB, CC_NORMAL, MIDI_EVT_TRIGGER⟩)) ∧
    (sw_trace ⟨BTN_TOGGLE, CC_NORMAL⟩ 400 sw_init
        (cs.map (fun c => List.replicate (c.1 + 1) 0 ++ List.replicate (c.2 + 1) 1)).flatten =
      (cs.enum.map (fun ic =>
        [(⟨if ic.1 % 2 = 0 then listA else listB, CC_NORMAL, MIDI_EVT_TRIGGER⟩ : midi_call)] ::
          List.replicate (ic.2.1 + ic.2.2 + 1) [])).flatten ∧
    (sw_trace ⟨BTN_TOGGLE, CC_NORMAL⟩ 400 sw_init
        (cs.map (fun c => List.replicate (c.1 + 1) 0 ++
          List.replicate (c.2 + 1) 1)).flatten).flatten =
      (List.range cs.length).map
        (fun n => ⟨if n % 2 = 0 then listA else listB, CC_NORMAL, MIDI_EVT_TRIGGER⟩)) := by
  have hfs := fs_toggle_cycles cs 0 0 0
  have hsw := sw_toggle_cycles cs 0 0 0 0
  have hflat := toggle_calls_flatten cs 0
  rw [← List.range_eq_range'] at hflat
  refine ⟨⟨hfs, ?_⟩, ⟨hsw, ?_⟩⟩
  · exact (congrArg List.flatten hfs).trans hflat
  · exact (congrArg List.flatten hsw).trans hflat

/-- C6. `press_mode = SHORT`, either `cc_behavior`, both state machines, from the initial
state: for `r` released ticks, `k ≥ 1` pressed ticks and one released tick, the TRIGGER calls
of the `r + k + 1` ticks are: none on the released-idle and pressed ticks, and exactly one,
with `short_actions` (`listA`), on the final release tick. -/
theorem short_press_triggers_on_release (cc : cc_behavior_t) (r k : Nat) (hk : 1 ≤ k) :
    (fs_trace ⟨BTN_SHORT, cc⟩ fs_init
        (List.replicate r 1 ++ List.replicate k 0 ++ [1])).map
        (List.filter (fun c => c.event = MIDI_EVT_TRIGGER)) =
      List.replicate (r + k) [] ++ [[⟨listA, cc, MIDI_EVT_TRIGGER⟩]] ∧
    (sw_trace ⟨BTN_SHORT, cc⟩ 400 sw_init
        (List.replicate r 1 ++ List.replicate k 0 ++ [1])).map
        (List.filter (fun c => c.event = MIDI_EVT_TRIGGER)) =
      List.replicate (r + k) [] ++ [[⟨listA, cc, MIDI_EVT_TRIGGER⟩]] := by
  obtain ⟨j, rfl⟩ : ∃ j, k = j + 1 := ⟨k - 1, by omega⟩
  constructor
  · obtain ⟨hrun, htr⟩ := fs_idle ⟨BTN_SHORT, cc⟩ 0 0 0 r
    obtain ⟨⟨h1, hrun2⟩, htr2⟩ := fs_held_quiet BTN_SHORT cc 0 0 (Or.inl (by decide)) j 10
    cases cc <;>
      simp [fs_init, List.append_assoc, fs_trace_append, fs_run_append, hrun, htr,
        List.replicate_succ, fs_trace, fs_run, fs_step_down, hrun2, htr2, fs_step_up,
        List.replicate_add]
  · obtain ⟨hrun, htr⟩ := sw_idle ⟨BTN_SHORT, cc⟩ 0 0 0 0 r
    obtain ⟨⟨h1, hrun2⟩, htr2⟩ := sw_held_quiet BTN_SHORT cc 0 0 0 (Or.inl (by decide)) j 10
    cases cc <;>
      simp [sw_init, List.append_assoc, sw_trace_append, sw_run_append, hrun, htr,
        List.replicate_succ, sw_trace, sw_run, sw_step_down, hrun2, htr2, sw_step_up,
        List.replicate_add]

/-- Witness for C6: the spec scenario, released 50 ms, pressed 120 ms, released. -/
theorem short_press_triggers_on_release_witness :
    1 ≤ 12 ∧
    ((fs_trace ⟨BTN_SHORT, CC_NORMAL⟩ fs_init
        (List.replicate 5 1 ++ List.replicate 12 0 ++ [1])).map
        (List.filter (fun c => c.event = MIDI_EVT_TRIGGER)) =
      List.replicate (5 + 12) [] ++ [[⟨listA, CC_NORMAL, MIDI_EVT_TRIGGER⟩]] ∧
    (sw_trace ⟨BTN_SHORT, CC_NORMAL⟩ 400 sw_init
        (List.replicate 5 1 ++ List.replicate 12 0 ++ [1])).map
        (List.filter (fun c => c.event = MIDI_EVT_TRIGGER)) =
      List.replicate (5 + 12) [] ++ [[⟨listA, CC_NORMAL, MIDI_EVT_TRIGGER⟩]]) :=
  ⟨by decide, short_press_triggers_on_release CC_NORMAL 5 12 (by decide)⟩

/-! ## DOWN / UP pairing -/

/-- One tick of `handle_fs_one` with `cc_behavior = MOMENTARY`: the DOWN/UP calls are one
DOWN on a released-to-pressed edge, one UP on a pressed-to-released edge, none otherwise;
the sampled level is stored. -/
theorem fs_step_momentary (pm : press_mode_t) (s : fs_state) (now : Nat)
    (hs : s.last_level ≤ 1) (hn : now ≤ 1) :
    (((handle_fs_one s now ⟨pm, CC_MOMENTARY⟩).2.filter
        (fun c => c.event = MIDI_EVT_DOWN ∨ c.event = MIDI_EVT_UP)).map midi_call.event =
      if s.last_level = 1 ∧ now = 0 then [MIDI_EVT_DOWN]
      else if s.last_level = 0 ∧ now = 1 then [MIDI_EVT_UP] else []) ∧
    (handle_fs_one s now ⟨pm, CC_MOMENTARY⟩).1.last_level = now := by
  obtain ⟨l, h, lf, ab⟩ := s
  simp only at hs
  interval_cases l <;> interval_cases now
  · rw [fs_step_held]
    refine ⟨?_, rfl⟩
    split_ifs <;> simp_all
  · rw [fs_step_up]
    refine ⟨?_, rfl⟩
    cases pm <;> split_ifs <;> simp_all
  · rw [fs_step_down]
    refine ⟨?_, rfl⟩
    cases pm <;> simp
  · rw [fs_step_idle]
    simp

/-- One tick of `sw_handle_one` with `cc_behavior = MOMENTARY`. -/
theorem sw_step_momentary (pm : press_mode_t) (s : sw_state_t) (now : Nat)
    (hs : s.last_level ≤ 1) (hn : now ≤ 1) :
    (((sw_handle_one s now ⟨pm, CC_MOMENTARY⟩ 400).2.filter
        (fun c => c.event = MIDI_EVT_DOWN ∨ c.event = MIDI_EVT_UP)).map midi_call.event =
      if s.last_level = 1 ∧ now = 0 then [MIDI_EVT_DOWN]
      else if s.last_level = 0 ∧ now = 1 then [MIDI_EVT_UP] else []) ∧
    (sw_handle_one s now ⟨pm, CC_MOMENTARY⟩ 400).1.last_level = now := by
  obtain ⟨l, h, lf, tab, ps⟩ := s
  simp only at hs
  interval_cases l <;> interval_cases now
  · rw [sw_step_held]
    refine ⟨?_, rfl⟩
    split_ifs <;> simp_all
  · rw [sw_step_up]
    refine ⟨?_, rfl⟩
    cases pm <;> split_ifs <;> simp_all
  · rw [sw_step_down]
    refine ⟨?_, rfl⟩
    cases pm <;> simp
  · rw [sw_step_idle]
    simp

/-- One tick of `handle_fs_one` with `cc_behavior = NORMAL`: every call is a TRIGGER. -/
theorem fs_step_normal (pm : press_mode_t) (s : fs_state) (now : Nat)
    (hs : s.last_level ≤ 1) (hn : now ≤ 1) :
    (∀ c ∈ (handle_fs_one s now ⟨pm, CC_NORMAL⟩).2, c.event = MIDI_EVT_TRIGGER) ∧
    (handle_fs_one s now ⟨pm, CC_NORMAL⟩).1.last_level = now := by
  obtain ⟨l, h, lf, ab⟩ := s
  simp only at hs
  interval_cases l <;> interval_cases now
  · rw [fs_step_held]
    refine ⟨?_, rfl⟩
    split_ifs <;> simp_all
  · rw [fs_step_up]
    refine ⟨?_, rfl⟩
    cases pm <;> split_ifs <;> simp_all
  · rw [fs_step_down]
    refine ⟨?_, rfl⟩
    cases pm <;> simp
  · rw [fs_step_idle]
    simp

/-- One tick of `sw_handle_one` with `cc_behavior = NORMAL`: every call is a TRIGGER. -/
theorem sw_step_normal (pm : press_mode_t) (s : sw_state_t) (now : Nat)
    (hs : s.last_level ≤ 1) (hn : now ≤ 1) :
    (∀ c ∈ (sw_handle_one s now ⟨pm, CC_NORMAL⟩ 400).2, c.event = MIDI_EVT_TRIGGER) ∧
    (sw_handle_one s now ⟨pm, CC_NORMAL⟩ 400).1.last_level = now := by
  obtain ⟨l, h, lf, tab, ps⟩ := s
  simp only at hs
  interval_cases l <;> interval_cases now
  · rw [sw_step_held]
    refine ⟨?_, rfl⟩
    split_ifs <;> simp_all
  · rw [sw_step_up]
    refine ⟨?_, rfl⟩
    cases pm <;> split_ifs <;> simp_all
  · rw [sw_step_down]
    refine ⟨?_, rfl⟩
    cases pm <;> simp
  · rw [sw_step_idle]
    simp

/-- Per-tick DOWN/UP calls of `handle_fs_one` with `cc_behavior = MOMENTARY`, from any state
whose stored level is 0 or 1. -/
theorem fs_trace_momentary (pm : press_mode_t) (levels : List Nat) (s : fs_state)
    (hs : s.last_level ≤ 1) (hl : ∀ x ∈ levels, x ≤ 1) :
    (fs_trace ⟨pm, CC_MOMENTARY⟩ s levels).map
        (fun cs => (cs.filter
          (fun c => c.event = MIDI_EVT_DOWN ∨ c.event = MIDI_EVT_UP)).map midi_call.event) =
      List.zipWith
        (fun prev now =>
          if prev = 1 ∧ now = 0 then [MIDI_EVT_DOWN]
          else if prev = 0 ∧ now = 1 then [MIDI_EVT_UP] else [])
        (s.last_level :: levels) levels := by
  induction levels generalizing s with
  | nil => rfl
  | cons x xs ih =>
    have hx : x ≤ 1 := hl x (List.mem_cons_self _ _)
    obtain ⟨hcalls, hlast⟩ := fs_step_momentary pm s x hs hx
    have ih1 := ih (handle_fs_one s x ⟨pm, CC_MOMENTARY⟩).1 (by rw [hlast]; exact hx)
      (fun y hy => hl y (List.mem_cons_of_mem _ hy))
    rw [hlast] at ih1
    simp only [fs_trace, List.map_cons, List.zipWith_cons_cons, hcalls, ih1]

/-- Per-tick DOWN/UP calls of `sw_handle_one` with `cc_behavior = MOMENTARY`. -/
theorem sw_trace_momentary (pm : press_mode_t) (levels : List Nat) (s : sw_state_t)
    (hs : s.last_level ≤ 1) (hl : ∀ x ∈ levels, x ≤ 1) :
    (sw_trace ⟨pm, CC_MOMENTARY⟩ 400 s levels).map
        (fun cs => (cs.filter
          (fun c => c.event = MIDI_EVT_DOWN ∨ c.event = MIDI_EVT_UP)).map midi_call.event) =
      List.zipWith
        (fun prev now =>
          if prev = 1 ∧ now = 0 then [MIDI_EVT_DOWN]
          else if prev = 0 ∧ now = 1 then [MIDI_EVT_UP] else [])
        (s.last_level :: levels) levels := by
  induction levels generalizing s with
  | nil => rfl
  | cons x xs ih =>
    have hx : x ≤ 1 := hl x (List.mem_cons_self _ _)
    obtain ⟨hcalls, hlast⟩ := sw_step_momentary pm s x hs hx
    have ih1 := ih (sw_handle_one s x ⟨pm, CC_MOMENTARY⟩ 400).1 (by rw [hlast]; exact hx)
      (fun y hy => hl y (List.mem_cons_of_mem _ hy))
    rw [hlast] at ih1
    simp only [sw_trace, List.map_cons, List.zipWith_cons_cons, hcalls, ih1]

/-- With `cc_behavior = NORMAL` every call of `handle_fs_one` is a TRIGGER. -/
theorem fs_trace_normal (pm : press_mode_t) (levels : List Nat) (s : fs_state)
    (hs : s.last_level ≤ 1) (hl : ∀ x ∈ levels, x ≤ 1) :
    ∀ cs ∈ fs_trace ⟨pm, CC_NORMAL⟩ s levels, ∀ c ∈ cs, c.event = MIDI_EVT_TRIGGER := by
  induction levels generalizing s with
  | nil => intro cs hcs; simp [fs_trace] at hcs
  | cons x xs ih =>
    have hx : x ≤ 1 := hl x (List.mem_cons_self _ _)
    obtain ⟨hcalls, hlast⟩ := fs_step_normal pm s x hs hx
    intro cs hcs
    simp only [fs_trace, List.mem_cons] at hcs
    rcases hcs with rfl | hcs
    · exact hcalls
    · exact ih _ (by rw [hlast]; exact hx) (fun y hy => hl y (List.mem_cons_of_mem _ hy)) cs hcs

/-- With `cc_behavior = NORMAL` every call of `sw_handle_one` is a TRIGGER. -/
theorem sw_trace_normal (pm : press_mode_t) (levels : List Nat) (s : sw_state_t)
    (hs : s.last_level ≤ 1) (hl : ∀ x ∈ levels, x ≤ 1) :
    ∀ cs ∈ sw_trace ⟨pm, CC_NORMAL⟩ 400 s levels, ∀ c ∈ cs, c.event = MIDI_EVT_TRIGGER := by
  induction levels generalizing s with
  | nil => intro cs hcs; simp [sw_trace] at hcs
  | cons x xs ih =>
    have hx : x ≤ 1 := hl x (List.mem_cons_self _ _)
    obtain ⟨hcalls, hlast⟩ := sw_step_normal pm s x hs hx
    intro cs hcs
    simp only [sw_trace, List.mem_cons] at hcs
    rcases hcs with rfl | hcs
    · exact hcalls
    · exact ih _ (by rw [hlast]; exact hx) (fun y hy => hl y (List.mem_cons_of_mem _ hy)) cs hcs

/-- The edge events of a level sequence alternate, and the first one is DOWN when the
previous level is released and UP when it is pressed. -/
theorem edge_events_alternate (levels : List Nat) (prev : Nat) (hp : prev ≤ 1)
    (hl : ∀ x ∈ levels, x ≤ 1) :
    List.Chain' (fun a b => a ≠ b)
        (List.zipWith
          (fun prev now =>
            if prev = 1 ∧ now = 0 then [MIDI_EVT_DOWN]
            else if prev = 0 ∧ now = 1 then [MIDI_EVT_UP] else [])
          (prev :: levels) levels).flatten ∧
      ∀ e ∈ (List.zipWith
          (fun prev now =>
            if prev = 1 ∧ now = 0 then [MIDI_EVT_DOWN]
            else if prev = 0 ∧ now = 1 then [MIDI_EVT_UP] else [])
          (prev :: levels) levels).flatten.head?,
        e = if prev = 1 then MIDI_EVT_DOWN else MIDI_EVT_UP := by
  induction levels generalizing prev with
  | nil => simp
  | cons x xs ih =>
    have hx : x ≤ 1 := hl x (List.mem_cons_self _ _)
    obtain ⟨hch, hhd⟩ := ih x hx (fun y hy => hl y (List.mem_cons_of_mem _ hy))
    rw [List.zipWith_cons_cons, List.flatten_cons]
    interval_cases prev <;> interval_cases x
    · simpa using ⟨hch, hhd⟩
    · refine ⟨?_, by simp⟩
      simp only [zero_ne_one, one_ne_zero, and_self, and_false, false_and, if_true, if_false,
        List.singleton_append, List.chain'_cons']
      refine ⟨fun y hy => ?_, hch⟩
      have := hhd y hy
      simp [this]
    · refine ⟨?_, by simp⟩
      simp only [zero_ne_one, one_ne_zero, and_self, and_false, false_and, if_true, if_false,
        List.singleton_append, List.chain'_cons']
      refine ⟨fun y hy => ?_, hch⟩
      have := hhd y hy
      simp [this]
    · simpa using ⟨hch, hhd⟩

/-- C7. Both state machines, any `press_mode`, from the initial state, for every sequence of
levels (each 0 = pressed or 1 = released).  With `cc_behavior = NORMAL` every call made is a
TRIGGER: no DOWN and no UP.  With `cc_behavior = MOMENTARY` the DOWN/UP calls of each tick
are exactly one DOWN when the previous level is released and the sampled level pressed,
exactly one UP when the previous level is pressed and the sampled level released, and none
otherwise; so in the sequence of all DOWN/UP calls neighbours differ and the first is DOWN. -/
theorem down_up_only_momentary_paired (pm : press_mode_t) (levels : List Nat)
    (hl : ∀ x ∈ levels, x ≤ 1) :
    ((∀ cs ∈ fs_trace ⟨pm, CC_NORMAL⟩ fs_init levels, ∀ c ∈ cs, c.event = MIDI_EVT_TRIGGER) ∧
      (∀ cs ∈ sw_trace ⟨pm, CC_NORMAL⟩ 400 sw_init levels, ∀ c ∈ cs,
        c.event = MIDI_EVT_TRIGGER)) ∧
    ((fs_trace ⟨pm, CC_MOMENTARY⟩ fs_init levels).map
        (fun cs => (cs.filter
          (fun c => c.event = MIDI_EVT_DOWN ∨ c.event = MIDI_EVT_UP)).map midi_call.event) =
      List.zipWith
        (fun prev now =>
          if prev = 1 ∧ now = 0 then [MIDI_EVT_DOWN]
          else if prev = 0 ∧ now = 1 then [MIDI_EVT_UP] else [])
        (1 :: levels) levels ∧
     (sw_trace ⟨pm, CC_MOMENTARY⟩ 400 sw_init levels).map
        (fun cs => (cs.filter
          (fun c => c.event = MIDI_EVT_DOWN ∨ c.event = MIDI_EVT_UP)).map midi_call.event) =
      List.zipWith
        (fun prev now =>
          if prev = 1 ∧ now = 0 then [MIDI_EVT_DOWN]
          else if prev = 0 ∧ now = 1 then [MIDI_EVT_UP] else [])
        (1 :: levels) levels) ∧
    ((List.Chain' (fun a b => a ≠ b)
        ((fs_trace ⟨pm, CC_MOMENTARY⟩ fs_init levels).map
          (fun cs => (cs.filter
            (fun c => c.event = MIDI_EVT_DOWN ∨ c.event = MIDI_EVT_UP)).map
              midi_call.event)).flatten ∧
      ∀ e ∈ ((fs_trace ⟨pm, CC_MOMENTARY⟩ fs_init levels).map
          (fun cs => (cs.filter
            (fun c => c.event = MIDI_EVT_DOWN ∨ c.event = MIDI_EVT_UP)).map
              midi_call.event)).flatten.head?, e = MIDI_EVT_DOWN) ∧
     (List.Chain' (fun a b => a ≠ b)
        ((sw_trace ⟨pm, CC_MOMENTARY⟩ 400 sw_init levels).map
          (fun cs => (cs.filter
            (fun c => c.event = MIDI_EVT_DOWN ∨ c.event = MIDI_EVT_UP)).map
              midi_call.event)).flatten ∧
      ∀ e ∈ ((sw_trace ⟨pm, CC_MOMENTARY⟩ 400 sw_init levels).map
          (fun cs => (cs.filter
            (fun c => c.event = MIDI_EVT_DOWN ∨ c.event = MIDI_EVT_UP)).map
              midi_call.event)).flatten.head?, e = MIDI_EVT_DOWN)) := by
  have hfs := fs_trace_momentary pm levels fs_init (by decide) hl
  have hsw := sw_trace_momentary pm levels sw_init (by decide) hl
  have halt := edge_events_alternate levels 1 (by decide) hl
  simp only [if_true] at halt
  refine ⟨⟨fs_trace_normal pm levels fs_init (by decide) hl,
    sw_trace_normal pm levels sw_init (by decide) hl⟩, ⟨hfs, hsw⟩, ?_, ?_⟩
  · rw [hfs]; exact halt
  · rw [hsw]; exact halt

/-- Witness for C7: TOGGLE, two presses (levels 0 0 1 1 0 1). -/
theorem down_up_only_momentary_paired_witness :
    (∀ x ∈ [0, 0, 1, 1, 0, 1], x ≤ 1) ∧
    (fs_trace ⟨BTN_TOGGLE, CC_MOMENTARY⟩ fs_init [0, 0, 1, 1, 0, 1]).map
        (fun cs => (cs.filter
          (fun c => c.event = MIDI_EVT_DOWN ∨ c.event = MIDI_EVT_UP)).map midi_call.event) =
      List.zipWith
        (fun prev now =>
          if prev = 1 ∧ now = 0 then [MIDI_EVT_DOWN]
          else if prev = 0 ∧ now = 1 then [MIDI_EVT_UP] else [])
        (1 :: [0, 0, 1, 1, 0, 1]) [0, 0, 1, 1, 0, 1] :=
  ⟨by decide,
    (down_up_only_momentary_paired BTN_TOGGLE [0, 0, 1, 1, 0, 1] (by decide)).2.1.1⟩

/-! ## Expression mapping -/

theorem cal_lo_eq_min (cfg : expfs_port_cfg_t) : cal_lo cfg = min cfg.cal_min cfg.cal_max := by
  unfold cal_lo
  split_ifs <;> omega

theorem cal_hi_eq_max (cfg : expfs_port_cfg_t) : cal_hi cfg = max cfg.cal_min cfg.cal_max := by
  unfold cal_hi
  split_ifs <;> omega

theorem clamp7_range (v : Int) : 0 ≤ clamp7 v ∧ clamp7 v ≤ 127 := by
  unfold clamp7
  split_ifs <;> omega

theorem c_div_127 (x : Int) : c_div x 127 = some (Int.tdiv x 127) := by
  simp [c_div]

/-- For a range that is not degenerate the division of `norm` has a nonzero divisor and
its result is in 0..127. -/
theorem map_exp_norm_some (lo hi : Int) (raw : Nat) (hd : ¬ (hi - lo < 8)) :
    ∃ n : Int, map_exp_norm lo hi raw = some n ∧
      n = (clampi_local (raw : Int) lo hi - lo) * 127 / (hi - lo) ∧ 0 ≤ n ∧ n ≤ 127 := by
  have hpos : 0 < hi - lo := by omega
  have hr : lo ≤ clampi_local (raw : Int) lo hi ∧ clampi_local (raw : Int) lo hi ≤ hi := by
    unfold clampi_local
    split_ifs <;> omega
  have hnum : 0 ≤ (clampi_local (raw : Int) lo hi - lo) * 127 := by omega
  refine ⟨(clampi_local (raw : Int) lo hi - lo) * 127 / (hi - lo), ?_, rfl, ?_, ?_⟩
  · unfold map_exp_norm c_div
    rw [if_neg (by omega), Int.tdiv_eq_ediv hnum (le_of_lt hpos)]
  · exact Int.ediv_nonneg hnum (le_of_lt hpos)
  · apply Int.ediv_le_of_le_mul hpos
    nlinarith [hr.1, hr.2]

/-- The result of `map_exp_value` on a configuration whose range is not degenerate. -/
theorem map_exp_value_eq (cfg : expfs_port_cfg_t) (raw : Nat)
    (hd : ¬ (cal_hi cfg - cal_lo cfg < 8)) :
    map_exp_value (some cfg) raw =
      some (clamp7
        (if (exp_out_range cfg.exp_action).2 ≥ (exp_out_range cfg.exp_action).1 then
          (exp_out_range cfg.exp_action).1 +
            Int.tdiv (((clampi_local (raw : Int) (cal_lo cfg) (cal_hi cfg) - cal_lo cfg) * 127 /
                (cal_hi cfg - cal_lo cfg)) *
              ((exp_out_range cfg.exp_action).2 - (exp_out_range cfg.exp_action).1)) 127
        else
          (exp_out_range cfg.exp_action).1 -
            Int.tdiv (((clampi_local (raw : Int) (cal_lo cfg) (cal_hi cfg) - cal_lo cfg) * 127 /
                (cal_hi cfg - cal_lo cfg)) *
              ((exp_out_range cfg.exp_action).1 - (exp_out_range cfg.exp_action).2)) 127)) := by
  obtain ⟨n, hn, hdef, -, -⟩ := map_exp_norm_some (cal_lo cfg) (cal_hi cfg) raw hd
  simp only [map_exp_value, if_neg hd, hn, c_div_127, ← hdef]
  split_ifs <;> rfl

/-- C8. For a CC action with output bounds `b = 0`, `c = 127` and calibration bounds, in
either order, with `max - min ≥ 8`: a raw sample equal to the smaller calibration bound is
mapped to 0 and a raw sample equal to the larger one is mapped to 127. -/
theorem map_exp_value_endpoints (cfg : expfs_port_cfg_t) (rlo rhi : Nat)
    (hty : cfg.exp_action.type = act_type_t.ACT_CC)
    (hb : cfg.exp_action.b = 0) (hc : cfg.exp_action.c = 127)
    (hdeg : 8 ≤ max cfg.cal_min cfg.cal_max - min cfg.cal_min cfg.cal_max)
    (hlo : (rlo : Int) = min cfg.cal_min cfg.cal_max)
    (hhi : (rhi : Int) = max cfg.cal_min cfg.cal_max) :
    map_exp_value (some cfg) rlo = some 0 ∧ map_exp_value (some cfg) rhi = some 127 := by
  have hd : ¬ (cal_hi cfg - cal_lo cfg < 8) := by
    rw [cal_lo_eq_min, cal_hi_eq_max]; omega
  have hpos : cal_hi cfg - cal_lo cfg ≠ 0 := by omega
  have hr : exp_out_range cfg.exp_action = (0, 127) := by
    simp [exp_out_range, hty, hb, hc]
  constructor
  · have hcl : clampi_local (rlo : Int) (cal_lo cfg) (cal_hi cfg) = cal_lo cfg := by
      rw [hlo, ← cal_lo_eq_min]
      unfold clampi_local
      split_ifs <;> omega
    rw [map_exp_value_eq cfg rlo hd, hr, hcl]
    simp [clamp7]
  · have hcl : clampi_local (rhi : Int) (cal_lo cfg) (cal_hi cfg) = cal_hi cfg := by
      rw [hhi, ← cal_hi_eq_max]
      unfold clampi_local
      split_ifs <;> omega
    have hq : (cal_hi cfg - cal_lo cfg) * 127 / (cal_hi cfg - cal_lo cfg) = 127 :=
      Int.mul_ediv_cancel_left 127 hpos
    rw [map_exp_value_eq cfg rhi hd, hr, hcl, hq]
    decide

/-- Witness for C8: calibration stored reversed, `cal_min = 3800`, `cal_max = 200`. -/
theorem map_exp_value_endpoints_witness :
    map_exp_value (some
        { kind := expfs_kind_t.EXPFS_KIND_EXP, tip := ⟨BTN_SHORT, CC_NORMAL⟩,
          ring := ⟨BTN_SHORT, CC_NORMAL⟩,
          exp_action := { type := act_type_t.ACT_CC, ch := 1, a := 11, b := 0, c := 127 },
          cal_min := 3800, cal_max := 200 }) 200 = some 0 ∧
    map_exp_value (some
        { kind := expfs_kind_t.EXPFS_KIND_EXP, tip := ⟨BTN_SHORT, CC_NORMAL⟩,
          ring := ⟨BTN_SHORT, CC_NORMAL⟩,
          exp_action := { type := act_type_t.ACT_CC, ch := 1, a := 11, b := 0, c := 127 },
          cal_min := 3800, cal_max := 200 }) 3800 = some 127 :=
  map_exp_value_endpoints
    { kind := expfs_kind_t.EXPFS_KIND_EXP, tip := ⟨BTN_SHORT, CC_NORMAL⟩,
      ring := ⟨BTN_SHORT, CC_NORMAL⟩,
      exp_action := { type := act_type_t.ACT_CC, ch := 1, a := 11, b := 0, c := 127 },
      cal_min := 3800, cal_max := 200 } 200 3800 rfl rfl rfl (by decide) (by decide) (by decide)

/-- C9. `map_exp_value` never divides by zero (its result is never `none`), for every
configuration pointer, action and raw sample; and whenever `max - min < 8` for the
calibration bounds its result is 0, whatever the raw sample, the action type and the output
bounds. -/
theorem map_exp_value_degenerate (cfg : Option expfs_port_cfg_t) (raw : Nat) :
    (∃ v : Int, map_exp_value cfg raw = some v) ∧
      ∀ c : expfs_port_cfg_t, cfg = some c →
        max c.cal_min c.cal_max - min c.cal_min c.cal_max < 8 →
        map_exp_value cfg raw = some 0 := by
  constructor
  · cases cfg with
    | none => exact ⟨0, rfl⟩
    | some c =>
      by_cases hd : cal_hi c - cal_lo c < 8
      · exact ⟨0, by simp [map_exp_value, hd]⟩
      · exact ⟨_, map_exp_value_eq c raw hd⟩
  · rintro c rfl hdeg
    have hd : cal_hi c - cal_lo c < 8 := by
      rw [cal_lo_eq_min, cal_hi_eq_max]; exact hdeg
    simp [map_exp_value, hd]

/-- Witness for C9: equal calibration bounds and output bounds 100..120 that exclude 0. -/
theorem map_exp_value_degenerate_witness :
    max (500 : Int) 500 - min 500 500 < 8 ∧
    map_exp_value (some
        { kind := expfs_kind_t.EXPFS_KIND_EXP, tip := ⟨BTN_SHORT, CC_NORMAL⟩,
          ring := ⟨BTN_SHORT, CC_NORMAL⟩,
          exp_action := { type := act_type_t.ACT_CC, ch := 1, a := 11, b := 100, c := 120 },
          cal_min := 500, cal_max := 500 }) 500 = some 0 :=
  ⟨by decide,
    (map_exp_value_degenerate (some
        { kind := expfs_kind_t.EXPFS_KIND_EXP, tip := ⟨BTN_SHORT, CC_NORMAL⟩,
          ring := ⟨BTN_SHORT, CC_NORMAL⟩,
          exp_action := { type := act_type_t.ACT_CC, ch := 1, a := 11, b := 100, c := 120 },
          cal_min := 500, cal_max := 500 }) 500).2 _ rfl (by decide)⟩

/-- C10. For every configuration pointer and configuration (calibration bounds in either
order, any output bounds, any action type) and every raw sample, `map_exp_value` returns a
value in 0..127; and when the range is not degenerate the intermediate `norm` is computed
(no zero divisor), equals `(clamp(raw, lo, hi) - lo) * 127 / (hi - lo)` and lies in
0..127. -/
theorem map_exp_value_range (cfg : Option expfs_port_cfg_t) (raw : Nat) :
    (∃ v : Int, map_exp_value cfg raw = some v ∧ 0 ≤ v ∧ v ≤ 127) ∧
      ∀ c : expfs_port_cfg_t, cfg = some c → ¬ (cal_hi c - cal_lo c < 8) →
        ∃ n : Int, map_exp_norm (cal_lo c) (cal_hi c) raw = some n ∧
          n = (clampi_local (raw : Int) (cal_lo c) (cal_hi c) - cal_lo c) * 127 /
            (cal_hi c - cal_lo c) ∧ 0 ≤ n ∧ n ≤ 127 := by
  constructor
  · cases cfg with
    | none => exact ⟨0, rfl, by decide, by decide⟩
    | some c =>
      by_cases hd : cal_hi c - cal_lo c < 8
      · exact ⟨0, by simp [map_exp_value, hd], by decide, by decide⟩
      · exact ⟨_, map_exp_value_eq c raw hd, (clamp7_range _).1, (clamp7_range _).2⟩
  · rintro c - hd
    exact map_exp_norm_some (cal_lo c) (cal_hi c) raw hd

/-- Witness for C10: inverted output bounds 200..-50 outside 0..127, reversed calibration. -/
theorem map_exp_value_range_witness :
    ¬ ((3800 : Int) - 200 < 8) ∧
    ∃ v : Int, map_exp_value (some
        { kind := expfs_kind_t.EXPFS_KIND_EXP, tip := ⟨BTN_SHORT, CC_NORMAL⟩,
          ring := ⟨BTN_SHORT, CC_NORMAL⟩,
          exp_action := { type := act_type_t.ACT_PC, ch := 1, a := 200, b := -50, c := 0 },
          cal_min := 3800, cal_max := 200 }) 65535 = some v ∧ 0 ≤ v ∧ v ≤ 127 :=
  ⟨by decide,
    (map_exp_value_range (some
        { kind := expfs_kind_t.EXPFS_KIND_EXP, tip := ⟨BTN_SHORT, CC_NORMAL⟩,
          ring := ⟨BTN_SHORT, CC_NORMAL⟩,
          exp_action := { type := act_type_t.ACT_PC, ch := 1, a := 200, b := -50, c := 0 },
          cal_min := 3800, cal_max := 200 }) 65535).1⟩

/-! ## Expression mapping: direction, scenario values, order of the calibration bounds -/

theorem clamp7_mono (x y : Int) (h : x ≤ y) : clamp7 x ≤ clamp7 y := by
  unfold clamp7
  split_ifs <;> omega

theorem clampi_local_mono (x y lo hi : Int) (h : x ≤ y) (hlh : lo ≤ hi) :
    clampi_local x lo hi ≤ clampi_local y lo hi := by
  unfold clampi_local
  split_ifs <;> omega

/-- The quotient `norm * d / 127` of `map_exp_value` grows with `norm` for `d ≥ 0`. -/
theorem scale_mono (n1 n2 d : Int) (h0 : 0 ≤ n1) (h12 : n1 ≤ n2) (hd : 0 ≤ d) :
    Int.tdiv (n1 * d) 127 ≤ Int.tdiv (n2 * d) 127 := by
  have h1 : 0 ≤ n1 * d := Int.mul_nonneg h0 hd
  have h2 : 0 ≤ n2 * d := Int.mul_nonneg (le_trans h0 h12) hd
  rw [Int.tdiv_eq_ediv h1 (by norm_num), Int.tdiv_eq_ediv h2 (by norm_num)]
  exact Int.ediv_le_ediv (by norm_num) (Int.mul_le_mul_of_nonneg_right h12 hd)

/-- C11. `map_exp_value` preserves direction.  For a fixed configuration and raw samples
`r1 ≤ r2` both results are computed, and with `(v1, v2)` the output bounds of the action
(`(b, c)` for a CC action, `(a, b)` for a PC action): the result for `r1` is at most the
result for `r2` when `v2 ≥ v1`, and at least the result for `r2` when `v2 < v1`. -/
theorem map_exp_value_direction (cfg : expfs_port_cfg_t) (r1 r2 : Nat) (h : r1 ≤ r2) :
    ((cfg.exp_action.type = act_type_t.ACT_CC →
        exp_out_range cfg.exp_action = (cfg.exp_action.b, cfg.exp_action.c)) ∧
      (cfg.exp_action.type = act_type_t.ACT_PC →
        exp_out_range cfg.exp_action = (cfg.exp_action.a, cfg.exp_action.b))) ∧
    ∃ o1 o2 : Int, map_exp_value (some cfg) r1 = some o1 ∧
      map_exp_value (some cfg) r2 = some o2 ∧
      ((exp_out_range cfg.exp_action).2 ≥ (exp_out_range cfg.exp_action).1 → o1 ≤ o2) ∧
      ((exp_out_range cfg.exp_action).2 < (exp_out_range cfg.exp_action).1 → o1 ≥ o2) := by
  refine ⟨⟨fun hty => by simp [exp_out_range, hty], fun hty => by simp [exp_out_range, hty]⟩, ?_⟩
  by_cases hd : cal_hi cfg - cal_lo cfg < 8
  · exact ⟨0, 0, by simp [map_exp_value, hd], by simp [map_exp_value, hd],
      fun _ => le_refl _, fun _ => le_refl _⟩
  · have hpos : 0 < cal_hi cfg - cal_lo cfg := by omega
    have hlh : cal_lo cfg ≤ cal_hi cfg := by omega
    have hc1 : cal_lo cfg ≤ clampi_local (r1 : Int) (cal_lo cfg) (cal_hi cfg) := by
      unfold clampi_local
      split_ifs <;> omega
    have hc12 : clampi_local (r1 : Int) (cal_lo cfg) (cal_hi cfg) ≤
        clampi_local (r2 : Int) (cal_lo cfg) (cal_hi cfg) :=
      clampi_local_mono _ _ _ _ (by exact_mod_cast h) hlh
    have hn0 : 0 ≤ (clampi_local (r1 : Int) (cal_lo cfg) (cal_hi cfg) - cal_lo cfg) * 127 /
        (cal_hi cfg - cal_lo cfg) :=
      Int.ediv_nonneg (by omega) (le_of_lt hpos)
    have hn12 : (clampi_local (r1 : Int) (cal_lo cfg) (cal_hi cfg) - cal_lo cfg) * 127 /
          (cal_hi cfg - cal_lo cfg) ≤
        (clampi_local (r2 : Int) (cal_lo cfg) (cal_hi cfg) - cal_lo cfg) * 127 /
          (cal_hi cfg - cal_lo cfg) :=
      Int.ediv_le_ediv hpos (by omega)
    refine ⟨_, _, map_exp_value_eq cfg r1 hd, map_exp_value_eq cfg r2 hd, ?_, ?_⟩
    · intro hv
      rw [if_pos hv, if_pos hv]
      apply clamp7_mono
      have := scale_mono _ _ ((exp_out_range cfg.exp_action).2 - (exp_out_range cfg.exp_action).1)
        hn0 hn12 (by omega)
      omega
    · intro hv
      have hv2 : ¬ ((exp_out_range cfg.exp_action).2 ≥ (exp_out_range cfg.exp_action).1) := by
        omega
      rw [if_neg hv2, if_neg hv2]
      apply clamp7_mono
      have := scale_mono _ _ ((exp_out_range cfg.exp_action).1 - (exp_out_range cfg.exp_action).2)
        hn0 hn12 (by omega)
      omega

/-- Witness for C11: inverted CC output range 127..0, raw samples 1000 and 2000. -/
theorem map_exp_value_direction_witness :
    1000 ≤ 2000 ∧
    ∃ o1 o2 : Int,
      map_exp_value (some
        { kind := expfs_kind_t.EXPFS_KIND_EXP, tip := ⟨BTN_SHORT, CC_NORMAL⟩,
          ring := ⟨BTN_SHORT, CC_NORMAL⟩,
          exp_action := { type := act_type_t.ACT_CC, ch := 1, a := 11, b := 127, c := 0 },
          cal_min := 200, cal_max := 3800 }) 1000 = some o1 ∧
      map_exp_value (some
        { kind := expfs_kind_t.EXPFS_KIND_EXP, tip := ⟨BTN_SHORT, CC_NORMAL⟩,
          ring := ⟨BTN_SHORT, CC_NORMAL⟩,
          exp_action := { type := act_type_t.ACT_CC, ch := 1, a := 11, b := 127, c := 0 },
          cal_min := 200, cal_max := 3800 }) 2000 = some o2 ∧ o1 ≥ o2 :=
  ⟨by decide,
    match (map_exp_value_direction
        { kind := expfs_kind_t.EXPFS_KIND_EXP, tip := ⟨BTN_SHORT, CC_NORMAL⟩,
          ring := ⟨BTN_SHORT, CC_NORMAL⟩,
          exp_action := { type := act_type_t.ACT_CC, ch := 1, a := 11, b := 127, c := 0 },
          cal_min := 200, cal_max := 3800 } 1000 2000 (by decide)).2 with
    | ⟨o1, o2, h1, h2, _, h4⟩ => ⟨o1, o2, h1, h2, h4 (by decide)⟩⟩

/-- C12 as stated fails: the raw sample 2000 of the scenario is not mapped to a value within
1 of 60 (it is mapped to 63), and 3000 is not mapped to a value within 1 of 93 (it is
mapped to 98). -/
theorem map_exp_value_scenario_not_as_listed :
    (¬ ∃ v : Int, map_exp_value (some
          { kind := expfs_kind_t.EXPFS_KIND_EXP, tip := ⟨BTN_SHORT, CC_NORMAL⟩,
            ring := ⟨BTN_SHORT, CC_NORMAL⟩,
            exp_action := { type := act_type_t.ACT_CC, ch := 1, a := 11, b := 0, c := 127 },
            cal_min := 200, cal_max := 3800 }) 2000 = some v ∧ 59 ≤ v ∧ v ≤ 61) ∧
      ¬ ∃ v : Int, map_exp_value (some
          { kind := expfs_kind_t.EXPFS_KIND_EXP, tip := ⟨BTN_SHORT, CC_NORMAL⟩,
            ring := ⟨BTN_SHORT, CC_NORMAL⟩,
            exp_action := { type := act_type_t.ACT_CC, ch := 1, a := 11, b := 0, c := 127 },
            cal_min := 200, cal_max := 3800 }) 3000 = some v ∧ 92 ≤ v ∧ v ≤ 94 := by
  have h63 : map_exp_value (some
      { kind := expfs_kind_t.EXPFS_KIND_EXP, tip := ⟨BTN_SHORT, CC_NORMAL⟩,
        ring := ⟨BTN_SHORT, CC_NORMAL⟩,
        exp_action := { type := act_type_t.ACT_CC, ch := 1, a := 11, b := 0, c := 127 },
        cal_min := 200, cal_max := 3800 }) 2000 = some 63 := by decide
  have h98 : map_exp_value (some
      { kind := expfs_kind_t.EXPFS_KIND_EXP, tip := ⟨BTN_SHORT, CC_NORMAL⟩,
        ring := ⟨BTN_SHORT, CC_NORMAL⟩,
        exp_action := { type := act_type_t.ACT_CC, ch := 1, a := 11, b := 0, c := 127 },
        cal_min := 200, cal_max := 3800 }) 3000 = some 98 := by decide
  constructor
  · rintro ⟨v, hv, h1, h2⟩
    rw [h63] at hv
    have : v = 63 := by injection hv with hv; exact hv.symm
    omega
  · rintro ⟨v, hv, h1, h2⟩
    rw [h98] at hv
    have : v = 98 := by injection hv with hv; exact hv.symm
    omega

/-- C12 (amended). With `cal_min = 200`, `cal_max = 3800` and a CC action with output bounds
`b = 0`, `c = 127`, `map_exp_value` maps the raw samples 200, 1000, 2000, 3000, 3800 to
0, 28, 63, 98, 127. -/
theorem map_exp_value_scenario :
    [200, 1000, 2000, 3000, 3800].map (map_exp_value (some
        { kind := expfs_kind_t.EXPFS_KIND_EXP, tip := ⟨BTN_SHORT, CC_NORMAL⟩,
          ring := ⟨BTN_SHORT, CC_NORMAL⟩,
          exp_action := { type := act_type_t.ACT_CC, ch := 1, a := 11, b := 0, c := 127 },
          cal_min := 200, cal_max := 3800 })) =
      [some 0, some 28, some 63, some 98, some 127] := by
  decide

/-- C13. `map_exp_value` does not depend on the order in which the two calibration bounds
are stored: exchanging `cal_min` and `cal_max` gives the same result for every raw sample
and action. -/
theorem map_exp_value_cal_order (cfg : expfs_port_cfg_t) (x y : Int) (raw : Nat) :
    map_exp_value (some { cfg with cal_min := x, cal_max := y }) raw =
      map_exp_value (some { cfg with cal_min := y, cal_max := x }) raw := by
  have hlo : cal_lo { cfg with cal_min := x, cal_max := y } =
      cal_lo { cfg with cal_min := y, cal_max := x } := by
    simp only [cal_lo]
    split_ifs <;> omega
  have hhi : cal_hi { cfg with cal_min := x, cal_max := y } =
      cal_hi { cfg with cal_min := y, cal_max := x } := by
    simp only [cal_hi]
    split_ifs <;> omega
  simp only [map_exp_value, hlo, hhi]

/-! ## Expression port: throttle, failed reads, sends -/

/-- The function `map_exp_value` returns a value for every input: no division by zero. -/
theorem map_exp_value_some (cfg : Option expfs_port_cfg_t) (raw : Nat) :
    ∃ v : Int, map_exp_value cfg raw = some v := by
  cases cfg with
  | none => exact ⟨0, rfl⟩
  | some c =>
    by_cases hd : cal_hi c - cal_lo c < 8
    · exact ⟨0, by simp [map_exp_value, hd]⟩
    · exact ⟨_, map_exp_value_eq c raw hd⟩


/-- The result of `handle_exp_port` in terms of the sample `lr` left in `s_last_raw[port]`
by the read step and of the value `m` it is mapped to. -/
theorem handle_exp_port_eq (s : exp_state) (adc : Option Int) (t : Nat)
    (usb_ready uart_ready : Bool) (cfg : expfs_port_cfg_t) (lr : Nat) (m : Int)
    (hlr : lr = (match adc with
        | some raw => (if (if raw < 0 then 0 else raw) > 4095 then 4095
            else (if raw < 0 then 0 else raw)).toNat
        | none => s.last_raw))
    (hm : map_exp_value (some cfg) lr = some m) :
    handle_exp_port s adc t usb_ready uart_ready cfg =
      some (if m ≠ s.last_mapped ∧ ((t : Int) - (s.last_send_ms : Int)) % 4294967296 ≥ 25 then
          (⟨lr, m, t⟩,
            match cfg.exp_action.type with
            | act_type_t.ACT_CC =>
              send_cc_all usb_ready uart_ready (clampi_local cfg.exp_action.ch 1 16)
                (clamp7 cfg.exp_action.a) m
            | act_type_t.ACT_PC =>
              send_pc_all usb_ready uart_ready (clampi_local cfg.exp_action.ch 1 16) m
            | act_type_t.ACT_OTHER _ => [])
        else (⟨lr, s.last_mapped, s.last_send_ms⟩, [])) := by
  have key : ∀ s1 : exp_state, s1.last_raw = lr → s1.last_mapped = s.last_mapped →
      s1.last_send_ms = s.last_send_ms →
      (match map_exp_value (some cfg) s1.last_raw with
        | none => none
        | some mapped =>
          if mapped ≠ s1.last_mapped then
            if ((t : Int) - (s1.last_send_ms : Int)) % 4294967296 ≥ 25 then
              match cfg.exp_action.type with
              | act_type_t.ACT_CC =>
                some (({ s1 with last_send_ms := t, last_mapped := mapped } : exp_state),
                  send_cc_all usb_ready uart_ready (clampi_local cfg.exp_action.ch 1 16)
                    (clamp7 cfg.exp_action.a) mapped)
              | act_type_t.ACT_PC =>
                some (({ s1 with last_send_ms := t, last_mapped := mapped } : exp_state),
                  send_pc_all usb_ready uart_ready (clampi_local cfg.exp_action.ch 1 16) mapped)
              | act_type_t.ACT_OTHER _ =>
                some (({ s1 with last_send_ms := t, last_mapped := mapped } : exp_state), [])
            else some (s1, [])
          else some (s1, [])) =
      some (if m ≠ s.last_mapped ∧ ((t : Int) - (s.last_send_ms : Int)) % 4294967296 ≥ 25 then
          (⟨lr, m, t⟩,
            match cfg.exp_action.type with
            | act_type_t.ACT_CC =>
              send_cc_all usb_ready uart_ready (clampi_local cfg.exp_action.ch 1 16)
                (clamp7 cfg.exp_action.a) m
            | act_type_t.ACT_PC =>
              send_pc_all usb_ready uart_ready (clampi_local cfg.exp_action.ch 1 16) m
            | act_type_t.ACT_OTHER _ => [])
        else (⟨lr, s.last_mapped, s.last_send_ms⟩, [])) := by
    rintro ⟨a, b, c⟩ h1 h2 h3
    simp only at h1 h2 h3
    subst h1 h2 h3
    simp only [hm]
    by_cases hg1 : m ≠ s.last_mapped
    · by_cases hg2 : ((t : Int) - (s.last_send_ms : Int)) % 4294967296 ≥ 25
      · have hg : m ≠ s.last_mapped ∧ ((t : Int) - (s.last_send_ms : Int)) % 4294967296 ≥ 25 :=
          ⟨hg1, hg2⟩
        simp only [if_pos hg1, if_pos hg2, if_pos hg]
        cases cfg.exp_action.type <;> rfl
      · have hg : ¬ (m ≠ s.last_mapped ∧
            ((t : Int) - (s.last_send_ms : Int)) % 4294967296 ≥ 25) := fun h => hg2 h.2
        simp only [if_pos hg1, if_neg hg2, if_neg hg]
    · have hg : ¬ (m ≠ s.last_mapped ∧
          ((t : Int) - (s.last_send_ms : Int)) % 4294967296 ≥ 25) := fun h => hg1 h.1
      simp only [if_neg hg1, if_neg hg]
  cases adc with
  | none => exact key s hlr.symm rfl rfl
  | some raw => exact key _ hlr.symm rfl rfl

/-- One call of `handle_exp_port` returns; either it sends nothing and keeps
`s_last_send_ms`, or it sets `s_last_send_ms` to the current time and the elapsed time
`(t - s_last_send_ms) mod 2^32` is at least 25. -/
theorem handle_exp_port_gate (s : exp_state) (adc : Option Int) (t : Nat)
    (usb_ready uart_ready : Bool) (cfg : expfs_port_cfg_t) :
    ∃ r : exp_state × List midi_msg,
      handle_exp_port s adc t usb_ready uart_ready cfg = some r ∧
      ((r.2 = [] ∧ r.1.last_send_ms = s.last_send_ms) ∨
        (r.1.last_send_ms = t ∧ ((t : Int) - (s.last_send_ms : Int)) % 4294967296 ≥ 25)) := by
  obtain ⟨m, hm⟩ := (map_exp_value_some (some cfg) (match adc with
        | some raw => (if (if raw < 0 then 0 else raw) > 4095 then 4095
            else (if raw < 0 then 0 else raw)).toNat
        | none => s.last_raw))
  refine ⟨_, handle_exp_port_eq s adc t usb_ready uart_ready cfg _ m rfl hm, ?_⟩
  by_cases hg : m ≠ s.last_mapped ∧ ((t : Int) - (s.last_send_ms : Int)) % 4294967296 ≥ 25
  · rw [if_pos hg]
    exact Or.inr ⟨rfl, hg.2⟩
  · rw [if_neg hg]
    exact Or.inl ⟨rfl, rfl⟩

/-- Throttle invariant over successive calls of `handle_exp_port`, from any cells whose
`s_last_send_ms` is not after the first call. -/
theorem exp_trace_spacing (ticks : List exp_tick) (s : exp_state)
    (hs : ∀ x ∈ ticks, s.last_send_ms ≤ x.t)
    (hsorted : List.Pairwise (fun a b : exp_tick => a.t ≤ b.t) ticks)
    (hwrap : ∀ x ∈ ticks, x.t < 4294967296) :
    ∃ tr : List (Nat × List midi_msg), exp_trace s ticks = some tr ∧
      tr.map Prod.fst = ticks.map (fun x => x.t) ∧
      List.Pairwise (fun a b : Nat × List midi_msg => a.2 ≠ [] → b.2 ≠ [] → a.1 + 25 ≤ b.1) tr ∧
      ∀ b ∈ tr, b.2 ≠ [] → s.last_send_ms + 25 ≤ b.1 := by
  induction ticks generalizing s with
  | nil => exact ⟨[], rfl, rfl, List.Pairwise.nil, by simp⟩
  | cons x rest ih =>
    obtain ⟨r, hr, hcase⟩ := handle_exp_port_gate s x.adc x.t x.usb_ready x.uart_ready x.cfg
    have hx : s.last_send_ms ≤ x.t := hs x (List.mem_cons_self _ _)
    have hxw : x.t < 4294967296 := hwrap x (List.mem_cons_self _ _)
    rw [List.pairwise_cons] at hsorted
    have hr_le : ∀ y ∈ rest, r.1.last_send_ms ≤ y.t := by
      intro y hy
      rcases hcase with ⟨-, h⟩ | ⟨h, -⟩
      · rw [h]; exact hs y (List.mem_cons_of_mem _ hy)
      · rw [h]; exact hsorted.1 y hy
    obtain ⟨tr, htr, hmap, hpw, hlast⟩ := ih r.1 hr_le hsorted.2
      (fun y hy => hwrap y (List.mem_cons_of_mem _ hy))
    refine ⟨(x.t, r.2) :: tr, by simp only [exp_trace, hr, htr], by simp [hmap], ?_, ?_⟩
    · rw [List.pairwise_cons]
      refine ⟨fun b hb ha hb2 => ?_, hpw⟩
      rcases hcase with ⟨h, -⟩ | ⟨h, -⟩
      · exact absurd h ha
      · have := hlast b hb hb2
        rw [h] at this
        exact this
    · intro b hb hb2
      rcases List.mem_cons.1 hb with rfl | hb
      · rcases hcase with ⟨h, -⟩ | ⟨-, h⟩
        · exact absurd h hb2
        · show s.last_send_ms + 25 ≤ x.t
          omega
      · have := hlast b hb hb2
        rcases hcase with ⟨-, h⟩ | ⟨h, -⟩
        · rw [h] at this; exact this
        · rw [h] at this; omega

/-- C14. For every sequence of calls of `handle_exp_port` on one port from the initialised
cells (`last_mapped = 0xFF`, `last_send_ms = 0`), with non-decreasing times below `2^32` and
arbitrary read results, configurations and transport readiness: every call returns, and for
any two calls that send a message the later one is at least 25 ms after the earlier one. -/
theorem exp_sends_25ms_apart (ticks : List exp_tick)
    (hsorted : List.Pairwise (fun a b : exp_tick => a.t ≤ b.t) ticks)
    (hwrap : ∀ x ∈ ticks, x.t < 4294967296) :
    ∃ tr : List (Nat × List midi_msg), exp_trace exp_init ticks = some tr ∧
      tr.map Prod.fst = ticks.map (fun x => x.t) ∧
      List.Pairwise (fun a b : Nat × List midi_msg => a.2 ≠ [] → b.2 ≠ [] → a.1 + 25 ≤ b.1)
        tr := by
  obtain ⟨tr, h1, h2, h3, -⟩ := exp_trace_spacing ticks exp_init
    (fun x _ => Nat.zero_le _) hsorted hwrap
  exact ⟨tr, h1, h2, h3⟩

/-- Witness for C14: reads 200, 2000, 3800 at 30, 40 and 60 ms. -/
theorem exp_sends_25ms_apart_witness :
    List.Pairwise (fun a b : exp_tick => a.t ≤ b.t) [
      { cfg :=
          { kind := expfs_kind_t.EXPFS_KIND_EXP,
            tip := ⟨BTN_SHORT, CC_NORMAL⟩, ring := ⟨BTN_SHORT, CC_NORMAL⟩,
            exp_action := ⟨act_type_t.ACT_CC, 1, 11, 0, 127⟩,
            cal_min := 200, cal_max := 3800 },
        adc := some 200, t := 30, usb_ready := true, uart_ready := true },
      { cfg :=
          { kind := expfs_kind_t.EXPFS_KIND_EXP,
            tip := ⟨BTN_SHORT, CC_NORMAL⟩, ring := ⟨BTN_SHORT, CC_NORMAL⟩,
            exp_action := ⟨act_type_t.ACT_CC, 1, 11, 0, 127⟩,
            cal_min := 200, cal_max := 3800 },
        adc := some 2000, t := 40, usb_ready := true, uart_ready := true },
      { cfg :=
          { kind := expfs_kind_t.EXPFS_KIND_EXP,
            tip := ⟨BTN_SHORT, CC_NORMAL⟩, ring := ⟨BTN_SHORT, CC_NORMAL⟩,
            exp_action := ⟨act_type_t.ACT_CC, 1, 11, 0, 127⟩,
            cal_min := 200, cal_max := 3800 },
        adc := some 3800, t := 60, usb_ready := true, uart_ready := false }] ∧
    (∀ x ∈ ([
      { cfg :=
          { kind := expfs_kind_t.EXPFS_KIND_EXP,
            tip := ⟨BTN_SHORT, CC_NORMAL⟩, ring := ⟨BTN_SHORT, CC_NORMAL⟩,
            exp_action := ⟨act_type_t.ACT_CC, 1, 11, 0, 127⟩,
            cal_min := 200, cal_max := 3800 },
        adc := some 200, t := 30, usb_ready := true, uart_ready := true },
      { cfg :=
          { kind := expfs_kind_t.EXPFS_KIND_EXP,
            tip := ⟨BTN_SHORT, CC_NORMAL⟩, ring := ⟨BTN_SHORT, CC_NORMAL⟩,
            exp_action := ⟨act_type_t.ACT_CC, 1, 11, 0, 127⟩,
            cal_min := 200, cal_max := 3800 },
        adc := some 2000, t := 40, usb_ready := true, uart_ready := true },
      { cfg :=
          { kind := expfs_kind_t.EXPFS_KIND_EXP,
            tip := ⟨BTN_SHORT, CC_NORMAL⟩, ring := ⟨BTN_SHORT, CC_NORMAL⟩,
            exp_action := ⟨act_type_t.ACT_CC, 1, 11, 0, 127⟩,
            cal_min := 200, cal_max := 3800 },
        adc := some 3800, t := 60, usb_ready := true, uart_ready := false }] : List exp_tick), x.t < 4294967296) ∧
    ∃ tr : List (Nat × List midi_msg), exp_trace exp_init [
      { cfg :=
          { kind := expfs_kind_t.EXPFS_KIND_EXP,
            tip := ⟨BTN_SHORT, CC_NORMAL⟩, ring := ⟨BTN_SHORT, CC_NORMAL⟩,
            exp_action := ⟨act_type_t.ACT_CC, 1, 11, 0, 127⟩,
            cal_min := 200, cal_max := 3800 },
        adc := some 200, t := 30, usb_ready := true, uart_ready := true },
      { cfg :=
          { kind := expfs_kind_t.EXPFS_KIND_EXP,
            tip := ⟨BTN_SHORT, CC_NORMAL⟩, ring := ⟨BTN_SHORT, CC_NORMAL⟩,
            exp_action := ⟨act_type_t.ACT_CC, 1, 11, 0, 127⟩,
            cal_min := 200, cal_max := 3800 },
        adc := some 2000, t := 40, usb_ready := true, uart_ready := true },
      { cfg :=
          { kind := expfs_kind_t.EXPFS_KIND_EXP,
            tip := ⟨BTN_SHORT, CC_NORMAL⟩, ring := ⟨BTN_SHORT, CC_NORMAL⟩,
            exp_action := ⟨act_type_t.ACT_CC, 1, 11, 0, 127⟩,
            cal_min := 200, cal_max := 3800 },
        adc := some 3800, t := 60, usb_ready := true, uart_ready := false }] = some tr ∧
      tr.map Prod.fst = [30, 40, 60] ∧
      List.Pairwise (fun a b : Nat × List midi_msg => a.2 ≠ [] → b.2 ≠ [] → a.1 + 25 ≤ b.1)
        tr :=
  ⟨by simp, by simp, exp_sends_25ms_apart _ (by simp) (by simp)⟩

theorem clamp7_eq_clampi_local (v : Int) : clamp7 v = clampi_local v 0 127 := rfl

/-- C15 as stated fails: with an invalid analog binding `adc_read_raw_port` returns 0, and
on the first tick at 25 ms from the initialised cells `handle_exp_port` sends a CC message
(value 0, mapped from the retained `last_raw = 0`). -/
theorem handle_exp_port_failed_read_sends :
    adc_read_raw_port 0 (fun _ => ⟨0, adc_unit_t.ADC_UNIT_1, 0⟩) true true (some 1234) = none ∧
    handle_exp_port exp_init none 25 true false
        { kind := expfs_kind_t.EXPFS_KIND_EXP, tip := ⟨BTN_SHORT, CC_NORMAL⟩,
          ring := ⟨BTN_SHORT, CC_NORMAL⟩,
          exp_action := { type := act_type_t.ACT_CC, ch := 1, a := 11, b := 0, c := 127 },
          cal_min := 200, cal_max := 3800 } =
      some (⟨0, 0, 25⟩, [midi_msg.usb_cc 1 11 0]) := by
  decide

/-- C15 (amended). `adc_read_raw_port` on a valid port returns 0 exactly when the binding is
invalid, the unit handle is missing or the read errors.  On a tick where it returns 0,
`handle_exp_port` returns, leaves `last_raw` unchanged and goes on with the retained sample:
a message is sent only if the value mapped from the retained `last_raw` differs from
`last_mapped` and `(t - last_send_ms) mod 2^32 ≥ 25`; when the retained sample maps to
`last_mapped` nothing is sent and the cells are unchanged. -/
theorem handle_exp_port_failed_read (s : exp_state) (t : Nat) (usb_ready uart_ready : Bool)
    (cfg : expfs_port_cfg_t) :
    (∀ (port : Int) (s_adc_map : Int → adc_map_t) (u1 u2 : Bool) (read : Option Int),
      0 ≤ port → port < EXPFS_PORT_COUNT →
      (adc_read_raw_port port s_adc_map u1 u2 read = none ↔
        ((s_adc_map port).valid = 0 ∨
          (match (s_adc_map port).unit with
            | adc_unit_t.ADC_UNIT_1 => u1
            | adc_unit_t.ADC_UNIT_2 => u2) = false ∨
          read = none))) ∧
    ∃ (r : exp_state × List midi_msg) (m : Int),
      handle_exp_port s none t usb_ready uart_ready cfg = some r ∧
      r.1.last_raw = s.last_raw ∧
      map_exp_value (some cfg) s.last_raw = some m ∧
      (r.2 ≠ [] → m ≠ s.last_mapped ∧ ((t : Int) - (s.last_send_ms : Int)) % 4294967296 ≥ 25) ∧
      (m = s.last_mapped → r = (s, [])) := by
  constructor
  · intro port s_adc_map u1 u2 read h0 h1
    have hp : ¬ (port < 0 ∨ port ≥ EXPFS_PORT_COUNT) := by omega
    simp only [adc_read_raw_port, if_neg hp]
    by_cases hv : (s_adc_map port).valid = 0
    · simp [hv]
    · cases read <;> cases hu : (s_adc_map port).unit <;> cases u1 <;> cases u2 <;> simp [hv]
  · obtain ⟨m, hm⟩ := map_exp_value_some (some cfg) s.last_raw
    refine ⟨_, m, handle_exp_port_eq s none t usb_ready uart_ready cfg s.last_raw m rfl hm,
      ?_, hm, ?_, ?_⟩
    · split_ifs <;> rfl
    · intro hne
      by_contra hg
      rw [if_neg hg] at hne
      exact hne rfl
    · intro heq
      rw [if_neg (fun h => h.1 heq)]

/-- Witness for C15 (amended): the retained sample 200 maps to `last_mapped = 0`; nothing is
sent and the cells are unchanged. -/
theorem handle_exp_port_failed_read_witness :
    ∃ (r : exp_state × List midi_msg) (m : Int),
      handle_exp_port ⟨200, 0, 10⟩ none 100 true true
        { kind := expfs_kind_t.EXPFS_KIND_EXP, tip := ⟨BTN_SHORT, CC_NORMAL⟩,
          ring := ⟨BTN_SHORT, CC_NORMAL⟩,
          exp_action := { type := act_type_t.ACT_CC, ch := 1, a := 11, b := 0, c := 127 },
          cal_min := 200, cal_max := 3800 } = some r ∧
      r.1.last_raw = 200 ∧
      map_exp_value (some
        { kind := expfs_kind_t.EXPFS_KIND_EXP, tip := ⟨BTN_SHORT, CC_NORMAL⟩,
          ring := ⟨BTN_SHORT, CC_NORMAL⟩,
          exp_action := { type := act_type_t.ACT_CC, ch := 1, a := 11, b := 0, c := 127 },
          cal_min := 200, cal_max := 3800 }) 200 = some m ∧
      (r.2 ≠ [] → m ≠ 0 ∧ (((100 : Nat) : Int) - ((10 : Nat) : Int)) % 4294967296 ≥ 25) ∧
      (m = 0 → r = (⟨200, 0, 10⟩, [])) :=
  (handle_exp_port_failed_read ⟨200, 0, 10⟩ 100 true true
        { kind := expfs_kind_t.EXPFS_KIND_EXP, tip := ⟨BTN_SHORT, CC_NORMAL⟩,
          ring := ⟨BTN_SHORT, CC_NORMAL⟩,
          exp_action := { type := act_type_t.ACT_CC, ch := 1, a := 11, b := 0, c := 127 },
          cal_min := 200, cal_max := 3800 }).2

/-- C19. `handle_exp_port` with a CC action: with `m` the value mapped from the sample held
in `last_raw` after the read step, the call passes the gate if and only if `m` differs from
`last_mapped` and `(t - last_send_ms) mod 2^32 ≥ 25`.  When it does, it issues one CC message
per ready transport, with value `m`, controller `clamp(a, 0, 127)` and channel
`clamp(ch, 1, 16)`, and sets `last_mapped = m`, `last_send_ms = t`; when it does not, no
message is issued and `last_mapped`, `last_send_ms` are unchanged. -/
theorem handle_exp_port_cc_send (s : exp_state) (adc : Option Int) (t : Nat)
    (usb_ready uart_ready : Bool) (cfg : expfs_port_cfg_t)
    (hty : cfg.exp_action.type = act_type_t.ACT_CC) :
    ∃ (r : exp_state × List midi_msg) (m : Int),
      handle_exp_port s adc t usb_ready uart_ready cfg = some r ∧
      map_exp_value (some cfg) r.1.last_raw = some m ∧
      ((m ≠ s.last_mapped ∧ ((t : Int) - (s.last_send_ms : Int)) % 4294967296 ≥ 25) →
        r.1.last_mapped = m ∧ r.1.last_send_ms = t ∧
        r.2 = (if usb_ready then
              [midi_msg.usb_cc (clampi_local cfg.exp_action.ch 1 16)
                (clampi_local cfg.exp_action.a 0 127) m] else []) ++
            (if uart_ready then
              [midi_msg.uart_cc (clampi_local cfg.exp_action.ch 1 16)
                (clampi_local cfg.exp_action.a 0 127) m] else [])) ∧
      (¬ (m ≠ s.last_mapped ∧ ((t : Int) - (s.last_send_ms : Int)) % 4294967296 ≥ 25) →
        r.1.last_mapped = s.last_mapped ∧ r.1.last_send_ms = s.last_send_ms ∧ r.2 = []) := by
  obtain ⟨m, hm⟩ := (map_exp_value_some (some cfg) (match adc with
        | some raw => (if (if raw < 0 then 0 else raw) > 4095 then 4095
            else (if raw < 0 then 0 else raw)).toNat
        | none => s.last_raw))
  refine ⟨_, m, handle_exp_port_eq s adc t usb_ready uart_ready cfg _ m rfl hm, ?_, ?_, ?_⟩
  · split_ifs <;> exact hm
  · intro hg
    rw [if_pos hg, hty]
    exact ⟨rfl, rfl, rfl⟩
  · intro hg
    rw [if_neg hg]
    exact ⟨rfl, rfl, rfl⟩

/-- Witness for C19: first read 2000 at 30 ms from the initialised cells, both transports
ready. -/
theorem handle_exp_port_cc_send_witness :
    ∃ (r : exp_state × List midi_msg) (m : Int),
      handle_exp_port exp_init (some 2000) 30 true true
        { kind := expfs_kind_t.EXPFS_KIND_EXP, tip := ⟨BTN_SHORT, CC_NORMAL⟩,
          ring := ⟨BTN_SHORT, CC_NORMAL⟩,
          exp_action := { type := act_type_t.ACT_CC, ch := 1, a := 11, b := 0, c := 127 },
          cal_min := 200, cal_max := 3800 } = some r ∧
      map_exp_value (some
        { kind := expfs_kind_t.EXPFS_KIND_EXP, tip := ⟨BTN_SHORT, CC_NORMAL⟩,
          ring := ⟨BTN_SHORT, CC_NORMAL⟩,
          exp_action := { type := act_type_t.ACT_CC, ch := 1, a := 11, b := 0, c := 127 },
          cal_min := 200, cal_max := 3800 }) r.1.last_raw = some m ∧
      ((m ≠ exp_init.last_mapped ∧
          (((30 : Nat) : Int) - (exp_init.last_send_ms : Int)) % 4294967296 ≥ 25) →
        r.1.last_mapped = m ∧ r.1.last_send_ms = 30 ∧
        r.2 = (if true = true then
              [midi_msg.usb_cc (clampi_local 1 1 16) (clampi_local 11 0 127) m] else []) ++
            (if true = true then
              [midi_msg.uart_cc (clampi_local 1 1 16) (clampi_local 11 0 127) m] else [])) ∧
      (¬ (m ≠ exp_init.last_mapped ∧
          (((30 : Nat) : Int) - (exp_init.last_send_ms : Int)) % 4294967296 ≥ 25) →
        r.1.last_mapped = exp_init.last_mapped ∧
          r.1.last_send_ms = exp_init.last_send_ms ∧ r.2 = []) :=
  handle_exp_port_cc_send exp_init (some 2000) 30 true true
        { kind := expfs_kind_t.EXPFS_KIND_EXP, tip := ⟨BTN_SHORT, CC_NORMAL⟩,
          ring := ⟨BTN_SHORT, CC_NORMAL⟩,
          exp_action := { type := act_type_t.ACT_CC, ch := 1, a := 11, b := 0, c := 127 },
          cal_min := 200, cal_max := 3800 } rfl

/-! ## Calibration capture -/

/-- C18. For a valid port, `expfs_cal_save(port, which)` is the store operation
`config_store_set_expfs_cal` applied once to the port, to the bound 0 (min) when the selector
is 0 and 1 (max) otherwise, and to the value of `expfs_get_last_raw(port)`, which is
`s_last_raw[port]`; the resulting store and the returned `esp_err_t` are those of the store
operation, whatever they are.  With a store that records its calls and returns `res`, the
record is the single call `(port, bound, s_last_raw[port])` and the result is `res`.  The
function reads `s_last_raw` and writes no cell of the engine. -/
theorem expfs_cal_save_passes_last_raw {σ ε : Type}
    (config_store_set_expfs_cal : σ → Int → Int → Nat → σ × ε) (store : σ)
    (s_last_raw : Int → Nat) (port which : Int)
    (hp0 : 0 ≤ port) (hp1 : port < EXPFS_PORT_COUNT) :
    expfs_get_last_raw s_last_raw port = s_last_raw port ∧
    expfs_cal_save config_store_set_expfs_cal store s_last_raw port which =
      config_store_set_expfs_cal store port (if which = 0 then 0 else 1)
        (expfs_get_last_raw s_last_raw port) ∧
    ∀ res : ε,
      expfs_cal_save (fun (log : List (Int × Int × Nat)) p w r => (log ++ [(p, w, r)], res))
          [] s_last_raw port which =
        ([(port, if which = 0 then 0 else 1, s_last_raw port)], res) := by
  have hget : expfs_get_last_raw s_last_raw port = s_last_raw port := by
    unfold expfs_get_last_raw
    rw [if_neg (by omega)]
  have hclamp : clampi_local port 0 (EXPFS_PORT_COUNT - 1) = port := by
    unfold clampi_local EXPFS_PORT_COUNT
    unfold EXPFS_PORT_COUNT at hp1
    split_ifs <;> omega
  refine ⟨hget, ?_, fun res => ?_⟩
  · simp only [expfs_cal_save, hclamp]
    by_cases hw : which = 0 <;> simp [hw]
  · simp only [expfs_cal_save, hclamp, hget]
    by_cases hw : which = 0 <;> simp [hw]

/-- Witness for C18: the spec scenario.  A read of 215 on port 0 leaves 215 in
`s_last_raw[0]`; saving the bound min records the call `(0, 0, 215)`. -/
theorem expfs_cal_save_passes_last_raw_witness :
    (handle_exp_port exp_init (some 215) 30 true true
        { kind := expfs_kind_t.EXPFS_KIND_EXP, tip := ⟨BTN_SHORT, CC_NORMAL⟩,
          ring := ⟨BTN_SHORT, CC_NORMAL⟩,
          exp_action := { type := act_type_t.ACT_CC, ch := 1, a := 11, b := 0, c := 127 },
          cal_min := 200, cal_max := 3800 }).map (fun r => r.1.last_raw) = some 215 ∧
    expfs_cal_save (fun (log : List (Int × Int × Nat)) p w r => (log ++ [(p, w, r)], true))
        [] (fun p => if p = 0 then 215 else 0) 0 0 =
      ([(0, 0, 215)], true) :=
  ⟨by decide,
    ((expfs_cal_save_passes_last_raw (fun (_ : Unit) _ _ _ => ((), true)) ()
      (fun p => if p = 0 then 215 else 0) 0 0 (by decide) (by decide)).2.2 true)⟩

/-! ## Hold counter -/

/-- While the level stays pressed `hold_ms` grows by 10 per tick of `handle_fs_one`, in
every mode, as long as it stays in the range of `int`. -/
theorem fs_hold_count (pm : press_mode_t) (cc : cc_behavior_t) (ab j : Nat) (h : Int)
    (lf : Nat) (h0 : 0 ≤ h) (hj : h + 10 * j < 2147483648) :
    ∃ lf1 : Nat, fs_run ⟨pm, cc⟩ ⟨0, h, lf, ab⟩ (List.replicate j 0) =
      ⟨0, h + 10 * j, lf1, ab⟩ := by
  induction j generalizing h lf with
  | zero => exact ⟨lf, by simp [fs_run]⟩
  | succ j ih =>
    have hw : wrap_int32 (h + 10) = h + 10 := wrap_int32_small _ (by omega) (by omega)
    obtain ⟨lf1, hrun⟩ := ih (h + 10)
      (if pm = BTN_SHORT_LONG ∧ lf = 0 ∧ h + 10 ≥ 400 then 1 else lf) (by omega)
      (by push_cast at hj ⊢; omega)
    refine ⟨lf1, ?_⟩
    simp only [List.replicate_succ, fs_run, fs_step_held, hw, hrun]
    congr 1
    push_cast
    ring

/-- The same for `sw_handle_one` with `long_ms = 400`. -/
theorem sw_hold_count (pm : press_mode_t) (cc : cc_behavior_t) (tab ps j : Nat) (h : Int)
    (lf : Nat) (h0 : 0 ≤ h) (hj : h + 10 * j < 2147483648) :
    ∃ lf1 : Nat, sw_run ⟨pm, cc⟩ 400 ⟨0, h, lf, tab, ps⟩ (List.replicate j 0) =
      ⟨0, h + 10 * j, lf1, tab, ps⟩ := by
  induction j generalizing h lf with
  | zero => exact ⟨lf, by simp [sw_run]⟩
  | succ j ih =>
    have hw : wrap_int32 (h + 10) = h + 10 := wrap_int32_small _ (by omega) (by omega)
    obtain ⟨lf1, hrun⟩ := ih (h + 10)
      (if pm = BTN_SHORT_LONG ∧ lf = 0 ∧ h + 10 ≥ 400 then 1 else lf) (by omega)
      (by push_cast at hj ⊢; omega)
    refine ⟨lf1, ?_⟩
    simp only [List.replicate_succ, sw_run, sw_step_held, hw, hrun]
    congr 1
    push_cast
    ring

/-- C20 as stated fails: from the initial state the edge-down tick leaves `hold_ms = 10`,
not 0, in both state machines. -/
theorem edge_down_tick_counts_hold :
    (handle_fs_one fs_init 0 ⟨BTN_SHORT, CC_NORMAL⟩).1.hold_ms ≠ 0 ∧
    (sw_handle_one sw_init 0 ⟨BTN_SHORT, CC_NORMAL⟩ 400).1.hold_ms ≠ 0 := by
  decide

/-- C20 (amended). In both state machines (`sw_handle_one` with `long_ms = 400`), for every
mode and from every released state, the edge-down tick leaves `hold_ms = 10` and
`long_fired = 0`: `hold_ms` is increased by 10 on every tick whose sampled level is pressed,
the edge-down tick included.  After the edge-down tick and `j` further pressed ticks
`hold_ms = 10 * (j + 1)`, as long as this is in the range of `int`. -/
theorem hold_ms_counts_pressed_ticks (pm : press_mode_t) (cc : cc_behavior_t) (h : Int)
    (lf ab ps j : Nat) (hj : 10 * ((j : Int) + 1) < 2147483648) :
    ((handle_fs_one ⟨1, h, lf, ab⟩ 0 ⟨pm, cc⟩).1.hold_ms = 10 ∧
      (handle_fs_one ⟨1, h, lf, ab⟩ 0 ⟨pm, cc⟩).1.long_fired = 0 ∧
      (fs_run ⟨pm, cc⟩ ⟨1, h, lf, ab⟩ (0 :: List.replicate j 0)).hold_ms =
        10 * ((j : Int) + 1)) ∧
    ((sw_handle_one ⟨1, h, lf, ab, ps⟩ 0 ⟨pm, cc⟩ 400).1.hold_ms = 10 ∧
      (sw_handle_one ⟨1, h, lf, ab, ps⟩ 0 ⟨pm, cc⟩ 400).1.long_fired = 0 ∧
      (sw_run ⟨pm, cc⟩ 400 ⟨1, h, lf, ab, ps⟩ (0 :: List.replicate j 0)).hold_ms =
        10 * ((j : Int) + 1)) := by
  constructor
  · refine ⟨by rw [fs_step_down], by rw [fs_step_down], ?_⟩
    obtain ⟨lf1, hrun⟩ := fs_hold_count pm cc
      (if pm = BTN_TOGGLE then (if ab = 0 then 1 else 0) else ab) j 10 0 (by norm_num)
      (by omega)
    simp only [fs_run, fs_step_down, hrun]
    ring
  · refine ⟨by rw [sw_step_down], by rw [sw_step_down], ?_⟩
    obtain ⟨lf1, hrun⟩ := sw_hold_count pm cc
      (if pm = BTN_TOGGLE then (if ab = 0 then 1 else 0) else ab)
      (if cc = CC_MOMENTARY ∧ pm = BTN_TOGGLE then (if ab ≠ 0 then 1 else 0) else ps)
      j 10 0 (by norm_num) (by omega)
    simp only [sw_run, sw_step_down, hrun]
    ring

/-- Witness for C20 (amended): SHORT_LONG, 45 pressed ticks in all. -/
theorem hold_ms_counts_pressed_ticks_witness :
    10 * (((44 : Nat) : Int) + 1) < 2147483648 ∧
    (fs_run ⟨BTN_SHORT_LONG, CC_NORMAL⟩ ⟨1, 0, 0, 0⟩ (0 :: List.replicate 44 0)).hold_ms =
      10 * (((44 : Nat) : Int) + 1) :=
  ⟨by decide,
    (hold_ms_counts_pressed_ticks BTN_SHORT_LONG CC_NORMAL 0 0 0 0 44 (by decide)).1.2.2⟩

/-! ## Kind change in src/my_app/main/expfs.c -/

/-- The function `exp_handle_one` does not write the switch cells. -/
theorem exp_handle_one_switch_cells (ps : port_state_t) (s_adc : Bool) (read : Option Int)
    (cfg : expfs_port_cfg_t) :
    (exp_handle_one ps s_adc read cfg).1.tip = ps.tip ∧
      (exp_handle_one ps s_adc read cfg).1.ring = ps.ring := by
  simp only [exp_handle_one]
  split_ifs <;> exact ⟨rfl, rfl⟩

/-- C16 as stated fails.  Port of kind SINGLE_SWITCH with the tip in TOGGLE mode: one press
and release (the toggle selection becomes B), then the kind changes to DUAL_SWITCH and the
tip is pressed on the tick of the change.  The TRIGGER of that tick carries `listB`: the
switch cells were not reset (from reset cells the same tick gives `listA`), and the tip's
`toggle_ab` is still 1 before the tick. -/
theorem myapp_kind_change_keeps_switch_state :
    (myapp_task_port
        (myapp_task_port
          (myapp_task_port ⟨port_state_init, expfs_kind_t.EXPFS_KIND_SINGLE_SW⟩ false
            ⟨some ⟨expfs_kind_t.EXPFS_KIND_SINGLE_SW, ⟨BTN_TOGGLE, CC_NORMAL⟩,
              ⟨BTN_SHORT, CC_NORMAL⟩, ⟨act_type_t.ACT_CC, 1, 11, 0, 127⟩, 0, 4095⟩,
              true, none, 0, 1⟩).1.1 false
          ⟨some ⟨expfs_kind_t.EXPFS_KIND_SINGLE_SW, ⟨BTN_TOGGLE, CC_NORMAL⟩,
            ⟨BTN_SHORT, CC_NORMAL⟩, ⟨act_type_t.ACT_CC, 1, 11, 0, 127⟩, 0, 4095⟩,
            true, none, 1, 1⟩).1.1 false
        ⟨some ⟨expfs_kind_t.EXPFS_KIND_DUAL_SW, ⟨BTN_TOGGLE, CC_NORMAL⟩,
          ⟨BTN_SHORT, CC_NORMAL⟩, ⟨act_type_t.ACT_CC, 1, 11, 0, 127⟩, 0, 4095⟩,
          true, none, 0, 1⟩).2 =
      [expfs_event.actions 0 ⟨listB, CC_NORMAL, MIDI_EVT_TRIGGER⟩] ∧
    (myapp_task_port ⟨port_state_init, expfs_kind_t.EXPFS_KIND_SINGLE_SW⟩ false
        ⟨some ⟨expfs_kind_t.EXPFS_KIND_DUAL_SW, ⟨BTN_TOGGLE, CC_NORMAL⟩,
          ⟨BTN_SHORT, CC_NORMAL⟩, ⟨act_type_t.ACT_CC, 1, 11, 0, 127⟩, 0, 4095⟩,
          true, none, 0, 1⟩).2 =
      [expfs_event.actions 0 ⟨listA, CC_NORMAL, MIDI_EVT_TRIGGER⟩] ∧
    (myapp_task_port
        (myapp_task_port ⟨port_state_init, expfs_kind_t.EXPFS_KIND_SINGLE_SW⟩ false
          ⟨some ⟨expfs_kind_t.EXPFS_KIND_SINGLE_SW, ⟨BTN_TOGGLE, CC_NORMAL⟩,
            ⟨BTN_SHORT, CC_NORMAL⟩, ⟨act_type_t.ACT_CC, 1, 11, 0, 127⟩, 0, 4095⟩,
            true, none, 0, 1⟩).1.1 false
        ⟨some ⟨expfs_kind_t.EXPFS_KIND_SINGLE_SW, ⟨BTN_TOGGLE, CC_NORMAL⟩,
          ⟨BTN_SHORT, CC_NORMAL⟩, ⟨act_type_t.ACT_CC, 1, 11, 0, 127⟩, 0, 4095⟩,
          true, none, 1, 1⟩).1.1.ps.tip.toggle_ab = 1 := by
  decide

/-- C16 (amended). In the loop of src/my_app/main/expfs.c, on a tick where the fetched kind
of a port differs from the last-applied kind, the port is processed exactly as on a tick
without a kind change from the state in which only `exp_inited` was set to 0, the
last-applied kind is the fetched kind and the pin mode was re-applied (`adc_init_once` for
the kind EXPRESSION).  The switch cells and `last_midi` are not reset: for a switch kind
the tip (and for DUAL_SWITCH the ring) cells after the tick are those produced by
`sw_handle_one` from the cells before the tick, and for EXPRESSION both are unchanged. -/
theorem myapp_kind_change_resets_exp_inited_only (c : myapp_port_state) (s_adc : Bool)
    (i : myapp_port_in) (cfg : expfs_port_cfg_t) (hcfg : i.cfg = some cfg)
    (hk : cfg.kind ≠ c.last_kind) :
    myapp_task_port c s_adc i =
      myapp_task_port ⟨{ c.ps with exp_inited := 0 }, cfg.kind⟩
        (apply_port_gpio_mode s_adc cfg i.new_unit_ok) i ∧
    (myapp_task_port c s_adc i).1.1.last_kind = cfg.kind ∧
    (cfg.kind = expfs_kind_t.EXPFS_KIND_SINGLE_SW →
      (myapp_task_port c s_adc i).1.1.ps =
        { c.ps with exp_inited := 0,
                    tip := (sw_handle_one c.ps.tip i.tip_level cfg.tip 400).1 }) ∧
    (cfg.kind = expfs_kind_t.EXPFS_KIND_DUAL_SW →
      (myapp_task_port c s_adc i).1.1.ps =
        { c.ps with exp_inited := 0,
                    tip := (sw_handle_one c.ps.tip i.tip_level cfg.tip 400).1,
                    ring := (sw_handle_one c.ps.ring i.ring_level cfg.ring 400).1 }) ∧
    (cfg.kind = expfs_kind_t.EXPFS_KIND_EXP →
      (myapp_task_port c s_adc i).1.1.ps.tip = c.ps.tip ∧
      (myapp_task_port c s_adc i).1.1.ps.ring = c.ps.ring) := by
  have hk1 : ¬ (cfg.kind = c.last_kind) := hk
  refine ⟨?_, ?_, ?_, ?_, ?_⟩
  · simp [myapp_task_port, hcfg, hk]
  · simp only [myapp_task_port, hcfg, hk]
    split_ifs <;> simp
  · intro hkind
    rw [hkind] at hk1
    simp [myapp_task_port, hcfg, hkind, hk1, exp_handle_one, LONG_MS]
  · intro hkind
    rw [hkind] at hk1
    simp [myapp_task_port, hcfg, hkind, hk1, exp_handle_one, LONG_MS]
  · intro hkind
    rw [hkind] at hk1
    have h := exp_handle_one_switch_cells
      { c.ps with exp_inited := 0 } (apply_port_gpio_mode s_adc cfg i.new_unit_ok) i.read cfg
    simpa [myapp_task_port, hcfg, hkind, hk1] using h

/-- Witness for C16 (amended): the kind changes from SINGLE_SWITCH to DUAL_SWITCH while the
tip's toggle selection is B and `last_midi = 7`; they are kept. -/
theorem myapp_kind_change_resets_exp_inited_only_witness :
    (⟨expfs_kind_t.EXPFS_KIND_DUAL_SW, ⟨BTN_TOGGLE, CC_NORMAL⟩,
        ⟨BTN_SHORT, CC_NORMAL⟩, ⟨act_type_t.ACT_CC, 1, 11, 0, 127⟩, 0, 4095⟩ : expfs_port_cfg_t).kind ≠
      (⟨⟨7, 1, ⟨1, 0, 0, 1, 0⟩, sw_init⟩, expfs_kind_t.EXPFS_KIND_SINGLE_SW⟩ : myapp_port_state).last_kind ∧
    (myapp_task_port (⟨⟨7, 1, ⟨1, 0, 0, 1, 0⟩, sw_init⟩, expfs_kind_t.EXPFS_KIND_SINGLE_SW⟩ : myapp_port_state) false
      (⟨some (⟨expfs_kind_t.EXPFS_KIND_DUAL_SW, ⟨BTN_TOGGLE, CC_NORMAL⟩,
        ⟨BTN_SHORT, CC_NORMAL⟩, ⟨act_type_t.ACT_CC, 1, 11, 0, 127⟩, 0, 4095⟩ : expfs_port_cfg_t),
        true, none, 0, 1⟩ : myapp_port_in)).1.1.ps =
      { (⟨⟨7, 1, ⟨1, 0, 0, 1, 0⟩, sw_init⟩, expfs_kind_t.EXPFS_KIND_SINGLE_SW⟩ : myapp_port_state).ps with
          exp_inited := 0,
          tip := (sw_handle_one (⟨⟨7, 1, ⟨1, 0, 0, 1, 0⟩, sw_init⟩, expfs_kind_t.EXPFS_KIND_SINGLE_SW⟩ : myapp_port_state).ps.tip
            (⟨some (⟨expfs_kind_t.EXPFS_KIND_DUAL_SW, ⟨BTN_TOGGLE, CC_NORMAL⟩,
        ⟨BTN_SHORT, CC_NORMAL⟩, ⟨act_type_t.ACT_CC, 1, 11, 0, 127⟩, 0, 4095⟩ : expfs_port_cfg_t),
        true, none, 0, 1⟩ : myapp_port_in).tip_level
            (⟨expfs_kind_t.EXPFS_KIND_DUAL_SW, ⟨BTN_TOGGLE, CC_NORMAL⟩,
        ⟨BTN_SHORT, CC_NORMAL⟩, ⟨act_type_t.ACT_CC, 1, 11, 0, 127⟩, 0, 4095⟩ : expfs_port_cfg_t).tip 400).1,
          ring := (sw_handle_one (⟨⟨7, 1, ⟨1, 0, 0, 1, 0⟩, sw_init⟩, expfs_kind_t.EXPFS_KIND_SINGLE_SW⟩ : myapp_port_state).ps.ring
            (⟨some (⟨expfs_kind_t.EXPFS_KIND_DUAL_SW, ⟨BTN_TOGGLE, CC_NORMAL⟩,
        ⟨BTN_SHORT, CC_NORMAL⟩, ⟨act_type_t.ACT_CC, 1, 11, 0, 127⟩, 0, 4095⟩ : expfs_port_cfg_t),
        true, none, 0, 1⟩ : myapp_port_in).ring_level
            (⟨expfs_kind_t.EXPFS_KIND_DUAL_SW, ⟨BTN_TOGGLE, CC_NORMAL⟩,
        ⟨BTN_SHORT, CC_NORMAL⟩, ⟨act_type_t.ACT_CC, 1, 11, 0, 127⟩, 0, 4095⟩ : expfs_port_cfg_t).ring 400).1 } :=
  ⟨by decide,
    (myapp_kind_change_resets_exp_inited_only (⟨⟨7, 1, ⟨1, 0, 0, 1, 0⟩, sw_init⟩, expfs_kind_t.EXPFS_KIND_SINGLE_SW⟩ : myapp_port_state) false
      (⟨some (⟨expfs_kind_t.EXPFS_KIND_DUAL_SW, ⟨BTN_TOGGLE, CC_NORMAL⟩,
        ⟨BTN_SHORT, CC_NORMAL⟩, ⟨act_type_t.ACT_CC, 1, 11, 0, 127⟩, 0, 4095⟩ : expfs_port_cfg_t),
        true, none, 0, 1⟩ : myapp_port_in)
      (⟨expfs_kind_t.EXPFS_KIND_DUAL_SW, ⟨BTN_TOGGLE, CC_NORMAL⟩,
        ⟨BTN_SHORT, CC_NORMAL⟩, ⟨act_type_t.ACT_CC, 1, 11, 0, 127⟩, 0, 4095⟩ : expfs_port_cfg_t) rfl (by decide)).2.2.2.1 rfl⟩

/-! ## Ports without configuration -/

/-- The events of port 1 in the event list of a tick. -/
theorem events_port1 (l0 l1 : List expfs_event) :
    (l0.map (fun e => ((0 : Nat), e)) ++ l1.map (fun e => ((1 : Nat), e))).filter
        (fun e => e.1 = 1) = l1.map (fun e => ((1 : Nat), e)) := by
  simp [List.filter_append, List.filter_map, Function.comp_def]

/-- The events of port 0 in the event list of a tick. -/
theorem events_port0 (l0 l1 : List expfs_event) :
    (l0.map (fun e => ((0 : Nat), e)) ++ l1.map (fun e => ((1 : Nat), e))).filter
        (fun e => e.1 = 0) = l0.map (fun e => ((0 : Nat), e)) := by
  simp [List.filter_append, List.filter_map, Function.comp_def]

/-- The loop body of src/main/expfs.c returns for every port. -/
theorem expfs_task_port_some (c : port_cells) (i : port_in) :
    ∃ r : port_cells × List expfs_event, expfs_task_port c i = some r := by
  unfold expfs_task_port
  cases hc : i.cfg with
  | none => exact ⟨_, rfl⟩
  | some cfg =>
    by_cases hk : cfg.kind = expfs_kind_t.EXPFS_KIND_EXP
    · obtain ⟨r, hr, -⟩ := handle_exp_port_gate c.exp i.adc i.t i.usb_ready i.uart_ready cfg
      exact ⟨({ c with exp := r.1 }, r.2.map expfs_event.midi), by simp only [if_pos hk, hr]⟩
    · exact ⟨({ c with tip := (handle_fs_port c.tip c.ring i.tip_level i.ring_level cfg).1.1,
                       ring := (handle_fs_port c.tip c.ring i.tip_level i.ring_level cfg).1.2 },
        (handle_fs_port c.tip c.ring i.tip_level i.ring_level cfg).2), by simp only [if_neg hk]⟩

/-- A tick of src/main/expfs.c is the loop body on port 0 and on port 1. -/
theorem expfs_task_tick_eq (g : port_cells × port_cells) (i0 i1 : port_in) :
    ∃ r0 r1 : port_cells × List expfs_event,
      expfs_task_port g.1 i0 = some r0 ∧ expfs_task_port g.2 i1 = some r1 ∧
      expfs_task_tick g i0 i1 =
        some ((r0.1, r1.1), r0.2.map (fun e => (0, e)) ++ r1.2.map (fun e => (1, e))) := by
  obtain ⟨r0, h0⟩ := expfs_task_port_some g.1 i0
  obtain ⟨r1, h1⟩ := expfs_task_port_some g.2 i1
  exact ⟨r0, r1, h0, h1, by simp only [expfs_task_tick, h0, h1]⟩

/-- Once the ADC handle exists, the loop body of src/my_app/main/expfs.c keeps it. -/
theorem myapp_task_port_adc_true (c : myapp_port_state) (i : myapp_port_in) :
    (myapp_task_port c true i).1.2 = true := by
  unfold myapp_task_port
  cases i.cfg with
  | none => rfl
  | some cfg =>
    simp only [apply_port_gpio_mode, adc_init_once]
    split_ifs <;> rfl

/-- C17 as stated fails in src/my_app/main/expfs.c.  The ADC handle is missing (the unit
could not be created when port 1 became an expression port) and port 0 is about to change to
EXPRESSION.  With the configuration of port 0 available, port 0 creates the ADC unit and
port 1 emits its baseline event on the same tick; with the configuration of port 0
unavailable, port 1 emits nothing. -/
theorem myapp_skipped_port_changes_other_port :
    ((myapp_task_tick
        (myapp_task_tick
          ⟨⟨port_state_init, expfs_kind_t.EXPFS_KIND_SINGLE_SW⟩,
            ⟨port_state_init, expfs_kind_t.EXPFS_KIND_SINGLE_SW⟩, false⟩
          ⟨none, false, none, 1, 1⟩
          ⟨some ⟨expfs_kind_t.EXPFS_KIND_EXP, ⟨BTN_SHORT, CC_NORMAL⟩, ⟨BTN_SHORT, CC_NORMAL⟩,
            ⟨act_type_t.ACT_CC, 1, 11, 0, 127⟩, 0, 4095⟩, false, none, 1, 1⟩).1
        ⟨none, true, some 2000, 1, 1⟩
        ⟨some ⟨expfs_kind_t.EXPFS_KIND_EXP, ⟨BTN_SHORT, CC_NORMAL⟩, ⟨BTN_SHORT, CC_NORMAL⟩,
          ⟨act_type_t.ACT_CC, 1, 11, 0, 127⟩, 0, 4095⟩, true, some 1000, 1, 1⟩).2.filter
      (fun e => e.1 = 1) = []) ∧
    ((myapp_task_tick
        (myapp_task_tick
          ⟨⟨port_state_init, expfs_kind_t.EXPFS_KIND_SINGLE_SW⟩,
            ⟨port_state_init, expfs_kind_t.EXPFS_KIND_SINGLE_SW⟩, false⟩
          ⟨none, false, none, 1, 1⟩
          ⟨some ⟨expfs_kind_t.EXPFS_KIND_EXP, ⟨BTN_SHORT, CC_NORMAL⟩, ⟨BTN_SHORT, CC_NORMAL⟩,
            ⟨act_type_t.ACT_CC, 1, 11, 0, 127⟩, 0, 4095⟩, false, none, 1, 1⟩).1
        ⟨some ⟨expfs_kind_t.EXPFS_KIND_EXP, ⟨BTN_SHORT, CC_NORMAL⟩, ⟨BTN_SHORT, CC_NORMAL⟩,
          ⟨act_type_t.ACT_CC, 1, 10, 0, 127⟩, 0, 4095⟩, true, some 2000, 1, 1⟩
        ⟨some ⟨expfs_kind_t.EXPFS_KIND_EXP, ⟨BTN_SHORT, CC_NORMAL⟩, ⟨BTN_SHORT, CC_NORMAL⟩,
          ⟨act_type_t.ACT_CC, 1, 11, 0, 127⟩, 0, 4095⟩, true, some 1000, 1, 1⟩).2.filter
      (fun e => e.1 = 1) =
        [(1, expfs_event.exp_action ⟨act_type_t.ACT_CC, 1, 11, 31, 127⟩)]) := by
  decide

/-- The loop body of src/main/expfs.c on a port without configuration. -/
theorem expfs_task_port_none (c : port_cells) (i : port_in) (h : i.cfg = none) :
    expfs_task_port c i = some (c, []) := by
  simp only [expfs_task_port, h]

/-- The loop body of src/my_app/main/expfs.c on a port without configuration. -/
theorem myapp_task_port_none (c : myapp_port_state) (s_adc : Bool) (i : myapp_port_in)
    (h : i.cfg = none) : myapp_task_port c s_adc i = ((c, s_adc), []) := by
  simp only [myapp_task_port, h]

/-- C17 (amended).  In a tick of src/main/expfs.c (`g`, inputs `i0`, `i1`): a port whose
configuration is unavailable keeps all its cells and emits nothing, and the cells and events
of each port are the same whatever the inputs (`a0`, `a1`) of the other port, so the other
port is processed exactly as if the configuration were available.  In a tick of
src/my_app/main/expfs.c (`m`, inputs `j0`, `j1`): a port whose configuration is unavailable
keeps its state and last-applied kind and emits nothing, and leaves the ADC handle as it is;
port 0 is processed the same whatever the inputs (`b1`) of port 1; port 1 is processed by
the loop body from the ADC handle left by port 0, which is the handle at the start of the
tick when port 0 is skipped, and it is processed the same whatever the inputs (`b0`) of
port 0 when the ADC handle exists at the start of the tick. -/
theorem tick_skips_port_without_cfg (g : port_cells × port_cells) (i0 i1 a0 a1 : port_in)
    (m : myapp_state) (j0 j1 b0 b1 : myapp_port_in) :
    ((i0.cfg = none → ∃ r, expfs_task_tick g i0 i1 = some r ∧ r.1.1 = g.1 ∧
        r.2.filter (fun e => e.1 = 0) = []) ∧
      (i1.cfg = none → ∃ r, expfs_task_tick g i0 i1 = some r ∧ r.1.2 = g.2 ∧
        r.2.filter (fun e => e.1 = 1) = []) ∧
      (∃ r r1, expfs_task_tick g i0 i1 = some r ∧ expfs_task_tick g a0 i1 = some r1 ∧
        r.1.2 = r1.1.2 ∧
        r.2.filter (fun e => e.1 = 1) = r1.2.filter (fun e => e.1 = 1)) ∧
      (∃ r r1, expfs_task_tick g i0 i1 = some r ∧ expfs_task_tick g i0 a1 = some r1 ∧
        r.1.1 = r1.1.1 ∧
        r.2.filter (fun e => e.1 = 0) = r1.2.filter (fun e => e.1 = 0))) ∧
    ((j0.cfg = none →
        (myapp_task_tick m j0 j1).1.p0 = m.p0 ∧
        (myapp_task_tick m j0 j1).2.filter (fun e => e.1 = 0) = [] ∧
        (myapp_task_tick m j0 j1).1.p1 = (myapp_task_port m.p1 m.s_adc j1).1.1 ∧
        (myapp_task_tick m j0 j1).1.s_adc = (myapp_task_port m.p1 m.s_adc j1).1.2 ∧
        (myapp_task_tick m j0 j1).2.filter (fun e => e.1 = 1) =
          (myapp_task_port m.p1 m.s_adc j1).2.map (fun e => (1, e))) ∧
      (j1.cfg = none →
        (myapp_task_tick m j0 j1).1.p1 = m.p1 ∧
        (myapp_task_tick m j0 j1).2.filter (fun e => e.1 = 1) = [] ∧
        (myapp_task_tick m j0 j1).1.s_adc = (myapp_task_port m.p0 m.s_adc j0).1.2) ∧
      ((myapp_task_tick m j0 j1).1.p0 = (myapp_task_tick m j0 b1).1.p0 ∧
        (myapp_task_tick m j0 j1).2.filter (fun e => e.1 = 0) =
          (myapp_task_tick m j0 b1).2.filter (fun e => e.1 = 0)) ∧
      (m.s_adc = true →
        (myapp_task_tick m j0 j1).1.p1 = (myapp_task_tick m b0 j1).1.p1 ∧
        (myapp_task_tick m j0 j1).2.filter (fun e => e.1 = 1) =
          (myapp_task_tick m b0 j1).2.filter (fun e => e.1 = 1))) := by
  obtain ⟨r0, r1, h0, h1, ht⟩ := expfs_task_tick_eq g i0 i1
  obtain ⟨ra0, ra1, ha0, ha1, hta⟩ := expfs_task_tick_eq g a0 i1
  obtain ⟨rb0, rb1, hb0, hb1, htb⟩ := expfs_task_tick_eq g i0 a1
  have e1 : ra1 = r1 := Option.some.inj (ha1.symm.trans h1)
  have e0 : rb0 = r0 := Option.some.inj (hb0.symm.trans h0)
  refine ⟨⟨?_, ?_, ?_, ?_⟩, ?_, ?_, ?_, ?_⟩
  · intro hn
    have e : r0 = (g.1, []) := Option.some.inj (h0.symm.trans (expfs_task_port_none g.1 i0 hn))
    exact ⟨_, ht, by rw [e], by rw [events_port0, e]; rfl⟩
  · intro hn
    have e : r1 = (g.2, []) := Option.some.inj (h1.symm.trans (expfs_task_port_none g.2 i1 hn))
    exact ⟨_, ht, by rw [e], by rw [events_port1, e]; rfl⟩
  · exact ⟨_, _, ht, hta, by rw [e1], by rw [events_port1, events_port1, e1]⟩
  · exact ⟨_, _, ht, htb, by rw [e0], by rw [events_port0, events_port0, e0]⟩
  · intro hn
    simp [myapp_task_tick, myapp_task_port_none m.p0 m.s_adc j0 hn, events_port0,
      events_port1]
  · intro hn
    simp [myapp_task_tick, myapp_task_port_none m.p1 _ j1 hn, events_port0, events_port1]
  · constructor
    · rfl
    · simp only [myapp_task_tick, events_port0]
  · intro hadc
    constructor
    · simp only [myapp_task_tick, hadc, myapp_task_port_adc_true]
    · simp only [myapp_task_tick, events_port1, hadc, myapp_task_port_adc_true]

/-- Witness for C17 (amended): port 0 has no configuration while both switches of port 1
are pressed. -/
theorem tick_skips_port_without_cfg_witness :
    (⟨none, some 2000, 30, true, true, 0, 0⟩ : port_in).cfg = none ∧
    (⟨none, true, some 2000, 0, 0⟩ : myapp_port_in).cfg = none ∧
    (∃ r, expfs_task_tick ((⟨exp_init, fs_init, fs_init⟩, ⟨exp_init, fs_init, fs_init⟩) : port_cells × port_cells)
        (⟨none, some 2000, 30, true, true, 0, 0⟩ : port_in)
        (⟨some ⟨expfs_kind_t.EXPFS_KIND_DUAL_SW, ⟨BTN_TOGGLE, CC_MOMENTARY⟩, ⟨BTN_SHORT, CC_NORMAL⟩,
        ⟨act_type_t.ACT_CC, 1, 11, 0, 127⟩, 200, 3800⟩, some 1000, 30, true, true, 0, 0⟩ : port_in) = some r ∧
      r.1.1 = ((⟨exp_init, fs_init, fs_init⟩, ⟨exp_init, fs_init, fs_init⟩) : port_cells × port_cells).1 ∧
      r.2.filter (fun e => e.1 = 0) = []) ∧
    (myapp_task_tick (⟨⟨port_state_init, expfs_kind_t.EXPFS_KIND_SINGLE_SW⟩,
        ⟨port_state_init, expfs_kind_t.EXPFS_KIND_SINGLE_SW⟩, false⟩ : myapp_state)
        (⟨none, true, some 2000, 0, 0⟩ : myapp_port_in)
        (⟨some ⟨expfs_kind_t.EXPFS_KIND_DUAL_SW, ⟨BTN_TOGGLE, CC_MOMENTARY⟩, ⟨BTN_SHORT, CC_NORMAL⟩,
        ⟨act_type_t.ACT_CC, 1, 11, 0, 127⟩, 200, 3800⟩, true, some 1000, 0, 0⟩ : myapp_port_in)).1.p0 =
      (⟨⟨port_state_init, expfs_kind_t.EXPFS_KIND_SINGLE_SW⟩,
        ⟨port_state_init, expfs_kind_t.EXPFS_KIND_SINGLE_SW⟩, false⟩ : myapp_state).p0 :=
  ⟨rfl, rfl,
    (tick_skips_port_without_cfg ((⟨exp_init, fs_init, fs_init⟩, ⟨exp_init, fs_init, fs_init⟩) : port_cells × port_cells)
        (⟨none, some 2000, 30, true, true, 0, 0⟩ : port_in)
        (⟨some ⟨expfs_kind_t.EXPFS_KIND_DUAL_SW, ⟨BTN_TOGGLE, CC_MOMENTARY⟩, ⟨BTN_SHORT, CC_NORMAL⟩,
        ⟨act_type_t.ACT_CC, 1, 11, 0, 127⟩, 200, 3800⟩, some 1000, 30, true, true, 0, 0⟩ : port_in)
        (⟨none, some 2000, 30, true, true, 0, 0⟩ : port_in) (⟨none, some 2000, 30, true, true, 0, 0⟩ : port_in)
      (⟨⟨port_state_init, expfs_kind_t.EXPFS_KIND_SINGLE_SW⟩,
        ⟨port_state_init, expfs_kind_t.EXPFS_KIND_SINGLE_SW⟩, false⟩ : myapp_state)
        (⟨none, true, some 2000, 0, 0⟩ : myapp_port_in)
        (⟨some ⟨expfs_kind_t.EXPFS_KIND_DUAL_SW, ⟨BTN_TOGGLE, CC_MOMENTARY⟩, ⟨BTN_SHORT, CC_NORMAL⟩,
        ⟨act_type_t.ACT_CC, 1, 11, 0, 127⟩, 200, 3800⟩, true, some 1000, 0, 0⟩ : myapp_port_in)
        (⟨none, true, some 2000, 0, 0⟩ : myapp_port_in) (⟨none, true, some 2000, 0, 0⟩ : myapp_port_in)).1.1 rfl,
    ((tick_skips_port_without_cfg ((⟨exp_init, fs_init, fs_init⟩, ⟨exp_init, fs_init, fs_init⟩) : port_cells × port_cells)
        (⟨none, some 2000, 30, true, true, 0, 0⟩ : port_in)
        (⟨some ⟨expfs_kind_t.EXPFS_KIND_DUAL_SW, ⟨BTN_TOGGLE, CC_MOMENTARY⟩, ⟨BTN_SHORT, CC_NORMAL⟩,
        ⟨act_type_t.ACT_CC, 1, 11, 0, 127⟩, 200, 3800⟩, some 1000, 30, true, true, 0, 0⟩ : port_in)
        (⟨none, some 2000, 30, true, true, 0, 0⟩ : port_in) (⟨none, some 2000, 30, true, true, 0, 0⟩ : port_in)
      (⟨⟨port_state_init, expfs_kind_t.EXPFS_KIND_SINGLE_SW⟩,
        ⟨port_state_init, expfs_kind_t.EXPFS_KIND_SINGLE_SW⟩, false⟩ : myapp_state)
        (⟨none, true, some 2000, 0, 0⟩ : myapp_port_in)
        (⟨some ⟨expfs_kind_t.EXPFS_KIND_DUAL_SW, ⟨BTN_TOGGLE, CC_MOMENTARY⟩, ⟨BTN_SHORT, CC_NORMAL⟩,
        ⟨act_type_t.ACT_CC, 1, 11, 0, 127⟩, 200, 3800⟩, true, some 1000, 0, 0⟩ : myapp_port_in)
        (⟨none, true, some 2000, 0, 0⟩ : myapp_port_in) (⟨none, true, some 2000, 0, 0⟩ : myapp_port_in)).2.1 rfl).1⟩

/-! ## Expression mapping: saturation at the output bounds -/

/-- The scaled offset `norm * d / 127` of `map_exp_value` lies in `0..d` for `norm` in
0..127 and `d ≥ 0`, and is `d` for `norm = 127`. -/
theorem scale_range (n d : Int) (hn0 : 0 ≤ n) (hn1 : n ≤ 127) (hd : 0 ≤ d) :
    0 ≤ Int.tdiv (n * d) 127 ∧ Int.tdiv (n * d) 127 ≤ d ∧ Int.tdiv (127 * d) 127 = d := by
  have h1 : 0 ≤ n * d := Int.mul_nonneg hn0 hd
  have h2 : n * d ≤ 127 * d := Int.mul_le_mul_of_nonneg_right hn1 hd
  rw [Int.tdiv_eq_ediv h1 (by norm_num), Int.tdiv_eq_ediv (by omega) (by norm_num)]
  refine ⟨by omega, by omega, by omega⟩

/-- C24. For a calibration with `max - min ≥ 8` and output bounds `(v1, v2)` of the action
both in 0..127, inverted or not: every raw sample at or below the smaller calibration bound
is mapped to exactly `v1`, every raw sample at or above the larger one to exactly `v2`, and
every raw sample to a value between `min v1 v2` and `max v1 v2`. -/
theorem map_exp_value_saturates (cfg : expfs_port_cfg_t) (raw : Nat)
    (hdeg : 8 ≤ max cfg.cal_min cfg.cal_max - min cfg.cal_min cfg.cal_max)
    (hv1 : 0 ≤ (exp_out_range cfg.exp_action).1 ∧ (exp_out_range cfg.exp_action).1 ≤ 127)
    (hv2 : 0 ≤ (exp_out_range cfg.exp_action).2 ∧ (exp_out_range cfg.exp_action).2 ≤ 127) :
    ((raw : Int) ≤ min cfg.cal_min cfg.cal_max →
        map_exp_value (some cfg) raw = some (exp_out_range cfg.exp_action).1) ∧
    ((raw : Int) ≥ max cfg.cal_min cfg.cal_max →
        map_exp_value (some cfg) raw = some (exp_out_range cfg.exp_action).2) ∧
    ∃ o : Int, map_exp_value (some cfg) raw = some o ∧
      min (exp_out_range cfg.exp_action).1 (exp_out_range cfg.exp_action).2 ≤ o ∧
      o ≤ max (exp_out_range cfg.exp_action).1 (exp_out_range cfg.exp_action).2 := by
  have hd : ¬ (cal_hi cfg - cal_lo cfg < 8) := by
    rw [cal_lo_eq_min, cal_hi_eq_max]; omega
  have hpos : cal_hi cfg - cal_lo cfg ≠ 0 := by omega
  obtain ⟨n, -, hn, hn0, hn1⟩ := map_exp_norm_some (cal_lo cfg) (cal_hi cfg) raw hd
  rw [map_exp_value_eq cfg raw hd, ← hn]
  generalize (exp_out_range cfg.exp_action).1 = v1 at hv1 ⊢
  generalize (exp_out_range cfg.exp_action).2 = v2 at hv2 ⊢
  refine ⟨fun hlo => ?_, fun hhi => ?_, ?_⟩
  · have hcl : clampi_local (raw : Int) (cal_lo cfg) (cal_hi cfg) = cal_lo cfg := by
      rw [← cal_lo_eq_min] at hlo
      unfold clampi_local
      split_ifs <;> omega
    have hn' : n = 0 := by rw [hn, hcl]; simp
    subst hn'
    simp only [zero_mul, Int.zero_tdiv]
    unfold clamp7
    split_ifs <;> simp <;> omega
  · have hcl : clampi_local (raw : Int) (cal_lo cfg) (cal_hi cfg) = cal_hi cfg := by
      rw [← cal_hi_eq_max] at hhi
      unfold clampi_local
      split_ifs <;> omega
    have hn' : n = 127 := by
      rw [hn, hcl]
      exact Int.mul_ediv_cancel_left 127 hpos
    subst hn'
    by_cases hv : v2 ≥ v1
    · rw [if_pos hv, (scale_range 127 (v2 - v1) (by norm_num) (by norm_num) (by omega)).2.2]
      unfold clamp7
      split_ifs <;> simp <;> omega
    · rw [if_neg hv, (scale_range 127 (v1 - v2) (by norm_num) (by norm_num) (by omega)).2.2]
      unfold clamp7
      split_ifs <;> simp <;> omega
  · by_cases hv : v2 ≥ v1
    · obtain ⟨hq0, hq1, -⟩ := scale_range n (v2 - v1) hn0 hn1 (by omega)
      refine ⟨_, rfl, ?_, ?_⟩ <;> rw [if_pos hv] <;> unfold clamp7 <;> split_ifs <;> omega
    · obtain ⟨hq0, hq1, -⟩ := scale_range n (v1 - v2) hn0 hn1 (by omega)
      refine ⟨_, rfl, ?_, ?_⟩ <;> rw [if_neg hv] <;> unfold clamp7 <;> split_ifs <;> omega

/-- Witness for C24: inverted output bounds 100..20, reversed calibration 3800, 200; the
raw sample 150 is mapped to 100 and the raw sample 4000 to 20. -/
theorem map_exp_value_saturates_witness :
    (8 ≤ max (3800 : Int) 200 - min 3800 200) ∧
    map_exp_value (some
        { kind := expfs_kind_t.EXPFS_KIND_EXP, tip := ⟨BTN_SHORT, CC_NORMAL⟩,
          ring := ⟨BTN_SHORT, CC_NORMAL⟩,
          exp_action := { type := act_type_t.ACT_CC, ch := 1, a := 11, b := 100, c := 20 },
          cal_min := 3800, cal_max := 200 }) 150 = some 100 ∧
    map_exp_value (some
        { kind := expfs_kind_t.EXPFS_KIND_EXP, tip := ⟨BTN_SHORT, CC_NORMAL⟩,
          ring := ⟨BTN_SHORT, CC_NORMAL⟩,
          exp_action := { type := act_type_t.ACT_CC, ch := 1, a := 11, b := 100, c := 20 },
          cal_min := 3800, cal_max := 200 }) 4000 = some 20 :=
  ⟨by decide,
    (map_exp_value_saturates
        { kind := expfs_kind_t.EXPFS_KIND_EXP, tip := ⟨BTN_SHORT, CC_NORMAL⟩,
          ring := ⟨BTN_SHORT, CC_NORMAL⟩,
          exp_action := { type := act_type_t.ACT_CC, ch := 1, a := 11, b := 100, c := 20 },
          cal_min := 3800, cal_max := 200 } 150
        (by decide) (by decide) (by decide)).1 (by decide),
    (map_exp_value_saturates
        { kind := expfs_kind_t.EXPFS_KIND_EXP, tip := ⟨BTN_SHORT, CC_NORMAL⟩,
          ring := ⟨BTN_SHORT, CC_NORMAL⟩,
          exp_action := { type := act_type_t.ACT_CC, ch := 1, a := 11, b := 100, c := 20 },
          cal_min := 3800, cal_max := 200 } 4000
        (by decide) (by decide) (by decide)).2.1 (by decide)⟩

/-! ## Out-of-range ports in the exposed operations -/

/-- The read step of `handle_exp_port` keeps `s_last_raw[port]` in 0..4095. -/
theorem handle_exp_port_last_raw (s : exp_state) (adc : Option Int) (t : Nat)
    (usb_ready uart_ready : Bool) (cfg : expfs_port_cfg_t) (hs : s.last_raw ≤ 4095) :
    ∃ r : exp_state × List midi_msg,
      handle_exp_port s adc t usb_ready uart_ready cfg = some r ∧ r.1.last_raw ≤ 4095 := by
  obtain ⟨m, hm⟩ := map_exp_value_some (some cfg) (match adc with
        | some raw => (if (if raw < 0 then 0 else raw) > 4095 then 4095
            else (if raw < 0 then 0 else raw)).toNat
        | none => s.last_raw)
  refine ⟨_, handle_exp_port_eq s adc t usb_ready uart_ready cfg _ m rfl hm, ?_⟩
  have hlr : (match adc with
        | some raw => (if (if raw < 0 then 0 else raw) > 4095 then 4095
            else (if raw < 0 then 0 else raw)).toNat
        | none => s.last_raw) ≤ 4095 := by
    cases adc with
    | none => exact hs
    | some raw =>
      simp only
      split_ifs <;> omega
  split_ifs <;> exact hlr

/-- The loop body of src/main/expfs.c keeps `s_last_raw[port]` in 0..4095. -/
theorem expfs_task_port_last_raw (c : port_cells) (i : port_in) (hc : c.exp.last_raw ≤ 4095) :
    ∃ r : port_cells × List expfs_event,
      expfs_task_port c i = some r ∧ r.1.exp.last_raw ≤ 4095 := by
  unfold expfs_task_port
  cases i.cfg with
  | none => exact ⟨(c, []), rfl, hc⟩
  | some cfg =>
    by_cases hk : cfg.kind = expfs_kind_t.EXPFS_KIND_EXP
    · obtain ⟨r, hr, hle⟩ :=
        handle_exp_port_last_raw c.exp i.adc i.t i.usb_ready i.uart_ready cfg hc
      exact ⟨({ c with exp := r.1 }, r.2.map expfs_event.midi),
        by simp only [if_pos hk, hr], hle⟩
    · exact ⟨({ c with tip := (handle_fs_port c.tip c.ring i.tip_level i.ring_level cfg).1.1,
                       ring := (handle_fs_port c.tip c.ring i.tip_level i.ring_level cfg).1.2 },
        (handle_fs_port c.tip c.ring i.tip_level i.ring_level cfg).2),
        by simp only [if_neg hk], hc⟩

/-- Every run of the loop of src/main/expfs.c returns and keeps both `s_last_raw` cells in
0..4095. -/
theorem expfs_task_run_last_raw (ticks : List (port_in × port_in)) (g : port_cells × port_cells)
    (h0 : g.1.exp.last_raw ≤ 4095) (h1 : g.2.exp.last_raw ≤ 4095) :
    ∃ g1 : port_cells × port_cells, expfs_task_run g ticks = some g1 ∧
      g1.1.exp.last_raw ≤ 4095 ∧ g1.2.exp.last_raw ≤ 4095 := by
  induction ticks generalizing g with
  | nil => exact ⟨g, rfl, h0, h1⟩
  | cons x rest ih =>
    obtain ⟨r0, hr0, hle0⟩ := expfs_task_port_last_raw g.1 x.1 h0
    obtain ⟨r1, hr1, hle1⟩ := expfs_task_port_last_raw g.2 x.2 h1
    obtain ⟨g1, hg1, ha, hb⟩ := ih (r0.1, r1.1) hle0 hle1
    exact ⟨g1, by simp only [expfs_task_run, expfs_task_tick, hr0, hr1, hg1], ha, hb⟩

/-- C25. For a port below 0 or at least `EXPFS_PORT_COUNT`: `expfs_get_last_raw` returns 0,
whereas `expfs_cal_save` is the store operation applied to the clamped port (0 for a
negative port, `EXPFS_PORT_COUNT - 1` for a port that is too large), to the bound selected by
`which` and to the `s_last_raw` cell of the clamped port, and returns the store's result.
And after every run of the loop from the initialised cells, `expfs_get_last_raw` returns a
value in 0..4095 for every port. -/
theorem out_of_range_port {σ ε : Type}
    (config_store_set_expfs_cal : σ → Int → Int → Nat → σ × ε) (store : σ)
    (arr : Int → Nat) (port which : Int) (hp : port < 0 ∨ port ≥ EXPFS_PORT_COUNT)
    (ticks : List (port_in × port_in)) (q : Int) :
    expfs_get_last_raw arr port = 0 ∧
    expfs_cal_save config_store_set_expfs_cal store arr port which =
      config_store_set_expfs_cal store (if port < 0 then 0 else EXPFS_PORT_COUNT - 1)
        (if which = 0 then 0 else 1) (arr (if port < 0 then 0 else EXPFS_PORT_COUNT - 1)) ∧
    ∃ g : port_cells × port_cells, expfs_task_run expfs_task_init ticks = some g ∧
      expfs_get_last_raw (s_last_raw g) q ≤ 4095 := by
  refine ⟨?_, ?_, ?_⟩
  · unfold expfs_get_last_raw
    rw [if_pos hp]
  · have hclamp : clampi_local port 0 (EXPFS_PORT_COUNT - 1) =
        if port < 0 then 0 else EXPFS_PORT_COUNT - 1 := by
      unfold clampi_local EXPFS_PORT_COUNT
      unfold EXPFS_PORT_COUNT at hp
      split_ifs <;> omega
    have hget : expfs_get_last_raw arr (if port < 0 then 0 else EXPFS_PORT_COUNT - 1) =
        arr (if port < 0 then 0 else EXPFS_PORT_COUNT - 1) := by
      unfold expfs_get_last_raw EXPFS_PORT_COUNT
      rw [if_neg]
      split_ifs <;> omega
    simp only [expfs_cal_save, hclamp, hget]
    by_cases hw : which = 0 <;> simp [hw]
  · obtain ⟨g, hg, ha, hb⟩ := expfs_task_run_last_raw ticks expfs_task_init
      (by decide) (by decide)
    refine ⟨g, hg, ?_⟩
    unfold expfs_get_last_raw s_last_raw
    split_ifs <;> omega

/-- Witness for C25: port 7, selector 3 (max), with 215 in the cell of port 1. -/
theorem out_of_range_port_witness :
    ((7 : Int) < 0 ∨ (7 : Int) ≥ EXPFS_PORT_COUNT) ∧
    expfs_get_last_raw (fun p => if p = 1 then 215 else 100) 7 = 0 ∧
    expfs_cal_save (fun (log : List (Int × Int × Nat)) p w r => (log ++ [(p, w, r)], true))
        [] (fun p => if p = 1 then 215 else 100) 7 3 =
      ([(1, 1, 215)], true) :=
  ⟨by decide,
    (out_of_range_port (fun (log : List (Int × Int × Nat)) p w r => (log ++ [(p, w, r)], true))
      [] (fun p => if p = 1 then 215 else 100) 7 3 (by decide) [] 0).1,
    (out_of_range_port (fun (log : List (Int × Int × Nat)) p w r => (log ++ [(p, w, r)], true))
      [] (fun p => if p = 1 then 215 else 100) 7 3 (by decide) [] 0).2.1⟩

/-! ## Equivalence of the two button state machines outside MOMENTARY + TOGGLE -/

/-- One tick of the two state machines from cells with equal level, `hold_ms`, `long_fired`
and toggle selection, outside MOMENTARY + TOGGLE: the same calls and again equal cells. -/
theorem fs_sw_step (pm : press_mode_t) (cc : cc_behavior_t)
    (hne : ¬ (cc = CC_MOMENTARY ∧ pm = BTN_TOGGLE)) (l : Nat) (h : Int) (lf ab ps now : Nat)
    (hl : l ≤ 1) (hn : now ≤ 1) :
    (handle_fs_one ⟨l, h, lf, ab⟩ now ⟨pm, cc⟩).2 =
        (sw_handle_one ⟨l, h, lf, ab, ps⟩ now ⟨pm, cc⟩ 400).2 ∧
      (sw_handle_one ⟨l, h, lf, ab, ps⟩ now ⟨pm, cc⟩ 400).1.last_level =
        (handle_fs_one ⟨l, h, lf, ab⟩ now ⟨pm, cc⟩).1.last_level ∧
      (sw_handle_one ⟨l, h, lf, ab, ps⟩ now ⟨pm, cc⟩ 400).1.hold_ms =
        (handle_fs_one ⟨l, h, lf, ab⟩ now ⟨pm, cc⟩).1.hold_ms ∧
      (sw_handle_one ⟨l, h, lf, ab, ps⟩ now ⟨pm, cc⟩ 400).1.long_fired =
        (handle_fs_one ⟨l, h, lf, ab⟩ now ⟨pm, cc⟩).1.long_fired ∧
      (sw_handle_one ⟨l, h, lf, ab, ps⟩ now ⟨pm, cc⟩ 400).1.toggle_ab =
        (handle_fs_one ⟨l, h, lf, ab⟩ now ⟨pm, cc⟩).1.ab_state := by
  interval_cases l <;> interval_cases now
  · rw [fs_step_held, sw_step_held]
    exact ⟨rfl, rfl, rfl, rfl, rfl⟩
  · rw [fs_step_up, sw_step_up]
    refine ⟨?_, rfl, rfl, rfl, rfl⟩
    cases pm <;> cases cc <;> simp_all
  · rw [fs_step_down, sw_step_down]
    exact ⟨rfl, rfl, rfl, rfl, rfl⟩
  · rw [fs_step_idle, sw_step_idle]
    exact ⟨rfl, rfl, rfl, rfl, rfl⟩

/-- Runs of the two state machines from cells with equal level, `hold_ms`, `long_fired` and
toggle selection, outside MOMENTARY + TOGGLE. -/
theorem fs_sw_runs_agree (pm : press_mode_t) (cc : cc_behavior_t)
    (hne : ¬ (cc = CC_MOMENTARY ∧ pm = BTN_TOGGLE)) (levels : List Nat)
    (hlv : ∀ x ∈ levels, x ≤ 1) (s : fs_state) (t : sw_state_t) (hs : s.last_level ≤ 1)
    (h1 : t.last_level = s.last_level) (h2 : t.hold_ms = s.hold_ms)
    (h3 : t.long_fired = s.long_fired) (h4 : t.toggle_ab = s.ab_state) :
    fs_trace ⟨pm, cc⟩ s levels = sw_trace ⟨pm, cc⟩ 400 t levels ∧
      ∀ n : Nat,
        (sw_run ⟨pm, cc⟩ 400 t (levels.take n)).last_level =
            (fs_run ⟨pm, cc⟩ s (levels.take n)).last_level ∧
          (sw_run ⟨pm, cc⟩ 400 t (levels.take n)).hold_ms =
            (fs_run ⟨pm, cc⟩ s (levels.take n)).hold_ms ∧
          (sw_run ⟨pm, cc⟩ 400 t (levels.take n)).long_fired =
            (fs_run ⟨pm, cc⟩ s (levels.take n)).long_fired ∧
          (sw_run ⟨pm, cc⟩ 400 t (levels.take n)).toggle_ab =
            (fs_run ⟨pm, cc⟩ s (levels.take n)).ab_state := by
  induction levels generalizing s t with
  | nil =>
    refine ⟨rfl, fun n => ?_⟩
    simp only [List.take_nil, sw_run, fs_run]
    exact ⟨h1, h2, h3, h4⟩
  | cons x xs ih =>
    have hx : x ≤ 1 := hlv x (List.mem_cons_self _ _)
    obtain ⟨l, h, lf, ab⟩ := s
    obtain ⟨tl, th, tlf, tab, ps⟩ := t
    simp only at hs h1 h2 h3 h4
    subst h1 h2 h3 h4
    obtain ⟨hc, g1, g2, g3, g4⟩ := fs_sw_step pm cc hne tl th tlf tab ps x hs hx
    have hs1 : (handle_fs_one ⟨tl, th, tlf, tab⟩ x ⟨pm, cc⟩).1.last_level ≤ 1 := by
      simp only [handle_fs_one]
      omega
    obtain ⟨htr, hst⟩ := ih (fun y hy => hlv y (List.mem_cons_of_mem _ hy))
      (handle_fs_one ⟨tl, th, tlf, tab⟩ x ⟨pm, cc⟩).1
      (sw_handle_one ⟨tl, th, tlf, tab, ps⟩ x ⟨pm, cc⟩ 400).1 hs1 g1 g2 g3 g4
    refine ⟨by simp only [fs_trace, sw_trace, hc, htr], fun n => ?_⟩
    cases n with
    | zero =>
      simp only [List.take_zero, sw_run, fs_run]
      exact ⟨trivial, trivial, trivial, trivial⟩
    | succ n =>
      simp only [List.take_succ_cons, sw_run, fs_run]
      exact hst n

/-- C22. For every configuration whose (cc_behavior, press_mode) is not (MOMENTARY, TOGGLE)
and every sequence of levels (each 0 or 1) applied from the initial state, `handle_fs_one`
and `sw_handle_one` with `long_ms = 400` make the same calls, in the same order, on every
tick, and after every tick (after `n` ticks, for every `n`) their stored level, `hold_ms`,
`long_fired` and toggle selection are equal. -/
theorem button_machines_equivalent (pm : press_mode_t) (cc : cc_behavior_t)
    (hne : ¬ (cc = CC_MOMENTARY ∧ pm = BTN_TOGGLE)) (levels : List Nat)
    (hlv : ∀ x ∈ levels, x ≤ 1) :
    fs_trace ⟨pm, cc⟩ fs_init levels = sw_trace ⟨pm, cc⟩ 400 sw_init levels ∧
      ∀ n : Nat,
        (sw_run ⟨pm, cc⟩ 400 sw_init (levels.take n)).last_level =
            (fs_run ⟨pm, cc⟩ fs_init (levels.take n)).last_level ∧
          (sw_run ⟨pm, cc⟩ 400 sw_init (levels.take n)).hold_ms =
            (fs_run ⟨pm, cc⟩ fs_init (levels.take n)).hold_ms ∧
          (sw_run ⟨pm, cc⟩ 400 sw_init (levels.take n)).long_fired =
            (fs_run ⟨pm, cc⟩ fs_init (levels.take n)).long_fired ∧
          (sw_run ⟨pm, cc⟩ 400 sw_init (levels.take n)).toggle_ab =
            (fs_run ⟨pm, cc⟩ fs_init (levels.take n)).ab_state :=
  fs_sw_runs_agree pm cc hne levels hlv fs_init sw_init (by decide) rfl rfl rfl rfl

/-- Witness for C22: TOGGLE + NORMAL, levels 0 0 1 0 1. -/
theorem button_machines_equivalent_witness :
    ¬ (CC_NORMAL = CC_MOMENTARY ∧ BTN_TOGGLE = BTN_TOGGLE) ∧
    (∀ x ∈ [0, 0, 1, 0, 1], x ≤ 1) ∧
    fs_trace ⟨BTN_TOGGLE, CC_NORMAL⟩ fs_init [0, 0, 1, 0, 1] =
      sw_trace ⟨BTN_TOGGLE, CC_NORMAL⟩ 400 sw_init [0, 0, 1, 0, 1] :=
  ⟨by decide, by decide,
    (button_machines_equivalent BTN_TOGGLE CC_NORMAL (by decide) [0, 0, 1, 0, 1]
      (by decide)).1⟩

/-! ## Reachable-state invariant of the hold counter -/

/-- The number of consecutive pressed ticks at the end of a sequence, as a running count. -/
theorem trailing_pressed_count (ticks : List (Nat × expfs_btncfg_t)) :
    ticks.foldl (fun (c : Nat) x => if x.1 = 0 then c + 1 else 0) 0 =
      (ticks.reverse.takeWhile (fun x => x.1 = 0)).length := by
  induction ticks using List.reverseRecOn with
  | nil => rfl
  | append_singleton l x ih =>
    rw [List.foldl_append, List.reverse_append]
    simp only [List.foldl_cons, List.foldl_nil, List.reverse_cons, List.reverse_nil,
      List.nil_append, List.singleton_append, List.takeWhile_cons]
    by_cases hx : x.1 = 0
    · simp [hx, ih]
    · simp [hx]

/-- One tick of `handle_fs_one` keeps the invariant; `c` counts the consecutive pressed
ticks. -/
theorem fs_inv_step (s : fs_state) (c now : Nat) (m : expfs_btncfg_t) (hn : now ≤ 1)
    (hb : 10 * ((c : Int) + 1) < 2147483648)
    (hinv : (s.last_level = 1 ∧ s.hold_ms = 0 ∧ s.long_fired = 0 ∧ c = 0) ∨
      (s.last_level = 0 ∧ s.hold_ms = 10 * (c : Int) ∧ 1 ≤ c ∧
        (s.long_fired ≠ 0 → s.hold_ms ≥ 400))) :
    ((handle_fs_one s now m).1.last_level = 1 ∧ (handle_fs_one s now m).1.hold_ms = 0 ∧
        (handle_fs_one s now m).1.long_fired = 0 ∧ (if now = 0 then c + 1 else 0) = 0) ∨
      ((handle_fs_one s now m).1.last_level = 0 ∧
        (handle_fs_one s now m).1.hold_ms = 10 * ((if now = 0 then c + 1 else 0 : Nat) : Int) ∧
        1 ≤ (if now = 0 then c + 1 else 0) ∧
        ((handle_fs_one s now m).1.long_fired ≠ 0 → (handle_fs_one s now m).1.hold_ms ≥ 400)) := by
  obtain ⟨l, h, lf, ab⟩ := s
  obtain ⟨pm, cc⟩ := m
  simp only at hinv
  rcases hinv with ⟨rfl, rfl, rfl, rfl⟩ | ⟨rfl, rfl, hc, hlf⟩
  · interval_cases now
    · rw [fs_step_down]
      right
      simp
    · rw [fs_step_idle]
      left
      simp
  · interval_cases now
    · rw [fs_step_held]
      have hw : wrap_int32 (10 * (c : Int) + 10) = 10 * (c : Int) + 10 :=
        wrap_int32_small _ (by omega) (by omega)
      right
      rw [hw]
      refine ⟨rfl, by simp only [if_true]; push_cast; ring, by simp, ?_⟩
      simp only
      split_ifs with hfire
      · intro _; exact hfire.2.2
      · intro hne
        have := hlf hne
        omega
    · rw [fs_step_up]
      left
      simp

/-- One tick of `sw_handle_one` with `long_ms = 400` keeps the invariant. -/
theorem sw_inv_step (s : sw_state_t) (c now : Nat) (m : expfs_btncfg_t) (hn : now ≤ 1)
    (hb : 10 * ((c : Int) + 1) < 2147483648)
    (hinv : (s.last_level = 1 ∧ s.hold_ms = 0 ∧ s.long_fired = 0 ∧ c = 0) ∨
      (s.last_level = 0 ∧ s.hold_ms = 10 * (c : Int) ∧ 1 ≤ c ∧
        (s.long_fired ≠ 0 → s.hold_ms ≥ 400))) :
    ((sw_handle_one s now m 400).1.last_level = 1 ∧ (sw_handle_one s now m 400).1.hold_ms = 0 ∧
        (sw_handle_one s now m 400).1.long_fired = 0 ∧ (if now = 0 then c + 1 else 0) = 0) ∨
      ((sw_handle_one s now m 400).1.last_level = 0 ∧
        (sw_handle_one s now m 400).1.hold_ms =
          10 * ((if now = 0 then c + 1 else 0 : Nat) : Int) ∧
        1 ≤ (if now = 0 then c + 1 else 0) ∧
        ((sw_handle_one s now m 400).1.long_fired ≠ 0 →
          (sw_handle_one s now m 400).1.hold_ms ≥ 400)) := by
  obtain ⟨l, h, lf, tab, ps⟩ := s
  obtain ⟨pm, cc⟩ := m
  simp only at hinv
  rcases hinv with ⟨rfl, rfl, rfl, rfl⟩ | ⟨rfl, rfl, hc, hlf⟩
  · interval_cases now
    · rw [sw_step_down]
      right
      simp
    · rw [sw_step_idle]
      left
      simp
  · interval_cases now
    · rw [sw_step_held]
      have hw : wrap_int32 (10 * (c : Int) + 10) = 10 * (c : Int) + 10 :=
        wrap_int32_small _ (by omega) (by omega)
      right
      rw [hw]
      refine ⟨rfl, by simp only [if_true]; push_cast; ring, by simp, ?_⟩
      simp only
      split_ifs with hfire
      · intro _; exact hfire.2.2
      · intro hne
        have := hlf hne
        omega
    · rw [sw_step_up]
      left
      simp

/-- The invariant along successive ticks of `handle_fs_one`, each tick with its own level
and configuration; `c` counts the consecutive pressed ticks. -/
theorem fs_runs_inv (ticks : List (Nat × expfs_btncfg_t)) (s : fs_state) (c : Nat)
    (hl : ∀ x ∈ ticks, x.1 ≤ 1) (hb : 10 * ((c : Int) + ticks.length) < 2147483648)
    (hinv : (s.last_level = 1 ∧ s.hold_ms = 0 ∧ s.long_fired = 0 ∧ c = 0) ∨
      (s.last_level = 0 ∧ s.hold_ms = 10 * (c : Int) ∧ 1 ≤ c ∧
        (s.long_fired ≠ 0 → s.hold_ms ≥ 400))) :
    ((fs_runs s ticks).last_level = 1 ∧ (fs_runs s ticks).hold_ms = 0 ∧
        (fs_runs s ticks).long_fired = 0 ∧
        ticks.foldl (fun (c : Nat) x => if x.1 = 0 then c + 1 else 0) c = 0) ∨
      ((fs_runs s ticks).last_level = 0 ∧
        (fs_runs s ticks).hold_ms =
          10 * ((ticks.foldl (fun (c : Nat) x => if x.1 = 0 then c + 1 else 0) c : Nat) : Int) ∧
        1 ≤ ticks.foldl (fun (c : Nat) x => if x.1 = 0 then c + 1 else 0) c ∧
        ((fs_runs s ticks).long_fired ≠ 0 → (fs_runs s ticks).hold_ms ≥ 400)) := by
  induction ticks generalizing s c with
  | nil => exact hinv
  | cons x rest ih =>
    have hx : x.1 ≤ 1 := hl x (List.mem_cons_self _ _)
    simp only [List.length_cons] at hb
    have hstep := fs_inv_step s c x.1 x.2 hx (by push_cast at hb; omega) hinv
    have hc : (if x.1 = 0 then c + 1 else 0) ≤ c + 1 := by split_ifs <;> omega
    have := ih (handle_fs_one s x.1 x.2).1 (if x.1 = 0 then c + 1 else 0)
      (fun y hy => hl y (List.mem_cons_of_mem _ hy)) (by push_cast at hb ⊢; omega) hstep
    simpa only [fs_runs, List.foldl_cons, LONG_MS] using this

/-- The invariant along successive ticks of `sw_handle_one`, each tick with its own level
and configuration; `c` counts the consecutive pressed ticks. -/
theorem sw_runs_inv (ticks : List (Nat × expfs_btncfg_t)) (s : sw_state_t) (c : Nat)
    (hl : ∀ x ∈ ticks, x.1 ≤ 1) (hb : 10 * ((c : Int) + ticks.length) < 2147483648)
    (hinv : (s.last_level = 1 ∧ s.hold_ms = 0 ∧ s.long_fired = 0 ∧ c = 0) ∨
      (s.last_level = 0 ∧ s.hold_ms = 10 * (c : Int) ∧ 1 ≤ c ∧
        (s.long_fired ≠ 0 → s.hold_ms ≥ 400))) :
    ((sw_runs s ticks).last_level = 1 ∧ (sw_runs s ticks).hold_ms = 0 ∧
        (sw_runs s ticks).long_fired = 0 ∧
        ticks.foldl (fun (c : Nat) x => if x.1 = 0 then c + 1 else 0) c = 0) ∨
      ((sw_runs s ticks).last_level = 0 ∧
        (sw_runs s ticks).hold_ms =
          10 * ((ticks.foldl (fun (c : Nat) x => if x.1 = 0 then c + 1 else 0) c : Nat) : Int) ∧
        1 ≤ ticks.foldl (fun (c : Nat) x => if x.1 = 0 then c + 1 else 0) c ∧
        ((sw_runs s ticks).long_fired ≠ 0 → (sw_runs s ticks).hold_ms ≥ 400)) := by
  induction ticks generalizing s c with
  | nil => exact hinv
  | cons x rest ih =>
    have hx : x.1 ≤ 1 := hl x (List.mem_cons_self _ _)
    simp only [List.length_cons] at hb
    have hstep := sw_inv_step s c x.1 x.2 hx (by push_cast at hb; omega) hinv
    have hc : (if x.1 = 0 then c + 1 else 0) ≤ c + 1 := by split_ifs <;> omega
    have := ih (sw_handle_one s x.1 x.2 400).1 (if x.1 = 0 then c + 1 else 0)
      (fun y hy => hl y (List.mem_cons_of_mem _ hy)) (by push_cast at hb ⊢; omega) hstep
    simpa only [sw_runs, List.foldl_cons, LONG_MS] using this

theorem fs_runs_append (s : fs_state) (l1 l2 : List (Nat × expfs_btncfg_t)) :
    fs_runs s (l1 ++ l2) = fs_runs (fs_runs s l1) l2 := by
  induction l1 generalizing s with
  | nil => rfl
  | cons x xs ih => simp [fs_runs, ih]

theorem sw_runs_append (s : sw_state_t) (l1 l2 : List (Nat × expfs_btncfg_t)) :
    sw_runs s (l1 ++ l2) = sw_runs (sw_runs s l1) l2 := by
  induction l1 generalizing s with
  | nil => rfl
  | cons x xs ih => simp [sw_runs, ih]

/-- One tick of `handle_fs_one` from cells whose level is 0 or 1 and which are clean when
released: the sampled level is stored, and a released level leaves `hold_ms = 0` and
`long_fired = 0`.  No bound on `hold_ms` is needed. -/
theorem fs_released_step (s : fs_state) (now : Nat) (m : expfs_btncfg_t) (hn : now ≤ 1)
    (hs : s.last_level ≤ 1) (hr : s.last_level = 1 → s.hold_ms = 0 ∧ s.long_fired = 0) :
    (handle_fs_one s now m).1.last_level = now ∧
      (now = 1 → (handle_fs_one s now m).1.hold_ms = 0 ∧
        (handle_fs_one s now m).1.long_fired = 0) := by
  obtain ⟨l, h, lf, ab⟩ := s
  obtain ⟨pm, cc⟩ := m
  simp only at hs hr
  interval_cases l <;> interval_cases now
  · rw [fs_step_held]; simp
  · rw [fs_step_up]; simp
  · rw [fs_step_down]; simp
  · rw [fs_step_idle]; simpa using hr

/-- The same for `sw_handle_one` with `long_ms = 400`. -/
theorem sw_released_step (s : sw_state_t) (now : Nat) (m : expfs_btncfg_t) (hn : now ≤ 1)
    (hs : s.last_level ≤ 1) (hr : s.last_level = 1 → s.hold_ms = 0 ∧ s.long_fired = 0) :
    (sw_handle_one s now m 400).1.last_level = now ∧
      (now = 1 → (sw_handle_one s now m 400).1.hold_ms = 0 ∧
        (sw_handle_one s now m 400).1.long_fired = 0) := by
  obtain ⟨l, h, lf, tab, ps⟩ := s
  obtain ⟨pm, cc⟩ := m
  simp only at hs hr
  interval_cases l <;> interval_cases now
  · rw [sw_step_held]; simp
  · rw [sw_step_up]; simp
  · rw [sw_step_down]; simp
  · rw [sw_step_idle]; simpa using hr

/-- The consecutive pressed ticks at the end of a sequence extended by one tick. -/
theorem trailing_pressed_snoc (l : List (Nat × expfs_btncfg_t)) (x : Nat × expfs_btncfg_t) :
    (((l ++ [x]).reverse.takeWhile (fun y => y.1 = 0)).length) =
      if x.1 = 0 then ((l.reverse.takeWhile (fun y => y.1 = 0)).length) + 1 else 0 := by
  rw [List.reverse_append]
  simp only [List.reverse_cons, List.reverse_nil, List.nil_append, List.singleton_append,
    List.takeWhile_cons]
  by_cases hx : x.1 = 0
  · simp [hx]
  · simp [hx]

/-- The invariant of `handle_fs_one` from the initial state, for every sequence of ticks.
Released cells are clean whatever happened before; the count of `hold_ms` needs only that
the current hold has not overflowed. -/
theorem fs_runs_trailing (ticks : List (Nat × expfs_btncfg_t)) (hl : ∀ x ∈ ticks, x.1 ≤ 1) :
    ((fs_runs fs_init ticks).last_level ≤ 1 ∧
      ((fs_runs fs_init ticks).last_level = 1 →
        (fs_runs fs_init ticks).hold_ms = 0 ∧ (fs_runs fs_init ticks).long_fired = 0)) ∧
    (10 * ((ticks.reverse.takeWhile (fun x => x.1 = 0)).length : Int) < 2147483648 →
      ((fs_runs fs_init ticks).last_level = 1 ∧ (fs_runs fs_init ticks).hold_ms = 0 ∧
          (fs_runs fs_init ticks).long_fired = 0 ∧
          (ticks.reverse.takeWhile (fun x => x.1 = 0)).length = 0) ∨
        ((fs_runs fs_init ticks).last_level = 0 ∧
          (fs_runs fs_init ticks).hold_ms =
            10 * ((ticks.reverse.takeWhile (fun x => x.1 = 0)).length : Int) ∧
          1 ≤ (ticks.reverse.takeWhile (fun x => x.1 = 0)).length ∧
          ((fs_runs fs_init ticks).long_fired ≠ 0 → (fs_runs fs_init ticks).hold_ms ≥ 400))) := by
  induction ticks using List.reverseRecOn with
  | nil =>
    exact ⟨⟨by decide, fun _ => ⟨rfl, rfl⟩⟩, fun _ => Or.inl ⟨rfl, rfl, rfl, rfl⟩⟩
  | append_singleton l x ih =>
    have hx : x.1 ≤ 1 := hl x (by simp)
    obtain ⟨⟨hw1, hw2⟩, hstrong⟩ := ih (fun y hy => hl y (by simp [hy]))
    have hrun : fs_runs fs_init (l ++ [x]) = (handle_fs_one (fs_runs fs_init l) x.1 x.2).1 := by
      rw [fs_runs_append]; rfl
    obtain ⟨hlast, hrel⟩ := fs_released_step (fs_runs fs_init l) x.1 x.2 hx hw1 hw2
    rw [hrun, trailing_pressed_snoc]
    refine ⟨⟨by rw [hlast]; exact hx, fun h1 => hrel (by rw [hlast] at h1; exact h1)⟩, ?_⟩
    intro hb
    by_cases hx0 : x.1 = 0
    · rw [if_pos hx0] at hb ⊢
      have hb1 : 10 * ((l.reverse.takeWhile (fun y => y.1 = 0)).length : Int) < 2147483648 := by
        push_cast at hb; omega
      have hstep := fs_inv_step (fs_runs fs_init l)
        (l.reverse.takeWhile (fun y => y.1 = 0)).length x.1 x.2 hx
        (by push_cast at hb; omega) (hstrong hb1)
      rw [if_pos hx0] at hstep
      exact hstep
    · rw [if_neg hx0]
      have hx1 : x.1 = 1 := by omega
      obtain ⟨h1, h2⟩ := hrel hx1
      exact Or.inl ⟨by rw [hlast]; exact hx1, h1, h2, rfl⟩

/-- The invariant of `sw_handle_one` with `long_ms = 400` from the initial state, for every
sequence of ticks. -/
theorem sw_runs_trailing (ticks : List (Nat × expfs_btncfg_t)) (hl : ∀ x ∈ ticks, x.1 ≤ 1) :
    ((sw_runs sw_init ticks).last_level ≤ 1 ∧
      ((sw_runs sw_init ticks).last_level = 1 →
        (sw_runs sw_init ticks).hold_ms = 0 ∧ (sw_runs sw_init ticks).long_fired = 0)) ∧
    (10 * ((ticks.reverse.takeWhile (fun x => x.1 = 0)).length : Int) < 2147483648 →
      ((sw_runs sw_init ticks).last_level = 1 ∧ (sw_runs sw_init ticks).hold_ms = 0 ∧
          (sw_runs sw_init ticks).long_fired = 0 ∧
          (ticks.reverse.takeWhile (fun x => x.1 = 0)).length = 0) ∨
        ((sw_runs sw_init ticks).last_level = 0 ∧
          (sw_runs sw_init ticks).hold_ms =
            10 * ((ticks.reverse.takeWhile (fun x => x.1 = 0)).length : Int) ∧
          1 ≤ (ticks.reverse.takeWhile (fun x => x.1 = 0)).length ∧
          ((sw_runs sw_init ticks).long_fired ≠ 0 → (sw_runs sw_init ticks).hold_ms ≥ 400))) := by
  induction ticks using List.reverseRecOn with
  | nil =>
    exact ⟨⟨by decide, fun _ => ⟨rfl, rfl⟩⟩, fun _ => Or.inl ⟨rfl, rfl, rfl, rfl⟩⟩
  | append_singleton l x ih =>
    have hx : x.1 ≤ 1 := hl x (by simp)
    obtain ⟨⟨hw1, hw2⟩, hstrong⟩ := ih (fun y hy => hl y (by simp [hy]))
    have hrun : sw_runs sw_init (l ++ [x]) =
        (sw_handle_one (sw_runs sw_init l) x.1 x.2 400).1 := by
      rw [sw_runs_append]; rfl
    obtain ⟨hlast, hrel⟩ := sw_released_step (sw_runs sw_init l) x.1 x.2 hx hw1 hw2
    rw [hrun, trailing_pressed_snoc]
    refine ⟨⟨by rw [hlast]; exact hx, fun h1 => hrel (by rw [hlast] at h1; exact h1)⟩, ?_⟩
    intro hb
    by_cases hx0 : x.1 = 0
    · rw [if_pos hx0] at hb ⊢
      have hb1 : 10 * ((l.reverse.takeWhile (fun y => y.1 = 0)).length : Int) < 2147483648 := by
        push_cast at hb; omega
      have hstep := sw_inv_step (sw_runs sw_init l)
        (l.reverse.takeWhile (fun y => y.1 = 0)).length x.1 x.2 hx
        (by push_cast at hb; omega) (hstrong hb1)
      rw [if_pos hx0] at hstep
      exact hstep
    · rw [if_neg hx0]
      have hx1 : x.1 = 1 := by omega
      obtain ⟨h1, h2⟩ := hrel hx1
      exact Or.inl ⟨by rw [hlast]; exact hx1, h1, h2, rfl⟩

/-- C23. Both state machines (`sw_handle_one` with `long_ms = 400`), from the initial state,
for every sequence of ticks, each with its own level (0 or 1) and its own configuration.
After the last tick the stored level is 0 or 1; if it is released then `hold_ms = 0` and
`long_fired = 0`; `long_fired ≠ 0` implies that it is pressed.  These hold whatever the
length of the run and of the earlier holds.  If moreover the hold in progress has not
overflowed `hold_ms` (10 times the number of consecutive pressed ticks ending at this tick is
in the range of `int`): if the stored level is pressed then `hold_ms` is 10 times that
number, and `long_fired ≠ 0` implies `hold_ms ≥ 400`.  Every prefix of a sequence is a
sequence, so this holds after each tick. -/
theorem hold_ms_invariant (ticks : List (Nat × expfs_btncfg_t))
    (hl : ∀ x ∈ ticks, x.1 ≤ 1) :
    (((fs_runs fs_init ticks).last_level = 1 →
        (fs_runs fs_init ticks).hold_ms = 0 ∧ (fs_runs fs_init ticks).long_fired = 0) ∧
      ((fs_runs fs_init ticks).long_fired ≠ 0 → (fs_runs fs_init ticks).last_level = 0) ∧
      ((fs_runs fs_init ticks).last_level = 0 ∨ (fs_runs fs_init ticks).last_level = 1) ∧
      (10 * ((ticks.reverse.takeWhile (fun x => x.1 = 0)).length : Int) < 2147483648 →
        ((fs_runs fs_init ticks).last_level = 0 →
          (fs_runs fs_init ticks).hold_ms =
            10 * ((ticks.reverse.takeWhile (fun x => x.1 = 0)).length : Int)) ∧
        ((fs_runs fs_init ticks).long_fired ≠ 0 → (fs_runs fs_init ticks).hold_ms ≥ 400))) ∧
    (((sw_runs sw_init ticks).last_level = 1 →
        (sw_runs sw_init ticks).hold_ms = 0 ∧ (sw_runs sw_init ticks).long_fired = 0) ∧
      ((sw_runs sw_init ticks).long_fired ≠ 0 → (sw_runs sw_init ticks).last_level = 0) ∧
      ((sw_runs sw_init ticks).last_level = 0 ∨ (sw_runs sw_init ticks).last_level = 1) ∧
      (10 * ((ticks.reverse.takeWhile (fun x => x.1 = 0)).length : Int) < 2147483648 →
        ((sw_runs sw_init ticks).last_level = 0 →
          (sw_runs sw_init ticks).hold_ms =
            10 * ((ticks.reverse.takeWhile (fun x => x.1 = 0)).length : Int)) ∧
        ((sw_runs sw_init ticks).long_fired ≠ 0 → (sw_runs sw_init ticks).hold_ms ≥ 400))) := by
  obtain ⟨⟨hf1, hf2⟩, hf3⟩ := fs_runs_trailing ticks hl
  obtain ⟨⟨hs1, hs2⟩, hs3⟩ := sw_runs_trailing ticks hl
  refine ⟨⟨hf2, fun h => ?_, by omega, fun hb => ?_⟩, ⟨hs2, fun h => ?_, by omega, fun hb => ?_⟩⟩
  · by_contra h0
    exact h (hf2 (by omega)).2
  · rcases hf3 hb with ⟨h1, -, h3, -⟩ | ⟨-, h2, -, h4⟩
    · exact ⟨fun h => by omega, fun h => absurd h3 h⟩
    · exact ⟨fun _ => h2, h4⟩
  · by_contra h0
    exact h (hs2 (by omega)).2
  · rcases hs3 hb with ⟨h1, -, h3, -⟩ | ⟨-, h2, -, h4⟩
    · exact ⟨fun h => by omega, fun h => absurd h3 h⟩
    · exact ⟨fun _ => h2, h4⟩

/-- Witness for C23: a press and a release, then three pressed ticks under three different
configurations; `hold_ms = 30`. -/
theorem hold_ms_invariant_witness :
    (∀ x ∈ ([(0, ⟨BTN_SHORT, CC_NORMAL⟩), (1, ⟨BTN_TOGGLE, CC_MOMENTARY⟩),
        (0, ⟨BTN_SHORT_LONG, CC_NORMAL⟩), (0, ⟨BTN_TOGGLE, CC_MOMENTARY⟩),
        (0, ⟨BTN_SHORT, CC_NORMAL⟩)] : List (Nat × expfs_btncfg_t)), x.1 ≤ 1) ∧
    10 * ((([(0, ⟨BTN_SHORT, CC_NORMAL⟩), (1, ⟨BTN_TOGGLE, CC_MOMENTARY⟩),
        (0, ⟨BTN_SHORT_LONG, CC_NORMAL⟩), (0, ⟨BTN_TOGGLE, CC_MOMENTARY⟩),
        (0, ⟨BTN_SHORT, CC_NORMAL⟩)] : List (Nat × expfs_btncfg_t)).reverse.takeWhile
          (fun x => x.1 = 0)).length : Int) < 2147483648 ∧
    (fs_runs fs_init [(0, ⟨BTN_SHORT, CC_NORMAL⟩), (1, ⟨BTN_TOGGLE, CC_MOMENTARY⟩),
        (0, ⟨BTN_SHORT_LONG, CC_NORMAL⟩), (0, ⟨BTN_TOGGLE, CC_MOMENTARY⟩),
        (0, ⟨BTN_SHORT, CC_NORMAL⟩)]).last_level = 0 ∧
    (fs_runs fs_init [(0, ⟨BTN_SHORT, CC_NORMAL⟩), (1, ⟨BTN_TOGGLE, CC_MOMENTARY⟩),
        (0, ⟨BTN_SHORT_LONG, CC_NORMAL⟩), (0, ⟨BTN_TOGGLE, CC_MOMENTARY⟩),
        (0, ⟨BTN_SHORT, CC_NORMAL⟩)]).hold_ms =
      10 * ((([(0, ⟨BTN_SHORT, CC_NORMAL⟩), (1, ⟨BTN_TOGGLE, CC_MOMENTARY⟩),
        (0, ⟨BTN_SHORT_LONG, CC_NORMAL⟩), (0, ⟨BTN_TOGGLE, CC_MOMENTARY⟩),
        (0, ⟨BTN_SHORT, CC_NORMAL⟩)] : List (Nat × expfs_btncfg_t)).reverse.takeWhile
          (fun x => x.1 = 0)).length : Int) :=
  ⟨by decide, by decide, by decide,
    ((hold_ms_invariant [(0, ⟨BTN_SHORT, CC_NORMAL⟩), (1, ⟨BTN_TOGGLE, CC_MOMENTARY⟩),
        (0, ⟨BTN_SHORT_LONG, CC_NORMAL⟩), (0, ⟨BTN_TOGGLE, CC_MOMENTARY⟩),
        (0, ⟨BTN_SHORT, CC_NORMAL⟩)] (by decide)).1.2.2.2 (by decide)).1 (by decide)⟩

/-! ## First-sample policy of `exp_handle_one` -/

end Expfs
